import Mathlib

/-!
Movie platform: the user-collection handlers

A shallow embedding of the five collection handlers of
`server/controllers/movieController.js` (`addFavoriteMovie`,
`removeFavoriteMovie`, `createWatchlist`, `addMovieToWatchlist`,
`removeMovieFromWatchlist`) over the account schema of `server/models/User.js`,
of the handlers `registerUser`, `getUserProfile` and `updateUserProfile` of
`server/controllers/userController.js`, and of the auth gate in front of the
private routes.

* A request body field is a `JsVal`: the handlers test it with JavaScript
  truthiness and compare it with `===`, so its dynamic type matters.
* Numbers are integers (`Int`); fractional and non-finite numbers are outside
  the embedding.
* The JavaScript and Mongoose builtins the handlers call (`toLowerCase`,
  `parseInt`, `Number`, number formatting, ObjectId casting, the password hash)
  are the fields of a `Runtime`; the general theorems hold for every runtime,
  and `nodeRuntime` implements them on ASCII input for the concrete examples.
* The collection of accounts is a `Store`; `findById` and `save` can be
  rejected by the persistence client, which a `Persistence` record decides
  for one request.  A rejected call leaves the store as it was.
* The ids that Mongoose gives to the elements of `favoriteMovies` and of
  `movies`, and the timestamps of the record, are read by no handler and are
  left out of the records.
* The unique indexes that the schema declares are among the reasons for which a
  write is rejected; the index on the favorite ids is also given as a check of
  its own, `uniqueIndexRejects`.
* The middleware `protect` is not among the sources; it is modelled from the
  spec, as are the outcomes of the token verification.
-/

namespace MoviePlatform

/-! ## Request values -/

/-- A value of a parsed JSON body as a handler sees it after destructuring:
an absent field reads `undefined`; `obj` stands for any array or plain object. -/
inductive JsVal where
  | undefined
  | null
  | bool (b : Bool)
  | num (n : Int)
  | str (s : String)
  | obj
  deriving DecidableEq

/-- JavaScript truthiness: `!v` is `false` exactly when `truthy v`. -/
def JsVal.truthy : JsVal → Bool
  | .undefined => false
  | .null => false
  | .bool b => b
  | .num n => n != 0
  | .str s => s != ""
  | .obj => true

/-- The comparison `stored === v` of a stored Number with a request value: it holds
only for a number of the same value. -/
def strictEqNumber (stored : Int) : JsVal → Bool
  | .num n => stored == n
  | _ => false

/-- A nullable string field of a well-typed request. -/
def JsVal.ofOptString : Option String → JsVal
  | some s => .str s
  | none => .undefined

/-- Identifier of an account or of a watchlist subdocument (a Mongo ObjectId). -/
abbrev ObjectId := Nat

/-! ## Builtins -/

/-- The builtins of the JavaScript runtime and of Mongoose that the handlers call. -/
structure Runtime where
  /-- The method `String.prototype.toLowerCase`. -/
  toLowerCase : String → String
  /-- The function `parseInt(s)`; `none` is `NaN`. -/
  parseInt : String → Option Int
  /-- The conversion `Number(s)` of a string; `none` is `NaN`. -/
  toNumber : String → Option Int
  /-- The conversion `n.toString()` of a number. -/
  numberToString : Int → String
  /-- Mongoose's cast of a route parameter to an ObjectId; `none` when it does not cast. -/
  castObjectId : String → Option ObjectId
  /-- The function `bcrypt.hash(password, salt)`. -/
  hash : String → String → String

/-- Mongoose's `castNumber` on a request value. The outer `none` is a CastError; the
inner `none` is the `null` that an absent value or the empty string casts to. -/
def castNumber (rt : Runtime) : JsVal → Option (Option Int)
  | .undefined => some none
  | .null => some none
  | .bool b => some (some (if b then 1 else 0))
  | .num n => some (some n)
  | .str s => if s = "" then some none else (rt.toNumber s).map some
  | .obj => none

/-- Mongoose's `castString` on a request value, with the same reading of the result
as `castNumber`. -/
def castString (rt : Runtime) : JsVal → Option (Option String)
  | .undefined => some none
  | .null => some none
  | .bool b => some (some (if b then "true" else "false"))
  | .num n => some (some (rt.numberToString n))
  | .str s => some (some s)
  | .obj => none

/-! ## The account schema (`User.js`) -/

/-- An element of `favoriteMovies`. -/
structure FavoriteMovie where
  tmdbId : Int
  title : String
  posterPath : Option String
  releaseDate : Option String
  deriving DecidableEq

/-- An element of the `movies` of a watchlist. -/
structure WatchlistMovie where
  tmdbId : Int
  title : String
  posterPath : Option String
  deriving DecidableEq

/-- An element of `watchlists`; `_id` is the subdocument id that `watchlists.id` looks up. -/
structure Watchlist where
  _id : ObjectId
  name : String
  movies : List WatchlistMovie
  deriving DecidableEq

/-- One account record: the paths of the schema that the handlers read and write. The
stamps `createdAt` and `updatedAt` of `timestamps: true` and the version key, which
Mongoose maintains on its own, are not part of the record. -/
structure User where
  _id : ObjectId
  username : String
  email : String
  password : String
  favoriteMovies : List FavoriteMovie
  watchlists : List Watchlist
  deriving DecidableEq

/-- The users collection. -/
abbrev Store := List User

/-- A loaded Mongoose document: the record, whether a setter recorded a CastError
(reported by the validation that `save` runs), and `isModified('password')`. -/
structure Document where
  data : User
  invalid : Bool
  passwordModified : Bool
  deriving DecidableEq

/-- What the persistence client and the id generator do during one request. -/
structure Persistence where
  /-- The call `User.findById` resolves. -/
  loadOk : Bool
  /-- The write of `user.save()` resolves. -/
  saveOk : Bool
  /-- The ObjectId given to a subdocument created by this request. -/
  newId : ObjectId
  /-- The salt that `bcrypt.genSalt` returns. -/
  salt : String

/-- The stored record of an account, if there is one. -/
def Store.lookup (db : Store) (id : ObjectId) : Option User :=
  db.find? (fun u => u._id == id)

/-- The lookup `User.findById(id)`: `none` is a rejected promise, `some none` is `null`. -/
def findById (io : Persistence) (db : Store) (id : ObjectId) : Option (Option Document) :=
  if io.loadOk then some ((db.lookup id).map (fun u => ⟨u, false, false⟩))
  else none

/-- The hook `userSchema.pre('save')`: hash the password when it was modified. -/
def preSave (rt : Runtime) (io : Persistence) (doc : Document) : Document :=
  if !doc.passwordModified then doc
  else { doc with data := { doc.data with password := rt.hash doc.data.password io.salt } }

/-- The write of a record over the stored record of the same id. -/
def Store.write (db : Store) (u : User) : Store :=
  db.map (fun v => if v._id == u._id then u else v)

/-- The call `user.save()`: validation, then the pre-save hook, then the write of the
whole record. `none` is a rejected promise, and the store is then as before. -/
def save (rt : Runtime) (io : Persistence) (db : Store) (doc : Document) : Option Store :=
  if doc.invalid then none
  else if !io.saveOk then none
  else some (db.write (preSave rt io doc).data)

/-! ## Responses -/

/-- The collection a response carries next to its message. -/
inductive Payload where
  | none
  | favoriteMovies (l : List FavoriteMovie)
  | watchlists (l : List Watchlist)
  | watchlist (w : Watchlist)
  deriving DecidableEq

/-- The reply `res.status(status).json(...)`. -/
structure Response where
  status : Nat
  message : String
  payload : Payload
  deriving DecidableEq

/-- A reply that carries a message only. -/
def reply (status : Nat) (message : String) : Response := ⟨status, message, .none⟩

/-! ## Handlers (`movieController.js`) -/

/-- The body of `POST /favorites`. -/
structure FavoriteBody where
  tmdbId : JsVal
  title : JsVal
  posterPath : JsVal
  releaseDate : JsVal

/-- The subdocument that `favoriteMovies.push` builds from the body; `none` when a
field does not cast (or the id or title casts to `null`, which the presence check of
the handler excludes). -/
def castFavoriteMovie (rt : Runtime) (b : FavoriteBody) : Option FavoriteMovie :=
  match castNumber rt b.tmdbId, castString rt b.title, castString rt b.posterPath,
      castString rt b.releaseDate with
  | some (some id), some (some t), some pp, some rd => some ⟨id, t, pp, rd⟩
  | _, _, _, _ => none

/-- The statement `user.favoriteMovies.push(...)`: on a CastError the document is
marked invalid and `save` will reject. -/
def pushFavorite (rt : Runtime) (doc : Document) (b : FavoriteBody) : Document :=
  match castFavoriteMovie rt b with
  | some m => { doc with data := { doc.data with favoriteMovies := doc.data.favoriteMovies ++ [m] } }
  | none => { doc with invalid := true }

/-- The handler `addFavoriteMovie`. -/
def addFavoriteMovie (rt : Runtime) (io : Persistence) (db : Store) (uid : ObjectId)
    (b : FavoriteBody) : Response × Store :=
  if !b.tmdbId.truthy || !b.title.truthy then
    (reply 400 "Movie ID and title are required.", db)
  else
    match findById io db uid with
    | none => (reply 500 "Server error adding favorite movie", db)
    | some none => (reply 404 "User not found", db)
    | some (some user) =>
      let isFavorite := user.data.favoriteMovies.any (fun movie => strictEqNumber movie.tmdbId b.tmdbId)
      if isFavorite then
        (reply 409 "Movie already in favorites", db)
      else
        let user := pushFavorite rt user b
        match save rt io db user with
        | none => (reply 500 "Server error adding favorite movie", db)
        | some db' =>
          (⟨200, "Movie added to favorites", .favoriteMovies user.data.favoriteMovies⟩, db')

/-- The test `movie.tmdbId !== parseInt(tmdbId)`; it holds for every movie when the
parameter parses to `NaN`. -/
def strictNeParsed (stored : Int) : Option Int → Bool
  | some n => stored != n
  | none => true

/-- The handler `removeFavoriteMovie`; `tmdbId` is the route parameter. -/
def removeFavoriteMovie (rt : Runtime) (io : Persistence) (db : Store) (uid : ObjectId)
    (tmdbId : String) : Response × Store :=
  match findById io db uid with
  | none => (reply 500 "Server error removing favorite movie", db)
  | some none => (reply 404 "User not found", db)
  | some (some user) =>
    let initialLength := user.data.favoriteMovies.length
    let user : Document := { user with data := { user.data with
      favoriteMovies := user.data.favoriteMovies.filter
        (fun movie => strictNeParsed movie.tmdbId (rt.parseInt tmdbId)) } }
    if user.data.favoriteMovies.length == initialLength then
      (reply 404 "Movie not found in favorites", db)
    else
      match save rt io db user with
      | none => (reply 500 "Server error removing favorite movie", db)
      | some db' =>
        (⟨200, "Movie removed from favorites", .favoriteMovies user.data.favoriteMovies⟩, db')

/-- The method call `v.toLowerCase()`: a TypeError (`none`) unless `v` is a string. -/
def callToLowerCase (rt : Runtime) : JsVal → Option String
  | .str s => some (rt.toLowerCase s)
  | _ => none

/-- The method `Array.prototype.some` with a callback that can throw: elements are
tested in order up to the first hit, and the first exception (`none`) ends the call. -/
def someThrowing {α : Type} (p : α → Option Bool) : List α → Option Bool
  | [] => some false
  | x :: xs =>
    match p x with
    | none => none
    | some true => some true
    | some false => someThrowing p xs

/-- The statement `user.watchlists.push(...)` of a watchlist with the name and no movies. -/
def pushWatchlist (rt : Runtime) (io : Persistence) (doc : Document) (name : JsVal) : Document :=
  match castString rt name with
  | some (some n) =>
    { doc with data := { doc.data with watchlists := doc.data.watchlists ++ [⟨io.newId, n, []⟩] } }
  | _ => { doc with invalid := true }

/-- The handler `createWatchlist`; `name` is the field of the body. -/
def createWatchlist (rt : Runtime) (io : Persistence) (db : Store) (uid : ObjectId)
    (name : JsVal) : Response × Store :=
  if !name.truthy then
    (reply 400 "Watchlist name is required.", db)
  else
    match findById io db uid with
    | none => (reply 500 "Server error creating watchlist", db)
    | some none => (reply 404 "User not found", db)
    | some (some user) =>
      match someThrowing (fun wl => (callToLowerCase rt name).map
          (fun lowered => rt.toLowerCase wl.name == lowered)) user.data.watchlists with
      | none => (reply 500 "Server error creating watchlist", db)
      | some true => (reply 409 "Watchlist with this name already exists.", db)
      | some false =>
        let user := pushWatchlist rt io user name
        match save rt io db user with
        | none => (reply 500 "Server error creating watchlist", db)
        | some db' =>
          (⟨201, "Watchlist created successfully", .watchlists user.data.watchlists⟩, db')

/-- The body of `POST /watchlists/:watchlistId/add`. -/
structure WatchlistMovieBody where
  tmdbId : JsVal
  title : JsVal
  posterPath : JsVal

/-- The subdocument that `watchlist.movies.push` builds from the body. -/
def castWatchlistMovie (rt : Runtime) (b : WatchlistMovieBody) : Option WatchlistMovie :=
  match castNumber rt b.tmdbId, castString rt b.title, castString rt b.posterPath with
  | some (some id), some (some t), some pp => some ⟨id, t, pp⟩
  | _, _, _ => none

/-- The lookup `user.watchlists.id(watchlistId)`: the first watchlist whose `_id` is
the cast parameter, `none` when the parameter does not cast or no watchlist has it. -/
def watchlistById (rt : Runtime) (wls : List Watchlist) (watchlistId : String) : Option Watchlist :=
  match rt.castObjectId watchlistId with
  | none => none
  | some oid => wls.find? (fun wl => wl._id == oid)

/-- The in-place update of the watchlist that `watchlists.id` returned: `watchlist`
is a reference into the document, so assigning its `movies` changes that element. -/
def setMovies (wls : List Watchlist) (target : Watchlist) (movies : List WatchlistMovie) :
    List Watchlist :=
  match wls with
  | [] => []
  | wl :: rest =>
    if wl._id == target._id then { wl with movies := movies } :: rest
    else wl :: setMovies rest target movies

/-- The statement `watchlist.movies.push(...)` on the watchlist that `watchlists.id`
returned: the document with that watchlist extended, and the extended watchlist; on a
CastError the document is marked invalid and `save` will reject. -/
def pushWatchlistMovie (rt : Runtime) (doc : Document) (watchlist : Watchlist)
    (b : WatchlistMovieBody) : Document × Watchlist :=
  match castWatchlistMovie rt b with
  | some m =>
    let movies := watchlist.movies ++ [m]
    ({ doc with data := { doc.data with watchlists := setMovies doc.data.watchlists watchlist movies } },
      { watchlist with movies := movies })
  | none => ({ doc with invalid := true }, watchlist)

/-- The handler `addMovieToWatchlist`. -/
def addMovieToWatchlist (rt : Runtime) (io : Persistence) (db : Store) (uid : ObjectId)
    (watchlistId : String) (b : WatchlistMovieBody) : Response × Store :=
  if !b.tmdbId.truthy || !b.title.truthy then
    (reply 400 "Movie ID and title are required.", db)
  else
    match findById io db uid with
    | none => (reply 500 "Server error adding movie to watchlist", db)
    | some none => (reply 404 "User not found", db)
    | some (some user) =>
      match watchlistById rt user.data.watchlists watchlistId with
      | none => (reply 404 "Watchlist not found", db)
      | some watchlist =>
        let movieExistsInWatchlist :=
          watchlist.movies.any (fun movie => strictEqNumber movie.tmdbId b.tmdbId)
        if movieExistsInWatchlist then
          (reply 409 "Movie already in this watchlist", db)
        else
          let pushed := pushWatchlistMovie rt user watchlist b
          match save rt io db pushed.1 with
          | none => (reply 500 "Server error adding movie to watchlist", db)
          | some db' => (⟨200, "Movie added to watchlist", .watchlist pushed.2⟩, db')

/-- The handler `removeMovieFromWatchlist`. -/
def removeMovieFromWatchlist (rt : Runtime) (io : Persistence) (db : Store) (uid : ObjectId)
    (watchlistId : String) (tmdbId : String) : Response × Store :=
  match findById io db uid with
  | none => (reply 500 "Server error removing movie from watchlist", db)
  | some none => (reply 404 "User not found", db)
  | some (some user) =>
    match watchlistById rt user.data.watchlists watchlistId with
    | none => (reply 404 "Watchlist not found", db)
    | some watchlist =>
      let initialLength := watchlist.movies.length
      let kept := watchlist.movies.filter
        (fun movie => strictNeParsed movie.tmdbId (rt.parseInt tmdbId))
      let watchlist : Watchlist := { watchlist with movies := kept }
      let user : Document := { user with data := { user.data with
        watchlists := setMovies user.data.watchlists watchlist watchlist.movies } }
      if watchlist.movies.length == initialLength then
        (reply 404 "Movie not found in this watchlist", db)
      else
        match save rt io db user with
        | none => (reply 500 "Server error removing movie from watchlist", db)
        | some db' => (⟨200, "Movie removed from watchlist", .watchlist watchlist⟩, db')

/-- A request to one of the five private routes of `movieRoutes.js`. -/
inductive Request where
  | addFavorite (b : FavoriteBody)
  | removeFavorite (tmdbId : String)
  | createWatchlist (name : JsVal)
  | addToWatchlist (watchlistId : String) (b : WatchlistMovieBody)
  | removeFromWatchlist (watchlistId : String) (tmdbId : String)

/-- The router: each private route runs its handler for the authenticated account. -/
def handle (rt : Runtime) (io : Persistence) (db : Store) (uid : ObjectId) :
    Request → Response × Store
  | .addFavorite b => addFavoriteMovie rt io db uid b
  | .removeFavorite tmdbId => removeFavoriteMovie rt io db uid tmdbId
  | .createWatchlist name => createWatchlist rt io db uid name
  | .addToWatchlist watchlistId b => addMovieToWatchlist rt io db uid watchlistId b
  | .removeFromWatchlist watchlistId tmdbId => removeMovieFromWatchlist rt io db uid watchlistId tmdbId

/-! ## Properties of records -/

/-- The external ids of the favorites of an account, in stored order. -/
def favoriteIds (u : User) : List Int := u.favoriteMovies.map (fun m => m.tmdbId)

/-- The favorites of an account have pairwise distinct external ids. -/
def favoritesUnique (u : User) : Prop := (favoriteIds u).Nodup

instance (u : User) : Decidable (favoritesUnique u) :=
  inferInstanceAs (Decidable (favoriteIds u).Nodup)

/-- Every stored account has favorites with pairwise distinct external ids. -/
def Store.favoritesUnique (db : Store) : Prop := ∀ u ∈ db, MoviePlatform.favoritesUnique u

/-- No two watchlists of an account have names that are equal ignoring case. -/
def watchlistNamesUnique (rt : Runtime) (u : User) : Prop :=
  u.watchlists.Pairwise (fun a b => rt.toLowerCase a.name ≠ rt.toLowerCase b.name)

/-- The outcome is one of the failure statuses 400, 404, 409, 500. -/
def Response.isFailure (r : Response) : Prop :=
  r.status = 400 ∨ r.status = 404 ∨ r.status = 409 ∨ r.status = 500

/-! ## A concrete runtime

The builtins on ASCII input, for evaluating the handlers on concrete requests.
`parseInt` follows ECMAScript (leading white space, a sign, an optional `0x`, the
longest run of digits); `Number` is given on integer literals and is `NaN` elsewhere;
`toLowerCase` maps the letters `A` to `Z`. -/

/-- The white space that `parseInt` and `Number` skip (StrWhiteSpaceChar). -/
def isWhiteSpace (c : Char) : Bool :=
  let n := c.toNat
  (9 ≤ n && n ≤ 13) || n == 32 || n == 160 || n == 5760 || (8192 ≤ n && n ≤ 8202) ||
    n == 8232 || n == 8233 || n == 8239 || n == 8287 || n == 12288 || n == 65279

/-- The value of a character as a digit of a radix up to 36. -/
def digitValue (c : Char) : Option Nat :=
  let n := c.toNat
  if 48 ≤ n && n ≤ 57 then some (n - 48)
  else if 97 ≤ n && n ≤ 122 then some (n - 87)
  else if 65 ≤ n && n ≤ 90 then some (n - 55)
  else none

/-- The digits of the longest leading run of digits of the radix. -/
def leadingDigits (radix : Nat) : List Char → List Nat
  | [] => []
  | c :: cs =>
    match digitValue c with
    | some d => if d < radix then d :: leadingDigits radix cs else []
    | none => []

/-- The number that a run of digits denotes. -/
def digitsValue (radix : Nat) (ds : List Nat) : Nat :=
  ds.foldl (fun acc d => acc * radix + d) 0

/-- The sign that starts a numeral, and the rest. -/
def splitSign : List Char → Bool × List Char
  | [] => (false, [])
  | c :: cs => if c.toNat == 45 then (true, cs) else if c.toNat == 43 then (false, cs) else (false, c :: cs)

/-- The radix that a prefix `0x`, `0X` announces, and the rest. -/
def splitHex : List Char → Nat × List Char
  | c :: d :: cs =>
    if c.toNat == 48 && (d.toNat == 120 || d.toNat == 88) then (16, cs) else (10, c :: d :: cs)
  | cs => (10, cs)

/-- The function `parseInt` on the characters of its argument. -/
def parseIntChars (cs : List Char) : Option Int :=
  let signed := splitSign (cs.dropWhile isWhiteSpace)
  let based := splitHex signed.2
  let ds := leadingDigits based.1 based.2
  if ds.isEmpty then none
  else some (if signed.1 then -(digitsValue based.1 ds : Int) else (digitsValue based.1 ds : Int))

/-- The conversion `Number` on the characters of an integer literal: white space around
it is dropped, the empty string is 0, and a decimal literal can carry a sign. -/
def toNumberChars (cs : List Char) : Option Int :=
  let body := ((cs.dropWhile isWhiteSpace).reverse.dropWhile isWhiteSpace).reverse
  if body.isEmpty then some 0
  else
    let based := splitHex body
    if based.1 == 16 then
      if !based.2.isEmpty && (leadingDigits 16 based.2).length == based.2.length then
        some (digitsValue 16 (leadingDigits 16 based.2) : Int)
      else none
    else
      let signed := splitSign body
      let ds := leadingDigits 10 signed.2
      if !ds.isEmpty && ds.length == signed.2.length then
        some (if signed.1 then -(digitsValue 10 ds : Int) else (digitsValue 10 ds : Int))
      else none

/-- The lower-case form of a letter `A` to `Z`. -/
def lowerChar (c : Char) : Char :=
  if 65 ≤ c.toNat && c.toNat ≤ 90 then Char.ofNat (c.toNat + 32) else c

/-- The cast of a string of 24 hexadecimal digits to an ObjectId. -/
def castObjectIdChars (cs : List Char) : Option ObjectId :=
  if cs.length == 24 && (leadingDigits 16 cs).length == 24 then
    some (digitsValue 16 (leadingDigits 16 cs))
  else none

/-- The builtins on ASCII input. The hash is a stand-in for bcrypt, which no handler
of the collections calls. -/
def nodeRuntime : Runtime where
  toLowerCase s := String.mk (s.data.map lowerChar)
  parseInt s := parseIntChars s.data
  toNumber s := toNumberChars s.data
  numberToString n := toString n
  castObjectId s := castObjectIdChars s.data
  hash password salt := salt ++ password

/-- A request served by a healthy persistence client. -/
def healthy (newId : ObjectId) : Persistence := ⟨true, true, newId, "salt"⟩

/-! ## Concrete accounts and requests -/

/-- The account `u1` with empty favorites and no watchlist. -/
def emptyAccount : User := ⟨1, "u1", "u1@example.com", "hashed", [], []⟩

/-- The account `u1` holding the favorite 42. -/
def accountWith42 : User := { emptyAccount with favoriteMovies := [⟨42, "X", none, none⟩] }

/-- The account `u1` holding the favorites 42 and 7, in this order. -/
def accountWith42And7 : User :=
  { emptyAccount with
    favoriteMovies := [⟨42, "X", none, none⟩, ⟨7, "Y", some "/y.jpg", none⟩] }

/-- The account `u1` holding the favorite 42 twice, as the add of a string id leaves it. -/
def accountWith42Twice : User :=
  { emptyAccount with favoriteMovies := [⟨42, "X", none, none⟩, ⟨42, "X", none, none⟩] }

/-- The body with the id 42 and the title "X". -/
def body42 : FavoriteBody := ⟨.num 42, .str "X", .undefined, .undefined⟩

/-- The body with the id 0 and the title "X". -/
def bodyZero : FavoriteBody := ⟨.num 0, .str "X", .undefined, .undefined⟩

/-- The body with the id sent as the string "42" and the title "X". -/
def bodyString42 : FavoriteBody := ⟨.str "42", .str "X", .undefined, .undefined⟩

/-- The account `u1` with the one watchlist "Classics", which is empty. -/
def accountWithClassics : User := { emptyAccount with watchlists := [⟨7, "Classics", []⟩] }

/-- The account `u1` with the one watchlist "Weekend", which is empty. -/
def accountWithWeekend : User := { emptyAccount with watchlists := [⟨7, "Weekend", []⟩] }

/-- The account `u1` with the empty watchlists "Classics" and "Weekend", in this order. -/
def accountWithClassicsAndWeekend : User :=
  { emptyAccount with watchlists := [⟨7, "Classics", []⟩, ⟨8, "Weekend", []⟩] }


/-! ## Properties of watchlists -/

/-- The external ids of the entries of a watchlist, in stored order. -/
def watchlistIds (w : Watchlist) : List Int := w.movies.map (fun m => m.tmdbId)

/-- The entries of every watchlist of an account have pairwise distinct external ids. -/
def watchlistsUnique (u : User) : Prop := ∀ wl ∈ u.watchlists, (watchlistIds wl).Nodup

/-- The identity of each watchlist of an account, in stored order: its id and its name. -/
def watchlistKeys (u : User) : List (ObjectId × String) :=
  u.watchlists.map (fun wl => (wl._id, wl.name))

/-! ## Concrete watchlists -/

/-- The route parameter that casts to the watchlist id 7. -/
def wid7 : String := "000000000000000000000007"

/-- The route parameter that casts to the watchlist id 8. -/
def wid8 : String := "000000000000000000000008"

/-- The account `u1` that holds 42 as a favorite and in its watchlist "Classics", next to
the empty watchlist "Weekend". -/
def accountHolding42 : User :=
  ⟨1, "u1", "u1@example.com", "hashed", [⟨42, "X", none, none⟩],
    [⟨7, "Classics", [⟨42, "X", none⟩]⟩, ⟨8, "Weekend", []⟩]⟩

/-- The account `u1` that holds 42 as a favorite and in both of its watchlists. -/
def accountHolding42Everywhere : User :=
  ⟨1, "u1", "u1@example.com", "hashed", [⟨42, "X", none, none⟩],
    [⟨7, "Classics", [⟨42, "X", none⟩]⟩, ⟨8, "Weekend", [⟨42, "X", none⟩]⟩]⟩

/-- The account `u1` without favorites whose watchlist "Classics" holds 42. -/
def accountWatching42 : User :=
  ⟨1, "u1", "u1@example.com", "hashed", [], [⟨7, "Classics", [⟨42, "X", none⟩]⟩]⟩

/-- The entry body with the id 42 and the title "X". -/
def entryBody42 : WatchlistMovieBody := ⟨.num 42, .str "X", .undefined⟩

/-- The entry body with the id 0 and the title "X". -/
def entryBodyZero : WatchlistMovieBody := ⟨.num 0, .str "X", .undefined⟩

/-- The entry body with the id 7 and the title "Y". -/
def entryBody7 : WatchlistMovieBody := ⟨.num 7, .str "Y", .undefined⟩

/-- The entry body with the id sent as the string "42" and the title "X". -/
def entryBodyString42 : WatchlistMovieBody := ⟨.str "42", .str "X", .undefined⟩

/-- The account `u1` whose one watchlist "Classics" holds the entry 7 "Y". -/
def accountClassicsWith7 : User :=
  { emptyAccount with watchlists := [⟨7, "Classics", [⟨7, "Y", none⟩]⟩] }

/-- The guard `!tmdbId || !title`, or `!name`, of the handler of the request does not fire:
every body field that the handler requires is truthy, which an absent field, an empty
string and the id 0 are not. The two remove routes have no such guard. -/
def Request.fieldsTruthy : Request → Bool
  | .addFavorite b => b.tmdbId.truthy && b.title.truthy
  | .removeFavorite _ => true
  | .createWatchlist name => name.truthy
  | .addToWatchlist _ b => b.tmdbId.truthy && b.title.truthy
  | .removeFromWatchlist _ _ => true

/-! ## The unique index of the schema

The schema declares the path `tmdbId` of the elements of `favoriteMovies` with
`type: Number, unique: true`.
Mongoose builds from it a unique index on the path `favoriteMovies.tmdbId` of the users
collection. MongoDB enforces a unique index between the records of the collection, not
between the elements of one record. In `save` the index is one of the reasons for which
the write oracle `saveOk` can be `false`; the definitions below decide the oracle by the
index alone. The index key of a record without favorites is not modelled. -/

/-- The check of the unique index on the write of a record: the write is rejected when a
favorite id that it adds to the record is a favorite id of another record. -/
def uniqueIndexRejects (db : Store) (u : User) : Bool :=
  let before := ((db.lookup u._id).map favoriteIds).getD []
  let added := (favoriteIds u).filter (fun k => !before.contains k)
  db.any (fun v => v._id != u._id && added.any (fun k => (favoriteIds v).contains k))

/-- A request served by a database that enforces the index and rejects no other call: the
load resolves, and the save resolves exactly when the index accepts the record that the
handler saves. That record is read off the run in which the save is accepted. -/
def handleIndexed (rt : Runtime) (newId : ObjectId) (db : Store) (uid : ObjectId)
    (req : Request) : Response × Store :=
  match (handle rt (healthy newId) db uid req).2.lookup uid with
  | some attempted =>
    handle rt { healthy newId with saveOk := !uniqueIndexRejects db attempted } db uid req
  | none => handle rt (healthy newId) db uid req

/-- The account A, with id 1, holding the favorite 1. -/
def accountA : User := ⟨1, "a", "a@example.com", "hashed", [⟨1, "One", none, none⟩], []⟩

/-- The account B, with id 2, holding the favorite 42. -/
def accountB42 : User := ⟨2, "b", "b@example.com", "hashed", [⟨42, "X", none, none⟩], []⟩

/-- The account B, with id 2, holding the favorite 7. -/
def accountB7 : User := ⟨2, "b", "b@example.com", "hashed", [⟨7, "Y", none, none⟩], []⟩

/-! ## The setters and validators of the schema (`User.js`) -/

/-- The method `String.prototype.trim`, the setter of `trim: true`. -/
def jsTrim (s : String) : String :=
  String.mk ((s.data.dropWhile isWhiteSpace).reverse.dropWhile isWhiteSpace).reverse

/-- The value that the setters of the `email` path (`trim`, `lowercase`) give to a string.
Mongoose runs them on an assigned value and on the value of a query filter alike. -/
def normalizeEmail (rt : Runtime) (s : String) : String := rt.toLowerCase (jsTrim s)

/-- The class `\w` of the `match` pattern of the `email` path. -/
def isWordChar (c : Char) : Bool :=
  let n := c.toNat
  (48 ≤ n && n ≤ 57) || (65 ≤ n && n ≤ 90) || (97 ≤ n && n ≤ 122) || n == 95

/-- The rest of a match of `\w+([\.-]?\w+)*` against a whole list; `afterWord` tells
whether the character before is a word character. -/
def dottedWordFrom (afterWord : Bool) : List Char → Bool
  | [] => afterWord
  | c :: cs =>
    if isWordChar c then dottedWordFrom true cs
    else if (c.toNat == 46 || c.toNat == 45) && afterWord then dottedWordFrom false cs
    else false

/-- The `match` validator of the `email` path, the pattern
`^\w+([\.-]?\w+)*@\w+([\.-]?\w+)*(\.\w{2,3})+$`: runs of word characters joined by single
dots or hyphens on both sides of one `@`, the last label of 2 or 3 word characters after
a dot. -/
def emailMatches (s : String) : Bool :=
  let mailbox := s.data.takeWhile (fun c => c.toNat != 64)
  match s.data.dropWhile (fun c => c.toNat != 64) with
  | [] => false
  | _ :: domain =>
    let label := domain.reverse.takeWhile (fun c => c.toNat != 46)
    match domain.reverse.dropWhile (fun c => c.toNat != 46) with
    | [] => false
    | _ :: before =>
      dottedWordFrom false mailbox && dottedWordFrom false before.reverse &&
        label.all isWordChar && (label.length == 2 || label.length == 3)

/-! ## The account controller (`userController.js`) -/

/-- What the account controller takes from outside the store. -/
structure AccountEnv where
  /-- The function `generateToken(id)`: `jwt.sign` with the secret of the server. -/
  generateToken : ObjectId → String
  /-- The outcome of `User.findOne` for a filter whose email is an array or an object,
  which Mongoose reads as query operators: rejected (`none`), or whether an account matches. -/
  operatorQuery : Option Bool

/-- A reply of the account controller. `unhandled` is a rejection outside every
`try`: the handler sends no reply. -/
inductive AccountReply where
  | message (status : Nat) (message : String)
  | account (status : Nat) (_id : ObjectId) (username : String) (email : String) (token : String)
  | unhandled
  deriving DecidableEq

/-- The body of `POST /register` and of `PUT /profile`. -/
structure AccountBody where
  username : JsVal
  email : JsVal
  password : JsVal

/-- The query `User.findOne` with the email of the body as filter, read for whether it
finds an account: `none` is
a rejected promise. The filter value is cast by the schema, setters included. -/
def findOneByEmail (rt : Runtime) (env : AccountEnv) (io : Persistence) (db : Store)
    (email : JsVal) : Option Bool :=
  if !io.loadOk then none
  else
    match email with
    | .obj => env.operatorQuery
    | v =>
      match castString rt v with
      | some (some s) => some (db.any (fun u => u.email == normalizeEmail rt s))
      | some none => some false
      | none => none

/-- The document that `User.create` builds from username, email and password, with an id
of its own: each
path is cast and set, and a CastError or a failed validator (`required`, `match`) marks
the document invalid. Every path of a new document counts as modified. -/
def newUser (rt : Runtime) (io : Persistence) (b : AccountBody) : Document :=
  match castString rt b.username, castString rt b.email, castString rt b.password with
  | some (some n), some (some e), some (some p) =>
    ⟨⟨io.newId, jsTrim n, normalizeEmail rt e, p, [], []⟩,
      jsTrim n == "" || normalizeEmail rt e == "" || !emailMatches (normalizeEmail rt e) || p == "",
      true⟩
  | _, _, _ => ⟨⟨io.newId, "", "", "", [], []⟩, true, true⟩

/-- The call `User.create(...)`: the validation, the pre-save hook and the insert of the
new record. `none` is a rejected promise, and the store is then as before. -/
def create (rt : Runtime) (io : Persistence) (db : Store) (b : AccountBody) :
    Option (User × Store) :=
  let doc := newUser rt io b
  if doc.invalid then none
  else if !io.saveOk then none
  else some ((preSave rt io doc).data, db ++ [(preSave rt io doc).data])

/-- The handler `registerUser`. -/
def registerUser (rt : Runtime) (env : AccountEnv) (io : Persistence) (db : Store)
    (b : AccountBody) : AccountReply × Store :=
  if !b.username.truthy || !b.email.truthy || !b.password.truthy then
    (.message 400 "Please enter all fields", db)
  else
    match findOneByEmail rt env io db b.email with
    | none => (.unhandled, db)
    | some true => (.message 400 "User already exists", db)
    | some false =>
      match create rt io db b with
      | none => (.message 500 "Server error during registration", db)
      | some (user, db') =>
        (.account 201 user._id user.username user.email (env.generateToken user._id), db')

/-- The JSON of `getUserProfile`. -/
structure Profile where
  _id : ObjectId
  username : String
  email : String
  favoriteMovies : List FavoriteMovie
  watchlists : List Watchlist
  deriving DecidableEq

/-- The handler `getUserProfile`; `user` is the account that `protect` attached. -/
def getUserProfile (user : User) : Profile :=
  ⟨user._id, user.username, user.email, user.favoriteMovies, user.watchlists⟩

/-- The assignment `user.username = req.body.username || user.username`. -/
def setUsername (rt : Runtime) (doc : Document) (v : JsVal) : Document :=
  if !v.truthy then doc
  else
    match castString rt v with
    | some (some s) =>
      { doc with
        data := { doc.data with username := jsTrim s }
        invalid := doc.invalid || (jsTrim s != doc.data.username && jsTrim s == "") }
    | _ => { doc with invalid := true }

/-- The assignment `user.email = req.body.email || user.email`. -/
def setEmail (rt : Runtime) (doc : Document) (v : JsVal) : Document :=
  if !v.truthy then doc
  else
    match castString rt v with
    | some (some s) =>
      { doc with
        data := { doc.data with email := normalizeEmail rt s }
        invalid := doc.invalid || (normalizeEmail rt s != doc.data.email &&
          (normalizeEmail rt s == "" || !emailMatches (normalizeEmail rt s))) }
    | _ => { doc with invalid := true }

/-- The statement `if (req.body.password) user.password = req.body.password`: the path
is modified when the value set differs from the value loaded. -/
def setPassword (rt : Runtime) (doc : Document) (v : JsVal) : Document :=
  if !v.truthy then doc
  else
    match castString rt v with
    | some (some s) =>
      { doc with
        data := { doc.data with password := s }
        invalid := doc.invalid || s == ""
        passwordModified := doc.passwordModified || s != doc.data.password }
    | _ => { doc with invalid := true }

/-- The handler `updateUserProfile`. It has no `try`: a rejected load or save is unhandled. -/
def updateUserProfile (rt : Runtime) (env : AccountEnv) (io : Persistence) (db : Store)
    (uid : ObjectId) (b : AccountBody) : AccountReply × Store :=
  match findById io db uid with
  | none => (.unhandled, db)
  | some none => (.message 404 "User not found", db)
  | some (some user) =>
    let user := setPassword rt (setEmail rt (setUsername rt user b.username) b.email) b.password
    match save rt io db user with
    | none => (.unhandled, db)
    | some db' =>
      let updatedUser := (preSave rt io user).data
      (.account 200 updatedUser._id updatedUser.username updatedUser.email
        (env.generateToken updatedUser._id), db')

/-! ## The auth gate -/

/-- Modelled from the spec: what the verification of the bearer token of a request yields.
The middleware `authMiddleware.js` and the token service are not among the sources; the
spec names these failures and treats the verification as a primitive. -/
inductive TokenCheck where
  | missing
  | malformed
  | expired
  | badSignature
  | verified (id : ObjectId)
  deriving DecidableEq

/-- The body of the uniform rejection of the auth gate. -/
def unauthorized : Response := reply 401 "unauthorized"

/-- Modelled from the spec: the auth gate `protect` of `authMiddleware.js`. A verified
token whose account is stored passes and attaches the account to the request; a missing,
malformed, expired or wrongly signed token, an account that no longer exists and a failed
load are all rejected (`none`), and the gate changes nothing. -/
def protect (io : Persistence) (db : Store) : TokenCheck → Option User
  | .verified id =>
    match findById io db id with
    | some (some doc) => some doc.data
    | _ => none
  | _ => none

/-- A request to a private endpoint: one of the five collection routes of
`movieRoutes.js`, or the profile read. -/
inductive PrivateRequest where
  | collection (req : Request)
  | profile

/-- The reply of a private endpoint. -/
inductive PrivateReply where
  | response (r : Response)
  | profile (p : Profile)
  deriving DecidableEq

/-- The private routes: `protect` runs first and the handler runs for the account it
attached. For the five collection routes this is the router of `movieRoutes.js`.
Modelled from the spec: for the profile read, whose router is not among the sources. -/
def privateRoute (rt : Runtime) (io : Persistence) (db : Store) (check : TokenCheck)
    (req : PrivateRequest) : PrivateReply × Store :=
  match protect io db check with
  | none => (.response unauthorized, db)
  | some user =>
    match req with
    | .collection r => (.response (handle rt io db user._id r).1, (handle rt io db user._id r).2)
    | .profile => (.profile (getUserProfile user), db)

/-- No two accounts of the store have the same stored email. -/
def emailsUnique (db : Store) : Prop := (db.map (fun u => u.email)).Nodup

/-- The store after a sequence of registrations, each with its own environment. -/
def registrations (rt : Runtime) :
    List (AccountEnv × Persistence × AccountBody) → Store → Store
  | [], db => db
  | (env, io, b) :: rest, db => registrations rt rest (registerUser rt env io db b).2

/-- The environment of the examples: tokens are the string "token". -/
def demoEnv : AccountEnv := ⟨fun _ => "token", some false⟩

/-- The account `bob`, with id 5, as the registration of " Bob@X.io " stores it. -/
def accountBob : User := ⟨5, "bob", "bob@x.io", "saltpw", [], []⟩

/-! ## Lemmas on the store -/

theorem lookup_id {db : Store} {uid : ObjectId} {u : User} (h : db.lookup uid = some u) :
    u._id = uid := by
  have := List.find?_some h
  simpa using this

theorem lookup_write (db : Store) (uid : ObjectId) (u v : User) (h : db.lookup uid = some u)
    (hv : v._id = uid) : (db.write v).lookup uid = some v := by
  induction db with
  | nil => simp [Store.lookup] at h
  | cons w rest ih =>
    unfold Store.lookup Store.write at *
    rw [List.map_cons, List.find?_cons]
    by_cases hw : w._id = uid
    · have h1 : (w._id == v._id) = true := by simp [hw, hv]
      have h2 : (v._id == uid) = true := by simp [hv]
      simp only [h1, if_true, h2]
    · have h1 : (w._id == v._id) = false := by simp [hw, hv]
      have h2 : (w._id == uid) = false := by simp [hw]
      rw [List.find?_cons, h2] at h
      simp only [h1, Bool.false_eq_true, if_false, h2]
      exact ih h

theorem findById_loaded {io : Persistence} {db : Store} {uid : ObjectId} {u : User}
    (hio : io.loadOk = true) (h : db.lookup uid = some u) :
    findById io db uid = some (some ⟨u, false, false⟩) := by
  simp [findById, hio, h]

theorem save_valid (rt : Runtime) {io : Persistence} (db : Store) (u : User)
    (hio : io.saveOk = true) : save rt io db ⟨u, false, false⟩ = some (db.write u) := by
  simp [save, preSave, hio]

theorem save_eq_some {rt : Runtime} {io : Persistence} {db db' : Store} {doc : Document}
    (h : save rt io db doc = some db') :
    doc.invalid = false ∧ io.saveOk = true ∧ db' = db.write (preSave rt io doc).data := by
  unfold save at h
  split_ifs at h with h1 h2
  · simp at h2
    simp at h1
    exact ⟨h1, h2, by simpa using h.symm⟩

theorem any_strictEqNumber (favs : List FavoriteMovie) (X : Int) :
    favs.any (fun movie => strictEqNumber movie.tmdbId (.num X)) = true ↔
      X ∈ favs.map (fun m => m.tmdbId) := by
  induction favs with
  | nil => simp
  | cons m rest ih =>
    rw [List.any_cons, Bool.or_eq_true, ih, List.map_cons, List.mem_cons]
    have : strictEqNumber m.tmdbId (.num X) = true ↔ X = m.tmdbId := by
      simp only [strictEqNumber, beq_iff_eq]
      exact eq_comm
    rw [this]

theorem castString_ofOptString (rt : Runtime) (o : Option String) :
    castString rt (JsVal.ofOptString o) = some o := by
  cases o <;> rfl

/-! ## Lemmas on `addFavoriteMovie` -/

theorem truthy_num {X : Int} (hX : X ≠ 0) : (JsVal.num X).truthy = true := by
  simp [JsVal.truthy, hX]

theorem truthy_str {t : String} (ht : t ≠ "") : (JsVal.str t).truthy = true := by
  simp [JsVal.truthy, ht]

theorem castFavoriteMovie_typed (rt : Runtime) (X : Int) (t : String) (pp rd : Option String) :
    castFavoriteMovie rt ⟨.num X, .str t, .ofOptString pp, .ofOptString rd⟩ =
      some ⟨X, t, pp, rd⟩ := by
  cases pp <;> cases rd <;> rfl

theorem addFavorite_new (rt : Runtime) {io : Persistence} {db : Store} {uid : ObjectId} {u : User}
    (X : Int) (t : String) (pp rd : Option String)
    (hl : io.loadOk = true) (hs : io.saveOk = true) (hu : db.lookup uid = some u)
    (hX : X ≠ 0) (ht : t ≠ "") (hnew : X ∉ favoriteIds u) :
    addFavoriteMovie rt io db uid ⟨.num X, .str t, .ofOptString pp, .ofOptString rd⟩ =
      (⟨200, "Movie added to favorites", .favoriteMovies (u.favoriteMovies ++ [⟨X, t, pp, rd⟩])⟩,
        db.write { u with favoriteMovies := u.favoriteMovies ++ [⟨X, t, pp, rd⟩] }) := by
  have hany : u.favoriteMovies.any (fun movie => strictEqNumber movie.tmdbId (.num X)) = false := by
    rw [Bool.eq_false_iff, Ne, any_strictEqNumber]
    exact hnew
  simp only [addFavoriteMovie, truthy_num hX, truthy_str ht, findById_loaded hl hu, hany,
    pushFavorite, castFavoriteMovie_typed, save_valid rt db _ hs, Bool.not_true, Bool.or_self,
    Bool.false_eq_true, if_false]

theorem addFavorite_dup (rt : Runtime) {io : Persistence} {db : Store} {uid : ObjectId} {u : User}
    (X : Int) (b : FavoriteBody) (hb : b.tmdbId = .num X) (ht : b.title.truthy = true)
    (hl : io.loadOk = true) (hu : db.lookup uid = some u)
    (hX : X ≠ 0) (hdup : X ∈ favoriteIds u) :
    addFavoriteMovie rt io db uid b = (reply 409 "Movie already in favorites", db) := by
  have hany : u.favoriteMovies.any (fun movie => strictEqNumber movie.tmdbId b.tmdbId) = true := by
    rw [hb, any_strictEqNumber]
    exact hdup
  have hid : b.tmdbId.truthy = true := by rw [hb]; exact truthy_num hX
  simp only [addFavoriteMovie, hid, ht, findById_loaded hl hu, hany, Bool.not_true, Bool.or_self,
    Bool.false_eq_true, if_false, if_true]

/-! ## C1: adding a favorite twice -/

/-- C1 (as amended): for a stored account with pairwise distinct favorite ids, a nonzero
integer id `X` and a non-empty title, with the persistence calls succeeding, two
add-favorite calls in a row leave exactly one entry with id `X` in the stored favorites,
and the second call answers 409 and leaves the store as the first call left it. -/
theorem addFavorite_twice (rt : Runtime) (io1 io2 : Persistence) (db : Store) (uid : ObjectId)
    (u : User) (X : Int) (t : String) (pp rd : Option String)
    (hu : db.lookup uid = some u) (huniq : favoritesUnique u) (hX : X ≠ 0) (ht : t ≠ "")
    (hl1 : io1.loadOk = true) (hs1 : io1.saveOk = true) (hl2 : io2.loadOk = true) :
    ((addFavoriteMovie rt io1 db uid
          ⟨.num X, .str t, .ofOptString pp, .ofOptString rd⟩).2.lookup uid).map
        (fun stored => (favoriteIds stored).count X) = some 1 ∧
      addFavoriteMovie rt io2
          (addFavoriteMovie rt io1 db uid ⟨.num X, .str t, .ofOptString pp, .ofOptString rd⟩).2
          uid ⟨.num X, .str t, .ofOptString pp, .ofOptString rd⟩ =
        (reply 409 "Movie already in favorites",
          (addFavoriteMovie rt io1 db uid
            ⟨.num X, .str t, .ofOptString pp, .ofOptString rd⟩).2) := by
  by_cases hmem : X ∈ favoriteIds u
  · have h1 := addFavorite_dup rt X ⟨.num X, .str t, .ofOptString pp, .ofOptString rd⟩ rfl
      (truthy_str ht) hl1 hu hX hmem
    rw [h1]
    refine ⟨?_, addFavorite_dup rt X _ rfl (truthy_str ht) hl2 hu hX hmem⟩
    show Option.map _ (db.lookup uid) = some 1
    rw [hu, Option.map_some', List.count_eq_one_of_mem huniq hmem]
  · have h1 := addFavorite_new rt X t pp rd hl1 hs1 hu hX ht hmem
    rw [h1]
    have hu' := lookup_write db uid u
      { u with favoriteMovies := u.favoriteMovies ++ [⟨X, t, pp, rd⟩] } hu
      (show u._id = uid from lookup_id hu)
    have hids : favoriteIds { u with favoriteMovies := u.favoriteMovies ++ [⟨X, t, pp, rd⟩] } =
        favoriteIds u ++ [X] := by
      simp [favoriteIds]
    refine ⟨?_, ?_⟩
    · show Option.map _ ((db.write _).lookup uid) = some 1
      rw [hu', Option.map_some', hids, List.count_append, List.count_eq_zero_of_not_mem hmem]
      simp
    · refine addFavorite_dup rt X _ rfl (truthy_str ht) hl2 hu' hX ?_
      rw [hids]
      simp

/-- Witness for C1: the scenario of the spec: from empty favorites, adding
42 "X" twice stores the single favorite 42 "X" and the second call answers 409. -/
theorem addFavorite_twice_witness :
    ((addFavoriteMovie nodeRuntime (healthy 0) [emptyAccount] 1 body42).2.lookup 1).map
        (fun stored => (favoriteIds stored).count 42) = some 1 ∧
      addFavoriteMovie nodeRuntime (healthy 0)
          (addFavoriteMovie nodeRuntime (healthy 0) [emptyAccount] 1 body42).2 1 body42 =
        (reply 409 "Movie already in favorites", [accountWith42]) :=
  addFavorite_twice nodeRuntime (healthy 0) (healthy 0) [emptyAccount] 1 emptyAccount 42 "X"
    none none (by decide) (by decide) (by decide) (by decide) rfl rfl rfl

/-- C1 fails at the id 0: both calls answer 400, the second is no 409, and no entry with
id 0 is stored. It also fails on an account that already holds the id twice: both calls
answer 409 and two entries with the id stay stored. -/
theorem zero_id_twice_rejected :
    ((addFavoriteMovie nodeRuntime (healthy 0)
        (addFavoriteMovie nodeRuntime (healthy 0) [emptyAccount] 1 bodyZero).2 1 bodyZero).1 =
        reply 400 "Movie ID and title are required." ∧
      ((addFavoriteMovie nodeRuntime (healthy 0)
        (addFavoriteMovie nodeRuntime (healthy 0) [emptyAccount] 1 bodyZero).2 1 bodyZero).2.lookup 1).map
          (fun u => (favoriteIds u).count 0) = some 0) ∧
      ((addFavoriteMovie nodeRuntime (healthy 0)
        (addFavoriteMovie nodeRuntime (healthy 0) [accountWith42Twice] 1 body42).2 1 body42).2.lookup 1).map
          (fun u => (favoriteIds u).count 42) = some 2 := by
  decide

/-! ## C2, C3: what a handler can do to the store -/

theorem addFavorite_store (rt : Runtime) (io : Persistence) (db : Store) (uid : ObjectId)
    (b : FavoriteBody) :
    (addFavoriteMovie rt io db uid b).2 = db ∨ (addFavoriteMovie rt io db uid b).1.status = 200 := by
  unfold addFavoriteMovie
  split_ifs
  · exact Or.inl rfl
  · split
    · exact Or.inl rfl
    · exact Or.inl rfl
    · dsimp only
      split_ifs
      · exact Or.inl rfl
      · split
        · exact Or.inl rfl
        · exact Or.inr rfl

theorem removeFavorite_store (rt : Runtime) (io : Persistence) (db : Store) (uid : ObjectId)
    (tmdbId : String) :
    (removeFavoriteMovie rt io db uid tmdbId).2 = db ∨
      (removeFavoriteMovie rt io db uid tmdbId).1.status = 200 := by
  unfold removeFavoriteMovie
  split
  · exact Or.inl rfl
  · exact Or.inl rfl
  · dsimp only
    split_ifs
    · exact Or.inl rfl
    · split
      · exact Or.inl rfl
      · exact Or.inr rfl

theorem createWatchlist_store (rt : Runtime) (io : Persistence) (db : Store) (uid : ObjectId)
    (name : JsVal) :
    (createWatchlist rt io db uid name).2 = db ∨
      (createWatchlist rt io db uid name).1.status = 201 := by
  unfold createWatchlist
  split_ifs
  · exact Or.inl rfl
  · split
    · exact Or.inl rfl
    · exact Or.inl rfl
    · split
      · exact Or.inl rfl
      · exact Or.inl rfl
      · dsimp only
        split
        · exact Or.inl rfl
        · exact Or.inr rfl

theorem addMovieToWatchlist_store (rt : Runtime) (io : Persistence) (db : Store) (uid : ObjectId)
    (watchlistId : String) (b : WatchlistMovieBody) :
    (addMovieToWatchlist rt io db uid watchlistId b).2 = db ∨
      (addMovieToWatchlist rt io db uid watchlistId b).1.status = 200 := by
  unfold addMovieToWatchlist
  split_ifs
  · exact Or.inl rfl
  · split
    · exact Or.inl rfl
    · exact Or.inl rfl
    · split
      · exact Or.inl rfl
      · dsimp only
        split_ifs
        · exact Or.inl rfl
        · split
          · exact Or.inl rfl
          · exact Or.inr rfl

theorem removeMovieFromWatchlist_store (rt : Runtime) (io : Persistence) (db : Store)
    (uid : ObjectId) (watchlistId tmdbId : String) :
    (removeMovieFromWatchlist rt io db uid watchlistId tmdbId).2 = db ∨
      (removeMovieFromWatchlist rt io db uid watchlistId tmdbId).1.status = 200 := by
  unfold removeMovieFromWatchlist
  split
  · exact Or.inl rfl
  · exact Or.inl rfl
  · split
    · exact Or.inl rfl
    · dsimp only
      split_ifs
      · exact Or.inl rfl
      · split
        · exact Or.inl rfl
        · exact Or.inr rfl

theorem handle_store (rt : Runtime) (io : Persistence) (db : Store) (uid : ObjectId)
    (req : Request) :
    (handle rt io db uid req).2 = db ∨ (handle rt io db uid req).1.status = 200 ∨
      (handle rt io db uid req).1.status = 201 := by
  cases req with
  | addFavorite b => exact (addFavorite_store rt io db uid b).imp id Or.inl
  | removeFavorite p => exact (removeFavorite_store rt io db uid p).imp id Or.inl
  | createWatchlist n => exact (createWatchlist_store rt io db uid n).imp id Or.inr
  | addToWatchlist w b => exact (addMovieToWatchlist_store rt io db uid w b).imp id Or.inl
  | removeFromWatchlist w p => exact (removeMovieFromWatchlist_store rt io db uid w p).imp id Or.inl

/-- C3: whichever of the five collection operations runs and whatever the request, an
outcome 400, 404, 409 or 500 leaves the whole store, and so the stored account record,
equal to what it was before the call. -/
theorem failure_leaves_store (rt : Runtime) (io : Persistence) (db : Store) (uid : ObjectId)
    (req : Request) (hfail : (handle rt io db uid req).1.isFailure) :
    (handle rt io db uid req).2 = db ∧
      (handle rt io db uid req).2.lookup uid = db.lookup uid := by
  have hdb : (handle rt io db uid req).2 = db := by
    rcases handle_store rt io db uid req with h | h | h
    · exact h
    · rcases hfail with h' | h' | h' | h' <;> omega
    · rcases hfail with h' | h' | h' | h' <;> omega
  exact ⟨hdb, by rw [hdb]⟩

/-- Witness for C3: a duplicate add-favorite answers 409 and the store
keeps its single record. -/
theorem failure_leaves_store_witness :
    (handle nodeRuntime (healthy 0) [accountWith42] 1 (.addFavorite body42)).1.isFailure ∧
      (handle nodeRuntime (healthy 0) [accountWith42] 1 (.addFavorite body42)).2 = [accountWith42] ∧
      (handle nodeRuntime (healthy 0) [accountWith42] 1 (.addFavorite body42)).2.lookup 1 =
        some accountWith42 :=
  ⟨Or.inr (Or.inr (Or.inl (by decide))),
    failure_leaves_store nodeRuntime (healthy 0) [accountWith42] 1 (.addFavorite body42)
      (Or.inr (Or.inr (Or.inl (by decide))))⟩

/-- C2 at a failing input: the account holds the favorite 42 and the body carries the id as
the string "42". The duplicate check compares with `===` and misses, the schema casts the
string to 42 on the push, and the call answers 200 and stores two entries with id 42: the
store had pairwise distinct favorite ids before the call and has not after it. -/
theorem string_id_duplicates_favorite :
    Store.favoritesUnique [accountWith42] ∧
      (handle nodeRuntime (healthy 0) [accountWith42] 1 (.addFavorite bodyString42)).1.status = 200 ∧
      ((handle nodeRuntime (healthy 0) [accountWith42] 1 (.addFavorite bodyString42)).2.lookup 1).map
        favoriteIds = some [42, 42] ∧
      ¬ Store.favoritesUnique
        (handle nodeRuntime (healthy 0) [accountWith42] 1 (.addFavorite bodyString42)).2 := by
  refine ⟨?_, by decide, by decide, ?_⟩
  · intro u hu
    rw [List.mem_singleton.mp hu]
    decide
  · intro h
    exact absurd (h accountWith42Twice (by decide)) (by decide)

/-! ## C4, C5: removing a favorite -/

theorem findById_eq_some {io : Persistence} {db : Store} {uid : ObjectId} {doc : Document}
    (h : findById io db uid = some (some doc)) :
    io.loadOk = true ∧ ∃ u, db.lookup uid = some u ∧ doc = ⟨u, false, false⟩ := by
  unfold findById at h
  split_ifs at h with hl
  refine ⟨hl, ?_⟩
  cases hlook : db.lookup uid with
  | none => simp [hlook] at h
  | some u =>
    refine ⟨u, rfl, ?_⟩
    simpa [hlook] using h.symm

theorem kept_all_iff (favs : List FavoriteMovie) (X : Int) :
    (∀ m ∈ favs, strictNeParsed m.tmdbId (some X) = true) ↔
      X ∉ favs.map (fun m => m.tmdbId) := by
  simp only [strictNeParsed, bne_iff_ne, ne_eq, List.mem_map, not_exists, not_and]

theorem removeFavorite_loaded (rt : Runtime) {io : Persistence} {db : Store} {uid : ObjectId}
    {u : User} (p : String) (hl : io.loadOk = true) (hu : db.lookup uid = some u) :
    removeFavoriteMovie rt io db uid p =
      if (u.favoriteMovies.filter
          (fun movie => strictNeParsed movie.tmdbId (rt.parseInt p))).length ==
          u.favoriteMovies.length then
        (reply 404 "Movie not found in favorites", db)
      else
        match save rt io db ⟨{ u with favoriteMovies := (u.favoriteMovies.filter
            (fun movie => strictNeParsed movie.tmdbId (rt.parseInt p))) }, false, false⟩ with
        | none => (reply 500 "Server error removing favorite movie", db)
        | some db' =>
          (⟨200, "Movie removed from favorites", .favoriteMovies (u.favoriteMovies.filter
            (fun movie => strictNeParsed movie.tmdbId (rt.parseInt p)))⟩, db') := by
  simp only [removeFavoriteMovie, findById_loaded hl hu]

/-- C4: when the route parameter denotes the id `X` and the account is loaded,
remove-favorite answers 404 'Movie not found in favorites' exactly when no favorite of the
account has the id `X`, and in that case the store is left unchanged. -/
theorem removeFavorite_absent (rt : Runtime) (io : Persistence) (db : Store) (uid : ObjectId)
    (u : User) (p : String) (X : Int) (hp : rt.parseInt p = some X)
    (hl : io.loadOk = true) (hu : db.lookup uid = some u) :
    ((removeFavoriteMovie rt io db uid p).1 = reply 404 "Movie not found in favorites" ↔
        X ∉ favoriteIds u) ∧
      (X ∉ favoriteIds u → (removeFavoriteMovie rt io db uid p).2 = db) := by
  have hiff : (u.favoriteMovies.filter
      (fun movie => strictNeParsed movie.tmdbId (some X))).length = u.favoriteMovies.length ↔
      X ∉ favoriteIds u :=
    List.filter_length_eq_length.trans (kept_all_iff _ X)
  rw [removeFavorite_loaded rt p hl hu, hp]
  by_cases hX : X ∈ favoriteIds u
  · have hlen := mt hiff.mp (not_not.mpr hX)
    simp only [beq_iff_eq, hlen, if_false]
    refine ⟨⟨fun h => ?_, fun h => absurd hX h⟩, fun h => absurd hX h⟩
    split at h
    · exact absurd (congrArg Response.status h) (by simp [reply])
    · exact absurd (congrArg Response.status h) (by simp [reply])
  · have hlen := hiff.mpr hX
    simp only [beq_iff_eq, hlen, if_true]
    exact ⟨⟨fun _ => hX, fun _ => trivial⟩, fun _ => trivial⟩

/-- Witness for C4: removing 7 from the account that holds only 42
answers the 404 and leaves the store unchanged. -/
theorem removeFavorite_absent_witness :
    (7 : Int) ∉ favoriteIds accountWith42 ∧
      (removeFavoriteMovie nodeRuntime (healthy 0) [accountWith42] 1 "7").1 =
        reply 404 "Movie not found in favorites" ∧
      (removeFavoriteMovie nodeRuntime (healthy 0) [accountWith42] 1 "7").2 = [accountWith42] :=
  ⟨by decide,
    (removeFavorite_absent nodeRuntime (healthy 0) [accountWith42] 1 accountWith42 "7" 7
      (by decide) rfl (by decide)).1.mpr (by decide),
    (removeFavorite_absent nodeRuntime (healthy 0) [accountWith42] 1 accountWith42 "7" 7
      (by decide) rfl (by decide)).2 (by decide)⟩

/-- C5: when the route parameter denotes the id `X`, the account is loaded, one of its
favorites has the id `X` and the save succeeds, remove-favorite answers 200 and both the
returned and the stored favorites are the previous list with the entries of id `X`
filtered out: a sublist of the previous list holding exactly its entries of another id. -/
theorem removeFavorite_present (rt : Runtime) (io : Persistence) (db : Store) (uid : ObjectId)
    (u : User) (p : String) (X : Int) (hp : rt.parseInt p = some X)
    (hl : io.loadOk = true) (hs : io.saveOk = true) (hu : db.lookup uid = some u)
    (hX : X ∈ favoriteIds u) :
    (removeFavoriteMovie rt io db uid p).1 = ⟨200, "Movie removed from favorites",
        .favoriteMovies (u.favoriteMovies.filter (fun m => m.tmdbId != X))⟩ ∧
      (removeFavoriteMovie rt io db uid p).2.lookup uid =
        some { u with favoriteMovies := u.favoriteMovies.filter (fun m => m.tmdbId != X) } ∧
      (u.favoriteMovies.filter (fun m => m.tmdbId != X)).Sublist u.favoriteMovies ∧
      ∀ m, m ∈ u.favoriteMovies.filter (fun m => m.tmdbId != X) ↔
        m ∈ u.favoriteMovies ∧ m.tmdbId ≠ X := by
  have hlen : ¬ (u.favoriteMovies.filter
      (fun movie => strictNeParsed movie.tmdbId (some X))).length = u.favoriteMovies.length := by
    intro h
    exact (kept_all_iff _ X).mp (List.filter_length_eq_length.mp h) hX
  have hres := removeFavorite_loaded rt p hl hu
  rw [hp, save_valid rt db _ hs] at hres
  simp only [beq_iff_eq, hlen, if_false] at hres
  rw [hres]
  refine ⟨rfl, ?_, List.filter_sublist _, ?_⟩
  · exact lookup_write db uid u
      { u with favoriteMovies := (u.favoriteMovies.filter (fun m => m.tmdbId != X)) } hu
      (show u._id = uid from lookup_id hu)
  · intro m
    simp [List.mem_filter]

/-- Witness for C5: removing 42 from the account that holds only 42
answers 200 with no favorite left, and stores the account without favorites. -/
theorem removeFavorite_present_witness :
    (removeFavoriteMovie nodeRuntime (healthy 0) [accountWith42] 1 "42").1 =
        ⟨200, "Movie removed from favorites", .favoriteMovies []⟩ ∧
      (removeFavoriteMovie nodeRuntime (healthy 0) [accountWith42] 1 "42").2.lookup 1 =
        some emptyAccount :=
  ⟨(removeFavorite_present nodeRuntime (healthy 0) [accountWith42] 1 accountWith42 "42" 42
      (by decide) rfl rfl (by decide) (by decide)).1,
    (removeFavorite_present nodeRuntime (healthy 0) [accountWith42] 1 accountWith42 "42" 42
      (by decide) rfl rfl (by decide) (by decide)).2.1⟩

/-! ## C6, C7: the add-favorite contract -/

/-- C6 (as amended): for a loaded account, a nonzero integer id `X` that no favorite has,
a non-empty title and nullable string poster path and release date, with the save
succeeding, add-favorite answers 200 and both the returned and the stored favorites are
the previous list followed by the one entry built from the request; the previous entries
are its first entries, unchanged. -/
theorem addFavorite_appends (rt : Runtime) (io : Persistence) (db : Store) (uid : ObjectId)
    (u : User) (X : Int) (t : String) (pp rd : Option String)
    (hl : io.loadOk = true) (hs : io.saveOk = true) (hu : db.lookup uid = some u)
    (hX : X ≠ 0) (ht : t ≠ "") (hnew : X ∉ favoriteIds u) :
    (addFavoriteMovie rt io db uid ⟨.num X, .str t, .ofOptString pp, .ofOptString rd⟩).1 =
        ⟨200, "Movie added to favorites",
          .favoriteMovies (u.favoriteMovies ++ [⟨X, t, pp, rd⟩])⟩ ∧
      (addFavoriteMovie rt io db uid
          ⟨.num X, .str t, .ofOptString pp, .ofOptString rd⟩).2.lookup uid =
        some { u with favoriteMovies := u.favoriteMovies ++ [⟨X, t, pp, rd⟩] } ∧
      List.take u.favoriteMovies.length (u.favoriteMovies ++ [⟨X, t, pp, rd⟩]) =
        u.favoriteMovies := by
  rw [addFavorite_new rt X t pp rd hl hs hu hX ht hnew]
  refine ⟨rfl, ?_, List.take_left' rfl⟩
  exact lookup_write db uid u { u with favoriteMovies := u.favoriteMovies ++ [⟨X, t, pp, rd⟩] } hu
    (show u._id = uid from lookup_id hu)

/-- Witness for C6: adding 7 "Y" with a poster to the account that
holds 42 returns and stores 42 followed by 7. -/
theorem addFavorite_appends_witness :
    (addFavoriteMovie nodeRuntime (healthy 0) [accountWith42] 1
        ⟨.num 7, .str "Y", .str "/y.jpg", .undefined⟩).1 =
        ⟨200, "Movie added to favorites",
          .favoriteMovies [⟨42, "X", none, none⟩, ⟨7, "Y", some "/y.jpg", none⟩]⟩ ∧
      (addFavoriteMovie nodeRuntime (healthy 0) [accountWith42] 1
        ⟨.num 7, .str "Y", .str "/y.jpg", .undefined⟩).2.lookup 1 =
        some accountWith42And7 :=
  ⟨(addFavorite_appends nodeRuntime (healthy 0) [accountWith42] 1 accountWith42 7 "Y"
      (some "/y.jpg") none rfl rfl (by decide) (by decide) (by decide) (by decide)).1,
    (addFavorite_appends nodeRuntime (healthy 0) [accountWith42] 1 accountWith42 7 "Y"
      (some "/y.jpg") none rfl rfl (by decide) (by decide) (by decide) (by decide)).2.1⟩

/-- C6 fails at the id 0: the id is in no favorite and the body has a title, yet the call
answers 400 and appends nothing. -/
theorem zero_id_not_appended :
    (0 : Int) ∉ favoriteIds emptyAccount ∧
      addFavoriteMovie nodeRuntime (healthy 0) [emptyAccount] 1 bodyZero =
        (reply 400 "Movie ID and title are required.", [emptyAccount]) := by
  decide

/-- C7 (as amended): add-favorite answers 400 exactly when the id or the title of the
body is falsy (absent, null, false, 0 or the empty string). So a body that lacks either
field gets 400, and a body with a nonzero integer id and a non-empty title does not. -/
theorem addFavorite_400_iff (rt : Runtime) (io : Persistence) (db : Store) (uid : ObjectId)
    (b : FavoriteBody) :
    ((addFavoriteMovie rt io db uid b).1.status = 400 ↔
        (b.tmdbId.truthy = false ∨ b.title.truthy = false)) ∧
      (b.tmdbId = .undefined ∨ b.title = .undefined →
        (addFavoriteMovie rt io db uid b).1.status = 400) ∧
      (∀ X t, b.tmdbId = .num X → b.title = .str t → X ≠ 0 → t ≠ "" →
        (addFavoriteMovie rt io db uid b).1.status ≠ 400) := by
  have hiff : (addFavoriteMovie rt io db uid b).1.status = 400 ↔
      (b.tmdbId.truthy = false ∨ b.title.truthy = false) := by
    unfold addFavoriteMovie
    split_ifs with h
    · simp only [reply, true_iff]
      simpa using h
    · have hne : ¬ (b.tmdbId.truthy = false ∨ b.title.truthy = false) := by simpa using h
      simp only [hne, iff_false]
      split
      · simp [reply]
      · simp [reply]
      · split_ifs
        · simp [reply]
        · split
          · simp [reply]
          · simp
  refine ⟨hiff, ?_, ?_⟩
  · rintro (h | h)
    · exact hiff.mpr (Or.inl (by rw [h]; rfl))
    · exact hiff.mpr (Or.inr (by rw [h]; rfl))
  · intro X t hid htitle hX ht h400
    rcases hiff.mp h400 with h | h
    · rw [hid, truthy_num hX] at h
      exact Bool.noConfusion h
    · rw [htitle, truthy_str ht] at h
      exact Bool.noConfusion h

/-- Witness for C7: the body with id 42 and title "X" is not answered
400, and the body without a title is. -/
theorem addFavorite_400_iff_witness :
    (addFavoriteMovie nodeRuntime (healthy 0) [emptyAccount] 1 body42).1.status ≠ 400 ∧
      (addFavoriteMovie nodeRuntime (healthy 0) [emptyAccount] 1
        ⟨.num 42, .undefined, .undefined, .undefined⟩).1.status = 400 :=
  ⟨(addFavorite_400_iff nodeRuntime (healthy 0) [emptyAccount] 1 body42).2.2 42 "X" rfl rfl
      (by decide) (by decide),
    (addFavorite_400_iff nodeRuntime (healthy 0) [emptyAccount] 1
      ⟨.num 42, .undefined, .undefined, .undefined⟩).2.1 (Or.inr rfl)⟩

/-- C7 fails at the id 0: the body carries the integer id 0 and the non-empty title "X",
and add-favorite rejects it with 400. -/
theorem zero_id_with_title_is_400 :
    bodyZero.tmdbId = .num 0 ∧ bodyZero.title = .str "X" ∧
      (addFavoriteMovie nodeRuntime (healthy 0) [emptyAccount] 1 bodyZero).1.status = 400 := by
  decide

/-! ## C8, C9, C10: creating a watchlist -/

theorem someThrowing_str (rt : Runtime) (n : String) (wls : List Watchlist) :
    someThrowing (fun wl => (callToLowerCase rt (.str n)).map
        (fun lowered => rt.toLowerCase wl.name == lowered)) wls =
      some (wls.any (fun wl => rt.toLowerCase wl.name == rt.toLowerCase n)) := by
  induction wls with
  | nil => rfl
  | cons wl rest ih =>
    simp only [someThrowing, callToLowerCase, Option.map_some', List.any_cons]
    cases h : rt.toLowerCase wl.name == rt.toLowerCase n
    · simpa using ih
    · simp

theorem someThrowing_false {α : Type} {p : α → Option Bool} {l : List α}
    (h : someThrowing p l = some false) : ∀ x ∈ l, p x = some false := by
  induction l with
  | nil => simp
  | cons y rest ih =>
    intro x hx
    unfold someThrowing at h
    split at h
    · exact absurd h (by simp)
    · exact absurd h (by simp)
    · next hy =>
      rcases List.mem_cons.mp hx with rfl | hx
      · exact hy
      · exact ih h x hx

theorem createWatchlist_new (rt : Runtime) {io : Persistence} {db : Store} {uid : ObjectId}
    {u : User} (n : String) (hl : io.loadOk = true) (hs : io.saveOk = true)
    (hu : db.lookup uid = some u) (hn : n ≠ "")
    (hnew : ∀ wl ∈ u.watchlists, rt.toLowerCase wl.name ≠ rt.toLowerCase n) :
    createWatchlist rt io db uid (.str n) =
      (⟨201, "Watchlist created successfully", .watchlists (u.watchlists ++ [⟨io.newId, n, []⟩])⟩,
        db.write { u with watchlists := u.watchlists ++ [⟨io.newId, n, []⟩] }) := by
  have hany : u.watchlists.any (fun wl => rt.toLowerCase wl.name == rt.toLowerCase n) = false := by
    rw [Bool.eq_false_iff, Ne, List.any_eq_true]
    rintro ⟨wl, hwl, heq⟩
    exact hnew wl hwl (by simpa using heq)
  simp only [createWatchlist, truthy_str hn, findById_loaded hl hu, someThrowing_str, hany,
    pushWatchlist, castString, save_valid rt db _ hs, Bool.not_true, Bool.false_eq_true, if_false]

theorem createWatchlist_dup (rt : Runtime) {io : Persistence} {db : Store} {uid : ObjectId}
    {u : User} (n : String) (hl : io.loadOk = true) (hu : db.lookup uid = some u) (hn : n ≠ "")
    (hdup : ∃ wl ∈ u.watchlists, rt.toLowerCase wl.name = rt.toLowerCase n) :
    createWatchlist rt io db uid (.str n) =
      (reply 409 "Watchlist with this name already exists.", db) := by
  have hany : u.watchlists.any (fun wl => rt.toLowerCase wl.name == rt.toLowerCase n) = true := by
    rw [List.any_eq_true]
    obtain ⟨wl, hwl, heq⟩ := hdup
    exact ⟨wl, hwl, by simpa using heq⟩
  simp only [createWatchlist, truthy_str hn, findById_loaded hl hu, someThrowing_str, hany,
    Bool.not_true, Bool.false_eq_true, if_false]

/-- What `createWatchlist` can store for the account: the record as it was, or the record
with one watchlist appended whose name differs, ignoring case, from every previous one. -/
theorem createWatchlist_stored (rt : Runtime) (io : Persistence) (db : Store) (uid : ObjectId)
    (name : JsVal) (u : User) (hu : db.lookup uid = some u) :
    (createWatchlist rt io db uid name).2 = db ∨
      ∃ n, (∀ wl ∈ u.watchlists, rt.toLowerCase wl.name ≠ rt.toLowerCase n) ∧
        (createWatchlist rt io db uid name).2 =
          db.write { u with watchlists := u.watchlists ++ [⟨io.newId, n, []⟩] } := by
  unfold createWatchlist
  split_ifs
  · exact Or.inl rfl
  · split
    · exact Or.inl rfl
    · exact Or.inl rfl
    · next user hf =>
      obtain ⟨-, u', hu', rfl⟩ := findById_eq_some hf
      obtain rfl : u' = u := Option.some.inj (hu'.symm.trans hu)
      split
      · exact Or.inl rfl
      · exact Or.inl rfl
      · next hsome =>
        dsimp only
        split
        · exact Or.inl rfl
        · next db' hsave =>
          obtain ⟨hvalid, -, rfl⟩ := save_eq_some hsave
          right
          cases name with
          | str s =>
            refine ⟨s, ?_, rfl⟩
            intro wl hwl heq
            have := someThrowing_false hsome wl hwl
            simp [callToLowerCase, heq] at this
          | undefined => simp [pushWatchlist, castString] at hvalid
          | null => simp [pushWatchlist, castString] at hvalid
          | obj => simp [pushWatchlist, castString] at hvalid
          | bool b =>
            refine ⟨if b then "true" else "false", ?_, rfl⟩
            intro wl hwl
            have := someThrowing_false hsome wl hwl
            simp [callToLowerCase] at this
          | num k =>
            refine ⟨rt.numberToString k, ?_, rfl⟩
            intro wl hwl
            have := someThrowing_false hsome wl hwl
            simp [callToLowerCase] at this

/-- C8: for a loaded account and two non-empty names that are equal after lower-casing,
with the persistence calls succeeding, creating a watchlist with the first name and then
one with the second makes the second call answer 409 and leave the store as the first call
left it. And create-watchlist, whatever the body, keeps the watchlist names of the
account pairwise different ignoring case. -/
theorem createWatchlist_case_insensitive (rt : Runtime) (io1 io2 : Persistence) (db : Store)
    (uid : ObjectId) (u : User) (n n' : String) (hn : n ≠ "") (hn' : n' ≠ "")
    (heq : rt.toLowerCase n = rt.toLowerCase n') (hu : db.lookup uid = some u)
    (hl1 : io1.loadOk = true) (hs1 : io1.saveOk = true) (hl2 : io2.loadOk = true) :
    createWatchlist rt io2 (createWatchlist rt io1 db uid (.str n)).2 uid (.str n') =
        (reply 409 "Watchlist with this name already exists.",
          (createWatchlist rt io1 db uid (.str n)).2) ∧
      (∀ io name stored, watchlistNamesUnique rt u →
        (createWatchlist rt io db uid name).2.lookup uid = some stored →
        watchlistNamesUnique rt stored) := by
  constructor
  · by_cases hdup : ∃ wl ∈ u.watchlists, rt.toLowerCase wl.name = rt.toLowerCase n
    · rw [createWatchlist_dup rt n hl1 hu hn hdup]
      obtain ⟨wl, hwl, hwleq⟩ := hdup
      exact createWatchlist_dup rt n' hl2 hu hn' ⟨wl, hwl, hwleq.trans heq⟩
    · have hnew : ∀ wl ∈ u.watchlists, rt.toLowerCase wl.name ≠ rt.toLowerCase n :=
        fun wl hwl h => hdup ⟨wl, hwl, h⟩
      rw [createWatchlist_new rt n hl1 hs1 hu hn hnew]
      have hu' := lookup_write db uid u
        { u with watchlists := u.watchlists ++ [⟨io1.newId, n, []⟩] } hu
        (show u._id = uid from lookup_id hu)
      exact createWatchlist_dup rt n' hl2 hu' hn'
        ⟨⟨io1.newId, n, []⟩, List.mem_append_right _ (List.mem_singleton.mpr rfl), heq⟩
  · intro io name stored hinv hstored
    rcases createWatchlist_stored rt io db uid name u hu with h | ⟨m, hm, h⟩
    · rw [h, hu] at hstored
      exact Option.some.inj hstored ▸ hinv
    · rw [h, lookup_write db uid u
        { u with watchlists := u.watchlists ++ [⟨io.newId, m, []⟩] } hu
        (show u._id = uid from lookup_id hu)] at hstored
      rw [← Option.some.inj hstored]
      unfold watchlistNamesUnique at hinv ⊢
      refine List.pairwise_append.mpr ⟨hinv, List.pairwise_singleton _ _, ?_⟩
      intro a ha b hb
      rw [List.mem_singleton.mp hb]
      exact hm a ha

/-- Witness for C8: the scenario of the spec: after
"Weekend" is created, creating "weekend" answers 409 and the watchlists stay as they were. -/
theorem createWatchlist_case_insensitive_witness :
    (createWatchlist nodeRuntime (healthy 7) [emptyAccount] 1 (.str "Weekend")).2 =
        [accountWithWeekend] ∧
      createWatchlist nodeRuntime (healthy 8)
          (createWatchlist nodeRuntime (healthy 7) [emptyAccount] 1 (.str "Weekend")).2 1
          (.str "weekend") =
        (reply 409 "Watchlist with this name already exists.", [accountWithWeekend]) :=
  ⟨by decide,
    (createWatchlist_case_insensitive nodeRuntime (healthy 7) (healthy 8) [emptyAccount] 1
      emptyAccount "Weekend" "weekend" (by decide) (by decide) (by decide) (by decide)
      rfl rfl rfl).1⟩

/-- C9: for a loaded account and a non-empty name that differs, ignoring case, from the
name of every watchlist of the account, with the save succeeding, create-watchlist
answers 201 and both the returned and the stored watchlists are the previous sequence
followed by one new watchlist with the requested name and no entries; the previous
watchlists are its first elements, unchanged. -/
theorem createWatchlist_appends (rt : Runtime) (io : Persistence) (db : Store) (uid : ObjectId)
    (u : User) (n : String) (hl : io.loadOk = true) (hs : io.saveOk = true)
    (hu : db.lookup uid = some u) (hn : n ≠ "")
    (hnew : ∀ wl ∈ u.watchlists, rt.toLowerCase wl.name ≠ rt.toLowerCase n) :
    (createWatchlist rt io db uid (.str n)).1 = ⟨201, "Watchlist created successfully",
        .watchlists (u.watchlists ++ [⟨io.newId, n, []⟩])⟩ ∧
      (createWatchlist rt io db uid (.str n)).2.lookup uid =
        some { u with watchlists := u.watchlists ++ [⟨io.newId, n, []⟩] } ∧
      List.take u.watchlists.length (u.watchlists ++ [⟨io.newId, n, []⟩]) = u.watchlists := by
  rw [createWatchlist_new rt n hl hs hu hn hnew]
  refine ⟨rfl, ?_, List.take_left' rfl⟩
  exact lookup_write db uid u { u with watchlists := u.watchlists ++ [⟨io.newId, n, []⟩] } hu
    (show u._id = uid from lookup_id hu)

/-- Witness for C9: creating "Weekend" on the account that has
"Classics" returns and stores "Classics" followed by the empty watchlist "Weekend". -/
theorem createWatchlist_appends_witness :
    (createWatchlist nodeRuntime (healthy 8) [accountWithClassics] 1 (.str "Weekend")).1 =
        ⟨201, "Watchlist created successfully",
          .watchlists [⟨7, "Classics", []⟩, ⟨8, "Weekend", []⟩]⟩ ∧
      (createWatchlist nodeRuntime (healthy 8) [accountWithClassics] 1 (.str "Weekend")).2.lookup 1 =
        some accountWithClassicsAndWeekend :=
  ⟨(createWatchlist_appends nodeRuntime (healthy 8) [accountWithClassics] 1 accountWithClassics
      "Weekend" rfl rfl (by decide) (by decide) (by decide)).1,
    (createWatchlist_appends nodeRuntime (healthy 8) [accountWithClassics] 1 accountWithClassics
      "Weekend" rfl rfl (by decide) (by decide) (by decide)).2.1⟩

/-- The outcomes of `createWatchlist` for a body whose name is absent, falsy or a string,
when the load and the save succeed: 201, 400, 404 or 409. -/
theorem createWatchlist_string_status (rt : Runtime) (io : Persistence) (db : Store)
    (uid : ObjectId) (name : JsVal) (hname : name.truthy = false ∨ ∃ s, name = .str s)
    (hl : io.loadOk = true) (hs : io.saveOk = true) :
    (createWatchlist rt io db uid name).1.status = 201 ∨
      (createWatchlist rt io db uid name).1.status = 400 ∨
      (createWatchlist rt io db uid name).1.status = 404 ∨
      (createWatchlist rt io db uid name).1.status = 409 := by
  by_cases ht : name.truthy = true
  · rcases hname with h | ⟨s, rfl⟩
    · rw [h] at ht
      exact absurd ht (by simp)
    · cases hlook : db.lookup uid with
      | none =>
        right; right; left
        simp [createWatchlist, ht, findById, hl, hlook, reply]
      | some u =>
        have hs' : s ≠ "" := by simpa [JsVal.truthy] using ht
        by_cases hdup : ∃ wl ∈ u.watchlists, rt.toLowerCase wl.name = rt.toLowerCase s
        · rw [createWatchlist_dup rt s hl hlook hs' hdup]
          right; right; right; rfl
        · rw [createWatchlist_new rt s hl hs hlook hs' (fun wl hwl h => hdup ⟨wl, hwl, h⟩)]
          left; rfl
  · right; left
    simp [createWatchlist, ht, reply]

/-- C10 at a failing input: the account has the watchlist "Classics" and the body carries
the name 5, a number. The load succeeds and no save is attempted; the name comparison
throws a TypeError, and the call answers 500 where the claim has 400. -/
theorem number_name_is_500 :
    (healthy 8).loadOk = true ∧ (healthy 8).saveOk = true ∧
      createWatchlist nodeRuntime (healthy 8) [accountWithClassics] 1 (.num 5) =
        (reply 500 "Server error creating watchlist", [accountWithClassics]) := by
  decide

/-! ## What each handler can store for the account -/

theorem addFavorite_stored (rt : Runtime) (io : Persistence) (db : Store) (uid : ObjectId)
    (b : FavoriteBody) (u : User) (hu : db.lookup uid = some u) :
    (addFavoriteMovie rt io db uid b).2 = db ∨
      ∃ m, castFavoriteMovie rt b = some m ∧
        u.favoriteMovies.any (fun movie => strictEqNumber movie.tmdbId b.tmdbId) = false ∧
        (addFavoriteMovie rt io db uid b).2 =
          db.write { u with favoriteMovies := u.favoriteMovies ++ [m] } := by
  unfold addFavoriteMovie
  split_ifs
  · exact Or.inl rfl
  · split
    · exact Or.inl rfl
    · exact Or.inl rfl
    · next user hf =>
      obtain ⟨-, u', hu', rfl⟩ := findById_eq_some hf
      obtain rfl : u' = u := Option.some.inj (hu'.symm.trans hu)
      dsimp only
      split_ifs with hfav
      · exact Or.inl rfl
      · split
        · exact Or.inl rfl
        · next db' hsave =>
          obtain ⟨hvalid, -, rfl⟩ := save_eq_some hsave
          right
          cases hcast : castFavoriteMovie rt b with
          | none => simp [pushFavorite, hcast] at hvalid
          | some m =>
            refine ⟨m, rfl, by simpa using hfav, ?_⟩
            simp [pushFavorite, hcast, preSave]

theorem removeFavorite_stored (rt : Runtime) (io : Persistence) (db : Store) (uid : ObjectId)
    (p : String) (u : User) (hu : db.lookup uid = some u) :
    (removeFavoriteMovie rt io db uid p).2 = db ∨
      (removeFavoriteMovie rt io db uid p).2 =
        db.write { u with favoriteMovies := (u.favoriteMovies.filter
          (fun movie => strictNeParsed movie.tmdbId (rt.parseInt p))) } := by
  unfold removeFavoriteMovie
  split
  · exact Or.inl rfl
  · exact Or.inl rfl
  · next user hf =>
    obtain ⟨-, u', hu', rfl⟩ := findById_eq_some hf
    obtain rfl : u' = u := Option.some.inj (hu'.symm.trans hu)
    dsimp only
    split_ifs
    · exact Or.inl rfl
    · split
      · exact Or.inl rfl
      · next db' hsave =>
        obtain ⟨-, -, rfl⟩ := save_eq_some hsave
        exact Or.inr rfl

theorem addMovieToWatchlist_stored (rt : Runtime) (io : Persistence) (db : Store)
    (uid : ObjectId) (w : String) (b : WatchlistMovieBody) (u : User)
    (hu : db.lookup uid = some u) :
    (addMovieToWatchlist rt io db uid w b).2 = db ∨
      ∃ wls, (addMovieToWatchlist rt io db uid w b).2 = db.write { u with watchlists := wls } := by
  unfold addMovieToWatchlist
  split_ifs
  · exact Or.inl rfl
  · split
    · exact Or.inl rfl
    · exact Or.inl rfl
    · next user hf =>
      obtain ⟨-, u', hu', rfl⟩ := findById_eq_some hf
      obtain rfl : u' = u := Option.some.inj (hu'.symm.trans hu)
      split
      · exact Or.inl rfl
      · next watchlist hw =>
        dsimp only
        split_ifs
        · exact Or.inl rfl
        · split
          · exact Or.inl rfl
          · next db' hsave =>
            obtain ⟨hvalid, -, rfl⟩ := save_eq_some hsave
            right
            cases hcast : castWatchlistMovie rt b with
            | none => simp [pushWatchlistMovie, hcast] at hvalid
            | some m =>
              simp only [pushWatchlistMovie, hcast, preSave]
              exact ⟨_, rfl⟩

theorem removeMovieFromWatchlist_stored (rt : Runtime) (io : Persistence) (db : Store)
    (uid : ObjectId) (w p : String) (u : User) (hu : db.lookup uid = some u) :
    (removeMovieFromWatchlist rt io db uid w p).2 = db ∨
      ∃ wls, (removeMovieFromWatchlist rt io db uid w p).2 =
        db.write { u with watchlists := wls } := by
  unfold removeMovieFromWatchlist
  split
  · exact Or.inl rfl
  · exact Or.inl rfl
  · next user hf =>
    obtain ⟨-, u', hu', rfl⟩ := findById_eq_some hf
    obtain rfl : u' = u := Option.some.inj (hu'.symm.trans hu)
    split
    · exact Or.inl rfl
    · next watchlist hw =>
      dsimp only
      split_ifs
      · exact Or.inl rfl
      · split
        · exact Or.inl rfl
        · next db' hsave =>
          obtain ⟨-, -, rfl⟩ := save_eq_some hsave
          exact Or.inr ⟨_, rfl⟩

/-- The favorites of the account keep pairwise distinct ids under every request whose
add-favorite id, if any, is a number: the duplicate check of `addFavoriteMovie` is exact
for numbers, and no other handler adds a favorite. -/
theorem favoritesUnique_of_number_id (rt : Runtime) (io : Persistence) (db : Store)
    (uid : ObjectId) (req : Request) (u stored : User) (hu : db.lookup uid = some u)
    (hinv : favoritesUnique u)
    (hreq : ∀ b, req = .addFavorite b → ∃ n, b.tmdbId = .num n)
    (hstored : (handle rt io db uid req).2.lookup uid = some stored) :
    favoritesUnique stored := by
  have hsame : ∀ {db' : Store}, db' = db → db'.lookup uid = some stored → favoritesUnique stored := by
    intro db' h hs
    rw [h, hu] at hs
    exact Option.some.inj hs ▸ hinv
  have hwritten : ∀ {db' : Store} {v : User}, db' = db.write v → v._id = u._id →
      favoritesUnique v → db'.lookup uid = some stored → favoritesUnique stored := by
    intro db' v h hid hv hs
    rw [h, lookup_write db uid u v hu (hid.trans (lookup_id hu))] at hs
    exact Option.some.inj hs ▸ hv
  cases req with
  | addFavorite b =>
    obtain ⟨n, hn⟩ := hreq b rfl
    rcases addFavorite_stored rt io db uid b u hu with h | ⟨m, hm, hfav, h⟩
    · exact hsame h hstored
    · refine hwritten h rfl ?_ hstored
      have hmid : m.tmdbId = n := by
        unfold castFavoriteMovie at hm
        rw [hn] at hm
        simp only [castNumber] at hm
        split at hm
        · next heq _ _ _ =>
          have := Option.some.inj (Option.some.inj heq)
          rw [← Option.some.inj hm]
          exact this.symm
        · exact absurd hm (by simp)
      have hnot : n ∉ favoriteIds u := by
        rw [hn] at hfav
        intro hmem
        rw [(any_strictEqNumber u.favoriteMovies n).mpr hmem] at hfav
        exact Bool.noConfusion hfav
      unfold favoritesUnique favoriteIds at hinv
      unfold favoriteIds at hnot
      show (List.map (fun m => m.tmdbId) (u.favoriteMovies ++ [m])).Nodup
      rw [List.map_append, List.map_cons, List.map_nil, hmid]
      exact List.nodup_append.mpr ⟨hinv, List.nodup_singleton n, by
        simpa [List.Disjoint] using hnot⟩
  | removeFavorite p =>
    rcases removeFavorite_stored rt io db uid p u hu with h | h
    · exact hsame h hstored
    · refine hwritten h rfl ?_ hstored
      unfold favoritesUnique favoriteIds at hinv
      show (List.map (fun m => m.tmdbId) (u.favoriteMovies.filter
        (fun movie => strictNeParsed movie.tmdbId (rt.parseInt p)))).Nodup
      exact ((List.filter_sublist _).map _).nodup hinv
  | createWatchlist name =>
    rcases createWatchlist_stored rt io db uid name u hu with h | ⟨n, -, h⟩
    · exact hsame h hstored
    · exact hwritten h rfl hinv hstored
  | addToWatchlist w b =>
    rcases addMovieToWatchlist_stored rt io db uid w b u hu with h | ⟨wls, h⟩
    · exact hsame h hstored
    · exact hwritten h rfl hinv hstored
  | removeFromWatchlist w p =>
    rcases removeMovieFromWatchlist_stored rt io db uid w p u hu with h | ⟨wls, h⟩
    · exact hsame h hstored
    · exact hwritten h rfl hinv hstored

/-! ## Lemmas on the entries of a watchlist -/

theorem any_strictEqNumber_entry (movies : List WatchlistMovie) (X : Int) :
    movies.any (fun movie => strictEqNumber movie.tmdbId (.num X)) = true ↔
      X ∈ movies.map (fun m => m.tmdbId) := by
  induction movies with
  | nil => simp
  | cons m rest ih =>
    rw [List.any_cons, Bool.or_eq_true, ih, List.map_cons, List.mem_cons]
    have : strictEqNumber m.tmdbId (.num X) = true ↔ X = m.tmdbId := by
      simp only [strictEqNumber, beq_iff_eq]
      exact eq_comm
    rw [this]

theorem kept_all_iff_entry (movies : List WatchlistMovie) (X : Int) :
    (∀ m ∈ movies, strictNeParsed m.tmdbId (some X) = true) ↔
      X ∉ movies.map (fun m => m.tmdbId) := by
  simp only [strictNeParsed, bne_iff_ne, ne_eq, List.mem_map, not_exists, not_and]

theorem castWatchlistMovie_typed (rt : Runtime) (X : Int) (t : String) (pp : Option String) :
    castWatchlistMovie rt ⟨.num X, .str t, .ofOptString pp⟩ = some ⟨X, t, pp⟩ := by
  cases pp <;> rfl

theorem watchlistById_id {rt : Runtime} {wls : List Watchlist} {wid : String} {w : Watchlist}
    (h : watchlistById rt wls wid = some w) : rt.castObjectId wid = some w._id ∧ w ∈ wls := by
  unfold watchlistById at h
  cases hc : rt.castObjectId wid with
  | none => simp [hc] at h
  | some oid =>
    rw [hc] at h
    have hid := List.find?_some h
    refine ⟨?_, List.mem_of_find?_eq_some h⟩
    simp only [beq_iff_eq] at hid
    rw [hid]

theorem find_setMovies (wls : List Watchlist) (w : Watchlist) (oid : ObjectId)
    (movies : List WatchlistMovie) (h : wls.find? (fun wl => wl._id == oid) = some w) :
    (setMovies wls w movies).find? (fun wl => wl._id == oid) = some { w with movies := movies } := by
  have hw : w._id = oid := by
    have := List.find?_some h
    simpa using this
  induction wls with
  | nil => simp at h
  | cons wl rest ih =>
    rw [List.find?_cons] at h
    unfold setMovies
    by_cases hwl : wl._id = oid
    · have h1 : (wl._id == oid) = true := by simp [hwl]
      rw [h1] at h
      have hwlw : wl = w := Option.some.inj h
      subst hwlw
      have h2 : (wl._id == wl._id) = true := by simp
      have h3 : (({ wl with movies := movies } : Watchlist)._id == oid) = true := h1
      rw [h2, if_pos rfl, List.find?_cons, h3]
    · have h1 : (wl._id == oid) = false := by simp [hwl]
      rw [h1] at h
      have h2 : (wl._id == w._id) = false := by simp [hw, hwl]
      simp only [h2, Bool.false_eq_true, if_false, List.find?_cons, h1]
      exact ih h

theorem watchlistById_setMovies (rt : Runtime) (wls : List Watchlist) (wid : String)
    (w : Watchlist) (movies : List WatchlistMovie) (h : watchlistById rt wls wid = some w) :
    watchlistById rt (setMovies wls w movies) wid = some { w with movies := movies } := by
  unfold watchlistById at h ⊢
  cases hc : rt.castObjectId wid with
  | none => simp [hc] at h
  | some oid =>
    rw [hc] at h
    exact find_setMovies wls w oid movies h

theorem setMovies_keys (wls : List Watchlist) (w : Watchlist) (movies : List WatchlistMovie) :
    (setMovies wls w movies).map (fun wl => (wl._id, wl.name)) =
      wls.map (fun wl => (wl._id, wl.name)) := by
  induction wls with
  | nil => rfl
  | cons wl rest ih =>
    unfold setMovies
    split_ifs
    · simp
    · simp [ih]

theorem mem_setMovies {wls : List Watchlist} {w : Watchlist} {movies : List WatchlistMovie}
    {wl : Watchlist} (h : wl ∈ setMovies wls w movies) : wl ∈ wls ∨ wl.movies = movies := by
  induction wls with
  | nil => simp [setMovies] at h
  | cons x rest ih =>
    unfold setMovies at h
    split_ifs at h
    · rcases List.mem_cons.mp h with rfl | h
      · exact Or.inr rfl
      · exact Or.inl (List.mem_cons_of_mem _ h)
    · rcases List.mem_cons.mp h with rfl | h
      · exact Or.inl (List.mem_cons_self _ _)
      · exact (ih h).imp (List.mem_cons_of_mem _) id

theorem addMovieToWatchlist_new (rt : Runtime) {io : Persistence} {db : Store} {uid : ObjectId}
    {u : User} {w : Watchlist} (wid : String) (X : Int) (t : String) (pp : Option String)
    (hl : io.loadOk = true) (hs : io.saveOk = true) (hu : db.lookup uid = some u)
    (hw : watchlistById rt u.watchlists wid = some w)
    (hX : X ≠ 0) (ht : t ≠ "") (hnew : X ∉ watchlistIds w) :
    addMovieToWatchlist rt io db uid wid ⟨.num X, .str t, .ofOptString pp⟩ =
      (⟨200, "Movie added to watchlist", .watchlist { w with movies := w.movies ++ [⟨X, t, pp⟩] }⟩,
        db.write { u with
          watchlists := setMovies u.watchlists w (w.movies ++ [⟨X, t, pp⟩]) }) := by
  have hany : w.movies.any (fun movie => strictEqNumber movie.tmdbId (.num X)) = false := by
    rw [Bool.eq_false_iff, Ne, any_strictEqNumber_entry]
    exact hnew
  simp only [addMovieToWatchlist, truthy_num hX, truthy_str ht, findById_loaded hl hu, hw, hany,
    pushWatchlistMovie, castWatchlistMovie_typed, save_valid rt db _ hs, Bool.not_true,
    Bool.or_self, Bool.false_eq_true, if_false]

theorem addMovieToWatchlist_dup (rt : Runtime) {io : Persistence} {db : Store} {uid : ObjectId}
    {u : User} {w : Watchlist} (wid : String) (X : Int) (b : WatchlistMovieBody)
    (hb : b.tmdbId = .num X) (ht : b.title.truthy = true)
    (hl : io.loadOk = true) (hu : db.lookup uid = some u)
    (hw : watchlistById rt u.watchlists wid = some w)
    (hX : X ≠ 0) (hdup : X ∈ watchlistIds w) :
    addMovieToWatchlist rt io db uid wid b = (reply 409 "Movie already in this watchlist", db) := by
  have hany : w.movies.any (fun movie => strictEqNumber movie.tmdbId b.tmdbId) = true := by
    rw [hb, any_strictEqNumber_entry]
    exact hdup
  have hid : b.tmdbId.truthy = true := by rw [hb]; exact truthy_num hX
  simp only [addMovieToWatchlist, hid, ht, findById_loaded hl hu, hw, hany, Bool.not_true,
    Bool.or_self, Bool.false_eq_true, if_false, if_true]

theorem addMovieToWatchlist_unresolved (rt : Runtime) {io : Persistence} {db : Store}
    {uid : ObjectId} {u : User} (wid : String) (b : WatchlistMovieBody)
    (hid : b.tmdbId.truthy = true) (ht : b.title.truthy = true)
    (hl : io.loadOk = true) (hu : db.lookup uid = some u)
    (hw : watchlistById rt u.watchlists wid = none) :
    addMovieToWatchlist rt io db uid wid b = (reply 404 "Watchlist not found", db) := by
  simp only [addMovieToWatchlist, hid, ht, findById_loaded hl hu, hw, Bool.not_true,
    Bool.or_self, Bool.false_eq_true, if_false]

theorem removeMovieFromWatchlist_loaded (rt : Runtime) {io : Persistence} {db : Store}
    {uid : ObjectId} {u : User} {w : Watchlist} (wid p : String)
    (hl : io.loadOk = true) (hu : db.lookup uid = some u)
    (hw : watchlistById rt u.watchlists wid = some w) :
    removeMovieFromWatchlist rt io db uid wid p =
      if (w.movies.filter (fun movie => strictNeParsed movie.tmdbId (rt.parseInt p))).length ==
          w.movies.length then
        (reply 404 "Movie not found in this watchlist", db)
      else
        match save rt io db ⟨{ u with watchlists := (setMovies u.watchlists
            { w with movies := (w.movies.filter
              (fun movie => strictNeParsed movie.tmdbId (rt.parseInt p))) }
            (w.movies.filter (fun movie => strictNeParsed movie.tmdbId (rt.parseInt p)))) },
            false, false⟩ with
        | none => (reply 500 "Server error removing movie from watchlist", db)
        | some db' =>
          (⟨200, "Movie removed from watchlist", .watchlist { w with movies := (w.movies.filter
            (fun movie => strictNeParsed movie.tmdbId (rt.parseInt p))) }⟩, db') := by
  simp only [removeMovieFromWatchlist, findById_loaded hl hu, hw]

theorem setMovies_target_id (wls : List Watchlist) (w w' : Watchlist)
    (movies : List WatchlistMovie) (h : w'._id = w._id) :
    setMovies wls w' movies = setMovies wls w movies := by
  induction wls with
  | nil => rfl
  | cons x rest ih =>
    unfold setMovies
    rw [h, ih]

theorem addMovieToWatchlist_stored_entry (rt : Runtime) (io : Persistence) (db : Store)
    (uid : ObjectId) (wid : String) (b : WatchlistMovieBody) (u : User)
    (hu : db.lookup uid = some u) :
    (addMovieToWatchlist rt io db uid wid b).2 = db ∨
      ∃ w m, watchlistById rt u.watchlists wid = some w ∧ castWatchlistMovie rt b = some m ∧
        w.movies.any (fun movie => strictEqNumber movie.tmdbId b.tmdbId) = false ∧
        (addMovieToWatchlist rt io db uid wid b).2 =
          db.write { u with watchlists := setMovies u.watchlists w (w.movies ++ [m]) } := by
  unfold addMovieToWatchlist
  split_ifs
  · exact Or.inl rfl
  · split
    · exact Or.inl rfl
    · exact Or.inl rfl
    · next user hf =>
      obtain ⟨-, u', hu', rfl⟩ := findById_eq_some hf
      obtain rfl : u' = u := Option.some.inj (hu'.symm.trans hu)
      split
      · exact Or.inl rfl
      · next watchlist hw =>
        dsimp only
        split_ifs with hdup
        · exact Or.inl rfl
        · split
          · exact Or.inl rfl
          · next db' hsave =>
            obtain ⟨hvalid, -, rfl⟩ := save_eq_some hsave
            right
            cases hcast : castWatchlistMovie rt b with
            | none => simp [pushWatchlistMovie, hcast] at hvalid
            | some m =>
              refine ⟨watchlist, m, hw, rfl, by simpa using hdup, ?_⟩
              simp only [pushWatchlistMovie, hcast, preSave]
              rfl

theorem removeMovieFromWatchlist_stored_entry (rt : Runtime) (io : Persistence) (db : Store)
    (uid : ObjectId) (wid p : String) (u : User) (hu : db.lookup uid = some u) :
    (removeMovieFromWatchlist rt io db uid wid p).2 = db ∨
      ∃ w, watchlistById rt u.watchlists wid = some w ∧
        (removeMovieFromWatchlist rt io db uid wid p).2 =
          db.write { u with watchlists := (setMovies u.watchlists w
            (w.movies.filter (fun movie => strictNeParsed movie.tmdbId (rt.parseInt p)))) } := by
  unfold removeMovieFromWatchlist
  split
  · exact Or.inl rfl
  · exact Or.inl rfl
  · next user hf =>
    obtain ⟨-, u', hu', rfl⟩ := findById_eq_some hf
    obtain rfl : u' = u := Option.some.inj (hu'.symm.trans hu)
    split
    · exact Or.inl rfl
    · next watchlist hw =>
      dsimp only
      split_ifs
      · exact Or.inl rfl
      · split
        · exact Or.inl rfl
        · next db' hsave =>
          obtain ⟨-, -, rfl⟩ := save_eq_some hsave
          right
          refine ⟨watchlist, hw, ?_⟩
          have key := setMovies_target_id u'.watchlists watchlist
            { watchlist with movies := (watchlist.movies.filter
              (fun movie => strictNeParsed movie.tmdbId (rt.parseInt p))) }
            (watchlist.movies.filter (fun movie => strictNeParsed movie.tmdbId (rt.parseInt p))) rfl
          simp only [preSave, Bool.not_false, if_true, key]

/-! ## C11: uniqueness is scoped to one list -/

/-- C11 (as amended): for a loaded account, a nonzero integer id `X` and a non-empty
title, with the save succeeding: add-entry of `X` to a watchlist that resolves and does
not hold `X` answers 200 with that watchlist extended, whatever the favorites and the other
watchlists hold; and add-favorite of `X`, when no favorite has the id, answers 200 with the
favorites extended, whatever the watchlists hold. -/
theorem uniqueness_scoped_to_list (rt : Runtime) (io : Persistence) (db : Store)
    (uid : ObjectId) (u : User) (X : Int) (t : String) (pp rd : Option String)
    (hl : io.loadOk = true) (hs : io.saveOk = true) (hu : db.lookup uid = some u)
    (hX : X ≠ 0) (ht : t ≠ "") :
    (∀ w wid, watchlistById rt u.watchlists wid = some w → X ∉ watchlistIds w →
        (addMovieToWatchlist rt io db uid wid ⟨.num X, .str t, .ofOptString pp⟩).1 =
          ⟨200, "Movie added to watchlist",
            .watchlist { w with movies := w.movies ++ [⟨X, t, pp⟩] }⟩) ∧
      (X ∉ favoriteIds u →
        (addFavoriteMovie rt io db uid ⟨.num X, .str t, .ofOptString pp, .ofOptString rd⟩).1 =
          ⟨200, "Movie added to favorites",
            .favoriteMovies (u.favoriteMovies ++ [⟨X, t, pp, rd⟩])⟩) := by
  constructor
  · intro w wid hw hnew
    rw [addMovieToWatchlist_new rt wid X t pp hl hs hu hw hX ht hnew]
  · intro hnew
    rw [addFavorite_new rt X t pp rd hl hs hu hX ht hnew]

/-- Witness for C11: the account holds 42 as a favorite and in "Classics"; adding 42 to
"Weekend" answers 200 and the stored account then holds 42 in its favorites and in both
watchlists. And the account that holds 42 in "Classics" only can add 42 as a favorite. -/
theorem uniqueness_scoped_to_list_witness :
    (addMovieToWatchlist nodeRuntime (healthy 0) [accountHolding42] 1 wid8 entryBody42).1 =
        ⟨200, "Movie added to watchlist", .watchlist ⟨8, "Weekend", [⟨42, "X", none⟩]⟩⟩ ∧
      (addMovieToWatchlist nodeRuntime (healthy 0) [accountHolding42] 1 wid8 entryBody42).2 =
        [accountHolding42Everywhere] ∧
      (addFavoriteMovie nodeRuntime (healthy 0) [accountWatching42] 1 body42).1 =
        ⟨200, "Movie added to favorites", .favoriteMovies [⟨42, "X", none, none⟩]⟩ :=
  ⟨(uniqueness_scoped_to_list nodeRuntime (healthy 0) [accountHolding42] 1 accountHolding42
      42 "X" none none rfl rfl (by decide) (by decide) (by decide)).1
      ⟨8, "Weekend", []⟩ wid8 (by decide) (by decide),
    by decide,
    (uniqueness_scoped_to_list nodeRuntime (healthy 0) [accountWatching42] 1 accountWatching42
      42 "X" none none rfl rfl (by decide) (by decide) (by decide)).2 (by decide)⟩

/-- C11 fails at the id 0: the watchlist "Weekend" resolves and holds no entry with id 0,
and no favorite has the id 0, yet add-entry and add-favorite both answer 400. -/
theorem zero_id_entry_and_favorite_rejected :
    watchlistById nodeRuntime accountHolding42.watchlists wid8 = some ⟨8, "Weekend", []⟩ ∧
      (0 : Int) ∉ favoriteIds accountHolding42 ∧
      addMovieToWatchlist nodeRuntime (healthy 0) [accountHolding42] 1 wid8 entryBodyZero =
        (reply 400 "Movie ID and title are required.", [accountHolding42]) ∧
      addFavoriteMovie nodeRuntime (healthy 0) [accountHolding42] 1 bodyZero =
        (reply 400 "Movie ID and title are required.", [accountHolding42]) := by
  decide

/-! ## C12: ids within one watchlist -/

theorem watchlistsUnique_setMovies {u : User} {w : Watchlist} {movies : List WatchlistMovie}
    (hinv : watchlistsUnique u) (hmovies : (movies.map (fun m => m.tmdbId)).Nodup) :
    watchlistsUnique { u with watchlists := setMovies u.watchlists w movies } := by
  intro wl hwl
  rcases mem_setMovies hwl with h | h
  · exact hinv wl h
  · unfold watchlistIds
    rw [h]
    exact hmovies

theorem castWatchlistMovie_num {rt : Runtime} {b : WatchlistMovieBody} {m : WatchlistMovie}
    {n : Int} (hn : b.tmdbId = .num n) (hm : castWatchlistMovie rt b = some m) :
    m.tmdbId = n := by
  unfold castWatchlistMovie at hm
  rw [hn] at hm
  simp only [castNumber] at hm
  split at hm
  · next heq _ _ =>
    have := Option.some.inj (Option.some.inj heq)
    rw [← Option.some.inj hm]
    exact this.symm
  · exact absurd hm (by simp)

/-- C12 (as amended): for a stored account. Take a watchlist that resolves and whose
entries have pairwise distinct ids, a nonzero integer id `X` and a non-empty title, with
the persistence calls succeeding: two add-entry calls in a row leave exactly one entry with
id `X` in the stored watchlist, and the second call answers 409 and leaves the store as
the first call left it. And every collection operation whose add-entry id, if any, is a
number keeps the entries of each watchlist of the account pairwise distinct in id. -/
theorem addEntry_twice (rt : Runtime) (db : Store) (uid : ObjectId) (u : User)
    (hu : db.lookup uid = some u) :
    (∀ (io1 io2 : Persistence) (w : Watchlist) (wid : String) (X : Int) (t : String)
        (pp : Option String),
        watchlistById rt u.watchlists wid = some w → (watchlistIds w).Nodup → X ≠ 0 → t ≠ "" →
        io1.loadOk = true → io1.saveOk = true → io2.loadOk = true →
        (((addMovieToWatchlist rt io1 db uid wid
              ⟨.num X, .str t, .ofOptString pp⟩).2.lookup uid).bind
            (fun stored => watchlistById rt stored.watchlists wid)).map
          (fun stored => (watchlistIds stored).count X) = some 1 ∧
        addMovieToWatchlist rt io2
            (addMovieToWatchlist rt io1 db uid wid ⟨.num X, .str t, .ofOptString pp⟩).2
            uid wid ⟨.num X, .str t, .ofOptString pp⟩ =
          (reply 409 "Movie already in this watchlist",
            (addMovieToWatchlist rt io1 db uid wid ⟨.num X, .str t, .ofOptString pp⟩).2)) ∧
      (∀ io req stored, watchlistsUnique u →
        (∀ wid' b, req = .addToWatchlist wid' b → ∃ n, b.tmdbId = .num n) →
        (handle rt io db uid req).2.lookup uid = some stored → watchlistsUnique stored) := by
  refine ⟨?_, ?_⟩
  · intro io1 io2 w wid X t pp hw huniq hX ht hl1 hs1 hl2
    by_cases hmem : X ∈ watchlistIds w
    · rw [addMovieToWatchlist_dup rt wid X ⟨.num X, .str t, .ofOptString pp⟩ rfl (truthy_str ht)
        hl1 hu hw hX hmem]
      refine ⟨?_, addMovieToWatchlist_dup rt wid X _ rfl (truthy_str ht) hl2 hu hw hX hmem⟩
      show Option.map _ (Option.bind (db.lookup uid) _) = some 1
      rw [hu, Option.some_bind, hw, Option.map_some', List.count_eq_one_of_mem huniq hmem]
    · rw [addMovieToWatchlist_new rt wid X t pp hl1 hs1 hu hw hX ht hmem]
      have hu' := lookup_write db uid u
        { u with watchlists := setMovies u.watchlists w (w.movies ++ [⟨X, t, pp⟩]) } hu
        (show u._id = uid from lookup_id hu)
      refine ⟨?_, ?_⟩
      · show Option.map _ (Option.bind ((db.write _).lookup uid) _) = some 1
        rw [hu', Option.some_bind]
        show Option.map _ (watchlistById rt (setMovies u.watchlists w _) wid) = some 1
        rw [watchlistById_setMovies rt u.watchlists wid w _ hw, Option.map_some']
        show some (List.count X (List.map (fun m => m.tmdbId) (w.movies ++ [⟨X, t, pp⟩]))) =
          some 1
        have hzero : List.count X (List.map (fun m => m.tmdbId) w.movies) = 0 :=
          List.count_eq_zero_of_not_mem hmem
        rw [List.map_append, List.count_append, hzero]
        simp
      · refine addMovieToWatchlist_dup rt wid X _ rfl (truthy_str ht) hl2 hu'
          (watchlistById_setMovies rt u.watchlists wid w _ hw) hX ?_
        show X ∈ List.map (fun m => m.tmdbId) (w.movies ++ [⟨X, t, pp⟩])
        simp
  · intro io req stored hinv hreq hstored
    have hsame : ∀ {db' : Store}, db' = db → db'.lookup uid = some stored →
        watchlistsUnique stored := by
      intro db' h hs
      rw [h, hu] at hs
      exact Option.some.inj hs ▸ hinv
    have hwritten : ∀ {db' : Store} {v : User}, db' = db.write v → v._id = u._id →
        watchlistsUnique v → db'.lookup uid = some stored → watchlistsUnique stored := by
      intro db' v h hid hv hs
      rw [h, lookup_write db uid u v hu (hid.trans (lookup_id hu))] at hs
      exact Option.some.inj hs ▸ hv
    cases req with
    | addFavorite b =>
      rcases addFavorite_stored rt io db uid b u hu with h | ⟨m, -, -, h⟩
      · exact hsame h hstored
      · exact hwritten h rfl hinv hstored
    | removeFavorite p =>
      rcases removeFavorite_stored rt io db uid p u hu with h | h
      · exact hsame h hstored
      · exact hwritten h rfl hinv hstored
    | createWatchlist name =>
      rcases createWatchlist_stored rt io db uid name u hu with h | ⟨n, -, h⟩
      · exact hsame h hstored
      · refine hwritten h rfl ?_ hstored
        intro wl hwl
        rcases List.mem_append.mp hwl with h' | h'
        · exact hinv wl h'
        · rw [List.mem_singleton.mp h']
          exact List.nodup_nil
    | addToWatchlist wid' b =>
      obtain ⟨n, hn⟩ := hreq wid' b rfl
      rcases addMovieToWatchlist_stored_entry rt io db uid wid' b u hu with
        h | ⟨w', m, hw', hm, hfresh, h⟩
      · exact hsame h hstored
      · refine hwritten h rfl (watchlistsUnique_setMovies hinv ?_) hstored
        have hmid : m.tmdbId = n := castWatchlistMovie_num hn hm
        have hnot : n ∉ w'.movies.map (fun m => m.tmdbId) := by
          rw [hn] at hfresh
          intro hmem
          rw [(any_strictEqNumber_entry w'.movies n).mpr hmem] at hfresh
          exact Bool.noConfusion hfresh
        rw [List.map_append, List.map_cons, List.map_nil, hmid]
        exact List.nodup_append.mpr ⟨hinv w' (watchlistById_id hw').2, List.nodup_singleton n, by
          simpa [List.Disjoint] using hnot⟩
    | removeFromWatchlist wid' p =>
      rcases removeMovieFromWatchlist_stored_entry rt io db uid wid' p u hu with h | ⟨w', hw', h⟩
      · exact hsame h hstored
      · refine hwritten h rfl (watchlistsUnique_setMovies hinv ?_) hstored
        exact ((List.filter_sublist _).map _).nodup (hinv w' (watchlistById_id hw').2)

/-- Witness for C12: on the account whose watchlist "Weekend" is empty, adding 42 to it
twice stores the single entry 42 and the second call answers 409. -/
theorem addEntry_twice_witness :
    (((addMovieToWatchlist nodeRuntime (healthy 0) [accountHolding42] 1 wid8 entryBody42).2.lookup 1).bind
          (fun stored => watchlistById nodeRuntime stored.watchlists wid8)).map
        (fun stored => (watchlistIds stored).count 42) = some 1 ∧
      addMovieToWatchlist nodeRuntime (healthy 0)
          (addMovieToWatchlist nodeRuntime (healthy 0) [accountHolding42] 1 wid8 entryBody42).2
          1 wid8 entryBody42 =
        (reply 409 "Movie already in this watchlist", [accountHolding42Everywhere]) :=
  (addEntry_twice nodeRuntime [accountHolding42] 1 accountHolding42 (by decide)).1
    (healthy 0) (healthy 0) ⟨8, "Weekend", []⟩ wid8 42 "X" none (by decide) (by decide)
    (by decide) (by decide) rfl rfl rfl

/-- C12 fails at the id 0: the watchlist "Weekend" resolves, both add-entry calls answer
400, the second is no 409, and no entry with id 0 is stored in the watchlist. -/
theorem zero_id_entry_twice_rejected :
    addMovieToWatchlist nodeRuntime (healthy 0)
        (addMovieToWatchlist nodeRuntime (healthy 0) [accountHolding42] 1 wid8 entryBodyZero).2
        1 wid8 entryBodyZero =
        (reply 400 "Movie ID and title are required.", [accountHolding42]) ∧
      (watchlistById nodeRuntime accountHolding42.watchlists wid8).map
        (fun stored => (watchlistIds stored).count 0) = some 0 := by
  decide

/-- The type-blind duplicate check of `addMovieToWatchlist`: the watchlist "Classics" holds
42, the body carries the id as the string "42", and the call answers 200 and stores two
entries with id 42 in the watchlist. -/
theorem string_id_duplicates_entry :
    (addMovieToWatchlist nodeRuntime (healthy 0) [accountHolding42] 1 wid7 entryBodyString42).1 =
        ⟨200, "Movie added to watchlist",
          .watchlist ⟨7, "Classics", [⟨42, "X", none⟩, ⟨42, "X", none⟩]⟩⟩ := by
  decide

/-! ## C13, C14: removing an entry of a watchlist -/

/-- C13: for a stored account and every remove-entry request, the account stored after
the call has the same watchlists as before, by id and name and in the same order. And
when the watchlist resolves, its only entry has the id that the route parameter denotes
and the persistence calls succeed, the watchlist is still stored, with no entries. -/
theorem removeEntry_keeps_watchlists (rt : Runtime) (io : Persistence) (db : Store)
    (uid : ObjectId) (wid p : String) (u : User) (hu : db.lookup uid = some u) :
    (∀ stored, (removeMovieFromWatchlist rt io db uid wid p).2.lookup uid = some stored →
        watchlistKeys stored = watchlistKeys u) ∧
      (∀ w m, io.loadOk = true → io.saveOk = true →
        watchlistById rt u.watchlists wid = some w → w.movies = [m] →
        rt.parseInt p = some m.tmdbId →
        ((removeMovieFromWatchlist rt io db uid wid p).2.lookup uid).bind
          (fun stored => watchlistById rt stored.watchlists wid) =
            some { w with movies := [] }) := by
  constructor
  · intro stored hstored
    rcases removeMovieFromWatchlist_stored_entry rt io db uid wid p u hu with h | ⟨w, -, h⟩
    · rw [h, hu] at hstored
      rw [← Option.some.inj hstored]
    · rw [h, lookup_write db uid u
        { u with watchlists := (setMovies u.watchlists w
          (w.movies.filter (fun movie => strictNeParsed movie.tmdbId (rt.parseInt p)))) } hu
        (show u._id = uid from lookup_id hu)] at hstored
      rw [← Option.some.inj hstored]
      exact setMovies_keys u.watchlists w _
  · intro w m hl hs hw hm hp
    have hfilter : w.movies.filter (fun movie => strictNeParsed movie.tmdbId (rt.parseInt p)) = [] := by
      rw [hm, hp]
      simp [strictNeParsed]
    rw [removeMovieFromWatchlist_loaded rt wid p hl hu hw, hfilter, save_valid rt db _ hs, hm]
    simp only [List.length_nil, List.length_singleton, beq_iff_eq, Nat.zero_ne_one, if_false]
    have key := setMovies_target_id u.watchlists w { w with movies := [] } [] rfl
    rw [key]
    show Option.bind ((db.write _).lookup uid) _ = _
    rw [lookup_write db uid u { u with watchlists := setMovies u.watchlists w [] } hu
      (show u._id = uid from lookup_id hu), Option.some_bind]
    exact watchlistById_setMovies rt u.watchlists wid w [] hw

/-- Witness for C13: the scenario of the spec. Creating "Classics" and adding the entry 7
gives the account whose watchlist holds 7; removing 7 leaves the watchlist stored, empty,
and the watchlists of the account are the same by id and name. -/
theorem removeEntry_keeps_watchlists_witness :
    (addMovieToWatchlist nodeRuntime (healthy 0)
        (createWatchlist nodeRuntime (healthy 7) [emptyAccount] 1 (.str "Classics")).2
        1 wid7 entryBody7).2 = [accountClassicsWith7] ∧
      ((removeMovieFromWatchlist nodeRuntime (healthy 0) [accountClassicsWith7] 1 wid7 "7").2.lookup 1).bind
        (fun stored => watchlistById nodeRuntime stored.watchlists wid7) =
          some ⟨7, "Classics", []⟩ ∧
      watchlistKeys accountWithClassics = watchlistKeys accountClassicsWith7 :=
  ⟨by decide,
    (removeEntry_keeps_watchlists nodeRuntime (healthy 0) [accountClassicsWith7] 1 wid7 "7"
      accountClassicsWith7 (by decide)).2 ⟨7, "Classics", [⟨7, "Y", none⟩]⟩ ⟨7, "Y", none⟩
      rfl rfl (by decide) rfl (by decide),
    (removeEntry_keeps_watchlists nodeRuntime (healthy 0) [accountClassicsWith7] 1 wid7 "7"
      accountClassicsWith7 (by decide)).1 accountWithClassics (by decide)⟩

/-- C14: for a loaded account, a route parameter that denotes the id `X`, and the save
succeeding: remove-entry answers 404 when the watchlist id does not resolve, answers 404
when the watchlist resolves and none of its entries has the id `X`, and otherwise answers
200 with that watchlist, whose returned and stored entries are the previous entries with
the id `X` filtered out. -/
theorem removeEntry_outcomes (rt : Runtime) (io : Persistence) (db : Store) (uid : ObjectId)
    (wid p : String) (u : User) (X : Int) (hp : rt.parseInt p = some X)
    (hl : io.loadOk = true) (hs : io.saveOk = true) (hu : db.lookup uid = some u) :
    (watchlistById rt u.watchlists wid = none →
        removeMovieFromWatchlist rt io db uid wid p = (reply 404 "Watchlist not found", db)) ∧
      (∀ w, watchlistById rt u.watchlists wid = some w → X ∉ watchlistIds w →
        removeMovieFromWatchlist rt io db uid wid p =
          (reply 404 "Movie not found in this watchlist", db)) ∧
      (∀ w, watchlistById rt u.watchlists wid = some w → X ∈ watchlistIds w →
        (removeMovieFromWatchlist rt io db uid wid p).1 =
            ⟨200, "Movie removed from watchlist",
              .watchlist { w with movies := w.movies.filter (fun m => m.tmdbId != X) }⟩ ∧
          ((removeMovieFromWatchlist rt io db uid wid p).2.lookup uid).bind
            (fun stored => watchlistById rt stored.watchlists wid) =
              some { w with movies := w.movies.filter (fun m => m.tmdbId != X) } ∧
          (w.movies.filter (fun m => m.tmdbId != X)).Sublist w.movies) := by
  refine ⟨?_, ?_, ?_⟩
  · intro hw
    simp only [removeMovieFromWatchlist, findById_loaded hl hu, hw]
  · intro w hw hX
    have hlen : (w.movies.filter
        (fun movie => strictNeParsed movie.tmdbId (some X))).length = w.movies.length :=
      List.filter_length_eq_length.mpr ((kept_all_iff_entry _ X).mpr hX)
    rw [removeMovieFromWatchlist_loaded rt wid p hl hu hw, hp, hlen]
    simp
  · intro w hw hX
    have hlen : ¬ (w.movies.filter
        (fun movie => strictNeParsed movie.tmdbId (some X))).length = w.movies.length := by
      intro h
      exact (kept_all_iff_entry _ X).mp (List.filter_length_eq_length.mp h) hX
    have hres := removeMovieFromWatchlist_loaded rt wid p hl hu hw
    rw [hp, save_valid rt db _ hs] at hres
    simp only [beq_iff_eq, hlen, if_false] at hres
    have key := setMovies_target_id u.watchlists w
      { w with movies := (w.movies.filter (fun m => m.tmdbId != X)) }
      (w.movies.filter (fun m => m.tmdbId != X)) rfl
    have hres' : removeMovieFromWatchlist rt io db uid wid p =
        (⟨200, "Movie removed from watchlist",
            .watchlist { w with movies := (w.movies.filter (fun m => m.tmdbId != X)) }⟩,
          db.write { u with watchlists := (setMovies u.watchlists w
            (w.movies.filter (fun m => m.tmdbId != X))) }) := by
      rw [hres, ← key]
      rfl
    rw [hres']
    refine ⟨rfl, ?_, List.filter_sublist _⟩
    show Option.bind ((db.write _).lookup uid) _ = _
    rw [lookup_write db uid u
      { u with watchlists := (setMovies u.watchlists w
        (w.movies.filter (fun m => m.tmdbId != X))) } hu
      (show u._id = uid from lookup_id hu), Option.some_bind]
    exact watchlistById_setMovies rt u.watchlists wid w _ hw

/-- Witness for C14: on the account whose "Classics" holds 42 and whose "Weekend" is
empty, removing 42 from "Classics" answers 200 with the emptied watchlist, removing 42
from "Weekend" answers 404, and so does removing from a watchlist id that does not resolve. -/
theorem removeEntry_outcomes_witness :
    removeMovieFromWatchlist nodeRuntime (healthy 0) [accountHolding42] 1 "nowhere" "42" =
        (reply 404 "Watchlist not found", [accountHolding42]) ∧
      removeMovieFromWatchlist nodeRuntime (healthy 0) [accountHolding42] 1 wid8 "42" =
        (reply 404 "Movie not found in this watchlist", [accountHolding42]) ∧
      (removeMovieFromWatchlist nodeRuntime (healthy 0) [accountHolding42] 1 wid7 "42").1 =
        ⟨200, "Movie removed from watchlist", .watchlist ⟨7, "Classics", []⟩⟩ :=
  ⟨(removeEntry_outcomes nodeRuntime (healthy 0) [accountHolding42] 1 "nowhere" "42"
      accountHolding42 42 (by decide) rfl rfl (by decide)).1 (by decide),
    (removeEntry_outcomes nodeRuntime (healthy 0) [accountHolding42] 1 wid8 "42"
      accountHolding42 42 (by decide) rfl rfl (by decide)).2.1 ⟨8, "Weekend", []⟩
      (by decide) (by decide),
    ((removeEntry_outcomes nodeRuntime (healthy 0) [accountHolding42] 1 wid7 "42"
      accountHolding42 42 (by decide) rfl rfl (by decide)).2.2 ⟨7, "Classics", [⟨42, "X", none⟩]⟩
      (by decide) (by decide)).1⟩

/-! ## C15: adding an entry to a watchlist -/

/-- C15 (as amended): for a loaded account, an add-entry body whose id and title are
truthy is answered 404 'Watchlist not found' when the watchlist id does not resolve. And
for a nonzero integer id `X` and a non-empty title, when the watchlist resolves, none of
its entries has the id `X` and the save succeeds, the answer is 200 with that single
watchlist, whose returned and stored entries are the previous entries followed by the
one entry built from the body. -/
theorem addEntry_outcomes (rt : Runtime) (io : Persistence) (db : Store) (uid : ObjectId)
    (wid : String) (u : User) (hl : io.loadOk = true) (hu : db.lookup uid = some u) :
    (∀ b : WatchlistMovieBody, b.tmdbId.truthy = true → b.title.truthy = true →
        watchlistById rt u.watchlists wid = none →
        addMovieToWatchlist rt io db uid wid b = (reply 404 "Watchlist not found", db)) ∧
      (∀ w X t pp, io.saveOk = true → watchlistById rt u.watchlists wid = some w →
        X ≠ 0 → t ≠ "" → X ∉ watchlistIds w →
        (addMovieToWatchlist rt io db uid wid ⟨.num X, .str t, .ofOptString pp⟩).1 =
            ⟨200, "Movie added to watchlist",
              .watchlist { w with movies := w.movies ++ [⟨X, t, pp⟩] }⟩ ∧
          ((addMovieToWatchlist rt io db uid wid
              ⟨.num X, .str t, .ofOptString pp⟩).2.lookup uid).bind
            (fun stored => watchlistById rt stored.watchlists wid) =
              some { w with movies := w.movies ++ [⟨X, t, pp⟩] }) := by
  constructor
  · intro b hid ht hw
    exact addMovieToWatchlist_unresolved rt wid b hid ht hl hu hw
  · intro w X t pp hs hw hX ht hnew
    rw [addMovieToWatchlist_new rt wid X t pp hl hs hu hw hX ht hnew]
    refine ⟨rfl, ?_⟩
    show Option.bind ((db.write _).lookup uid) _ = _
    rw [lookup_write db uid u
      { u with watchlists := setMovies u.watchlists w (w.movies ++ [⟨X, t, pp⟩]) } hu
      (show u._id = uid from lookup_id hu), Option.some_bind]
    exact watchlistById_setMovies rt u.watchlists wid w _ hw

/-- Witness for C15: on the account whose "Classics" holds 42, adding 7 "Y" to "Classics"
answers 200 with the watchlist holding 42 then 7, and adding to a watchlist id that does
not resolve answers 404. -/
theorem addEntry_outcomes_witness :
    addMovieToWatchlist nodeRuntime (healthy 0) [accountHolding42] 1 "nowhere" entryBody7 =
        (reply 404 "Watchlist not found", [accountHolding42]) ∧
      (addMovieToWatchlist nodeRuntime (healthy 0) [accountHolding42] 1 wid7 entryBody7).1 =
        ⟨200, "Movie added to watchlist",
          .watchlist ⟨7, "Classics", [⟨42, "X", none⟩, ⟨7, "Y", none⟩]⟩⟩ :=
  ⟨(addEntry_outcomes nodeRuntime (healthy 0) [accountHolding42] 1 "nowhere" accountHolding42
      rfl (by decide)).1 entryBody7 (by decide) (by decide) (by decide),
    ((addEntry_outcomes nodeRuntime (healthy 0) [accountHolding42] 1 wid7 accountHolding42
      rfl (by decide)).2 ⟨7, "Classics", [⟨42, "X", none⟩]⟩ 7 "Y" none rfl (by decide)
      (by decide) (by decide) (by decide)).1⟩

/-- C15 fails at the id 0: the body carries the integer id 0 and the title "X". With a
watchlist id that does not resolve the answer is 400 and no 404, and with the watchlist
"Weekend", which holds no entry with id 0, the answer is 400 and no 200. -/
theorem zero_id_entry_is_400 :
    entryBodyZero.tmdbId = .num 0 ∧ entryBodyZero.title = .str "X" ∧
      watchlistById nodeRuntime accountHolding42.watchlists "nowhere" = none ∧
      addMovieToWatchlist nodeRuntime (healthy 0) [accountHolding42] 1 "nowhere" entryBodyZero =
        (reply 400 "Movie ID and title are required.", [accountHolding42]) ∧
      (watchlistById nodeRuntime accountHolding42.watchlists wid8).map
        (fun w => decide ((0 : Int) ∈ watchlistIds w)) = some false ∧
      addMovieToWatchlist nodeRuntime (healthy 0) [accountHolding42] 1 wid8 entryBodyZero =
        (reply 400 "Movie ID and title are required.", [accountHolding42]) := by
  decide

/-! ## C16: requests for an absent account -/

theorem findById_absent {io : Persistence} {db : Store} {uid : ObjectId}
    (hl : io.loadOk = true) (h : db.lookup uid = none) : findById io db uid = some none := by
  simp [findById, hl, h]

/-- C16 (as amended): for a request issued for an account that is not stored, nothing is
written to the store; when every field that the handler requires is truthy and the load
succeeds the outcome is 404 'User not found'; and when a required field is falsy (absent,
the empty string, or the id 0) the outcome is 400, since add-favorite, create-watchlist
and add-entry check the body before they load the account. -/
theorem absent_account_outcome (rt : Runtime) (io : Persistence) (db : Store) (uid : ObjectId)
    (req : Request) (habs : db.lookup uid = none) :
    (handle rt io db uid req).2 = db ∧
      (req.fieldsTruthy = true → io.loadOk = true →
        (handle rt io db uid req).1 = reply 404 "User not found") ∧
      (req.fieldsTruthy = false → (handle rt io db uid req).1.status = 400) := by
  have hfind : findById io db uid = none ∨ findById io db uid = some none := by
    unfold findById
    split_ifs
    · right; rw [habs]; rfl
    · left; rfl
  cases req with
  | addFavorite b =>
    refine ⟨?_, ?_, ?_⟩
    · rcases hfind with h | h <;> simp only [handle, addFavoriteMovie, h] <;> split_ifs <;> rfl
    · intro hp hl
      simp only [Request.fieldsTruthy, Bool.and_eq_true] at hp
      simp only [handle, addFavoriteMovie, hp.1, hp.2, findById_absent hl habs, Bool.not_true,
        Bool.or_self, Bool.false_eq_true, if_false]
    · intro hp
      have : (!b.tmdbId.truthy || !b.title.truthy) = true := by
        simp only [Request.fieldsTruthy] at hp
        cases h1 : b.tmdbId.truthy <;> cases h2 : b.title.truthy <;> simp_all
      simp only [handle, addFavoriteMovie, this, if_true, reply]
  | removeFavorite p =>
    refine ⟨?_, ?_, ?_⟩
    · rcases hfind with h | h <;> simp only [handle, removeFavoriteMovie, h]
    · intro _ hl
      simp only [handle, removeFavoriteMovie, findById_absent hl habs]
    · intro hp
      exact absurd hp (by simp [Request.fieldsTruthy])
  | createWatchlist name =>
    refine ⟨?_, ?_, ?_⟩
    · rcases hfind with h | h <;> simp only [handle, createWatchlist, h] <;> split_ifs <;> rfl
    · intro hp hl
      simp only [Request.fieldsTruthy] at hp
      simp only [handle, createWatchlist, hp, findById_absent hl habs, Bool.not_true,
        Bool.false_eq_true, if_false]
    · intro hp
      simp only [Request.fieldsTruthy] at hp
      simp only [handle, createWatchlist, hp, Bool.not_false, if_true, reply]
  | addToWatchlist wid b =>
    refine ⟨?_, ?_, ?_⟩
    · rcases hfind with h | h <;> simp only [handle, addMovieToWatchlist, h] <;> split_ifs <;> rfl
    · intro hp hl
      simp only [Request.fieldsTruthy, Bool.and_eq_true] at hp
      simp only [handle, addMovieToWatchlist, hp.1, hp.2, findById_absent hl habs, Bool.not_true,
        Bool.or_self, Bool.false_eq_true, if_false]
    · intro hp
      have : (!b.tmdbId.truthy || !b.title.truthy) = true := by
        simp only [Request.fieldsTruthy] at hp
        cases h1 : b.tmdbId.truthy <;> cases h2 : b.title.truthy <;> simp_all
      simp only [handle, addMovieToWatchlist, this, if_true, reply]
  | removeFromWatchlist wid p =>
    refine ⟨?_, ?_, ?_⟩
    · rcases hfind with h | h <;> simp only [handle, removeMovieFromWatchlist, h]
    · intro _ hl
      simp only [handle, removeMovieFromWatchlist, findById_absent hl habs]
    · intro hp
      exact absurd hp (by simp [Request.fieldsTruthy])

/-- Witness for C16: no account is stored; a complete add-favorite body is answered 404
'User not found', a body without a title is answered 400, and the store stays empty. -/
theorem absent_account_outcome_witness :
    (handle nodeRuntime (healthy 0) [] 1 (.addFavorite body42)).1 = reply 404 "User not found" ∧
      (handle nodeRuntime (healthy 0) [] 1
        (.addFavorite ⟨.num 42, .undefined, .undefined, .undefined⟩)).1.status = 400 ∧
      (handle nodeRuntime (healthy 0) [] 1 (.addFavorite body42)).2 = [] :=
  ⟨(absent_account_outcome nodeRuntime (healthy 0) [] 1 (.addFavorite body42) rfl).2.1
      (by decide) rfl,
    (absent_account_outcome nodeRuntime (healthy 0) [] 1
      (.addFavorite ⟨.num 42, .undefined, .undefined, .undefined⟩) rfl).2.2 (by decide),
    (absent_account_outcome nodeRuntime (healthy 0) [] 1 (.addFavorite body42) rfl).1⟩

/-- C16 fails for bodies with a missing field: no account is stored and the load would
succeed, yet add-favorite without a title, create-watchlist without a name and add-entry
without an id are answered 400 with the message of the body check, not 'User not found'. -/
theorem missing_field_checked_before_account :
    Store.lookup [] 1 = none ∧
      handle nodeRuntime (healthy 0) [] 1
          (.addFavorite ⟨.num 42, .undefined, .undefined, .undefined⟩) =
        (reply 400 "Movie ID and title are required.", []) ∧
      handle nodeRuntime (healthy 0) [] 1 (.createWatchlist .undefined) =
        (reply 400 "Watchlist name is required.", []) ∧
      handle nodeRuntime (healthy 0) [] 1
          (.addToWatchlist wid7 ⟨.undefined, .str "X", .undefined⟩) =
        (reply 400 "Movie ID and title are required.", []) := by
  decide

/-! ## C17: requests of different accounts -/

theorem lookup_write_other (db : Store) (v : User) (other : ObjectId) (h : v._id ≠ other) :
    (db.write v).lookup other = db.lookup other := by
  induction db with
  | nil => rfl
  | cons w rest ih =>
    unfold Store.lookup Store.write at *
    rw [List.map_cons, List.find?_cons, List.find?_cons]
    by_cases hw : w._id = v._id
    · have h1 : (w._id == v._id) = true := by simp [hw]
      have h2 : (v._id == other) = false := by simp [h]
      have h3 : (w._id == other) = false := by simp [hw, h]
      simp only [h1, if_true, h2, h3]
      exact ih
    · have h1 : (w._id == v._id) = false := by simp [hw]
      simp only [h1, Bool.false_eq_true, if_false]
      cases hwo : w._id == other
      · exact ih
      · rfl

theorem handle_absent (rt : Runtime) (io : Persistence) (db : Store) (uid : ObjectId)
    (req : Request) (habs : db.lookup uid = none) : (handle rt io db uid req).2 = db := by
  have hfind : findById io db uid = none ∨ findById io db uid = some none := by
    unfold findById
    split_ifs
    · right; rw [habs]; rfl
    · left; rfl
  cases req with
  | addFavorite b =>
    rcases hfind with h | h <;> simp only [handle, addFavoriteMovie, h] <;> split_ifs <;> rfl
  | removeFavorite p =>
    rcases hfind with h | h <;> simp only [handle, removeFavoriteMovie, h]
  | createWatchlist name =>
    rcases hfind with h | h <;> simp only [handle, createWatchlist, h] <;> split_ifs <;> rfl
  | addToWatchlist wid b =>
    rcases hfind with h | h <;> simp only [handle, addMovieToWatchlist, h] <;> split_ifs <;> rfl
  | removeFromWatchlist wid p =>
    rcases hfind with h | h <;> simp only [handle, removeMovieFromWatchlist, h]

theorem handle_written (rt : Runtime) (io : Persistence) (db : Store) (uid : ObjectId)
    (req : Request) (u : User) (hu : db.lookup uid = some u) :
    (handle rt io db uid req).2 = db ∨
      ∃ v, (handle rt io db uid req).2 = db.write v ∧ v._id = u._id ∧
        v.username = u.username ∧ v.email = u.email ∧ v.password = u.password := by
  cases req with
  | addFavorite b =>
    rcases addFavorite_stored rt io db uid b u hu with h | ⟨m, -, -, h⟩
    · exact Or.inl h
    · exact Or.inr ⟨_, h, rfl, rfl, rfl, rfl⟩
  | removeFavorite p =>
    rcases removeFavorite_stored rt io db uid p u hu with h | h
    · exact Or.inl h
    · exact Or.inr ⟨_, h, rfl, rfl, rfl, rfl⟩
  | createWatchlist name =>
    rcases createWatchlist_stored rt io db uid name u hu with h | ⟨n, -, h⟩
    · exact Or.inl h
    · exact Or.inr ⟨_, h, rfl, rfl, rfl, rfl⟩
  | addToWatchlist wid b =>
    rcases addMovieToWatchlist_stored rt io db uid wid b u hu with h | ⟨wls, h⟩
    · exact Or.inl h
    · exact Or.inr ⟨_, h, rfl, rfl, rfl, rfl⟩
  | removeFromWatchlist wid p =>
    rcases removeMovieFromWatchlist_stored rt io db uid wid p u hu with h | ⟨wls, h⟩
    · exact Or.inl h
    · exact Or.inr ⟨_, h, rfl, rfl, rfl, rfl⟩

/-- A request served for one account leaves the stored record of every other account as
it was, whatever the write oracle answers. -/
theorem other_account_unchanged (rt : Runtime) (io : Persistence) (db : Store)
    (uid other : ObjectId) (req : Request) (hne : uid ≠ other) :
    (handle rt io db uid req).2.lookup other = db.lookup other := by
  cases hlook : db.lookup uid with
  | none => rw [handle_absent rt io db uid req hlook]
  | some u =>
    rcases handle_written rt io db uid req u hlook with h | ⟨v, h, hid, -, -, -⟩
    · rw [h]
    · rw [h]
      exact lookup_write_other db v other (by rw [hid, lookup_id hlook]; exact hne)

/-- C17 at a failing input: two stores hold the same record of A and differ in the
favorite of B, 42 in the first and 7 in the second. A adds the favorite 42. The database
enforces the unique index that the schema declares on `favoriteMovies.tmdbId`: in the
first store the save is rejected and A is answered 500, in the second A is answered 200
and holds 42. The record of B is as before in both. -/
theorem shared_favorite_id_blocks_add :
    Store.lookup [accountA, accountB42] 1 = Store.lookup [accountA, accountB7] 1 ∧
      handleIndexed nodeRuntime 0 [accountA, accountB42] 1 (.addFavorite body42) =
        (reply 500 "Server error adding favorite movie", [accountA, accountB42]) ∧
      (handleIndexed nodeRuntime 0 [accountA, accountB7] 1 (.addFavorite body42)).1.status = 200 ∧
      ((handleIndexed nodeRuntime 0 [accountA, accountB7] 1 (.addFavorite body42)).2.lookup 1).map
        favoriteIds = some [1, 42] ∧
      (handleIndexed nodeRuntime 0 [accountA, accountB7] 1 (.addFavorite body42)).2.lookup 2 =
        some accountB7 := by
  decide

theorem findById_congr (io : Persistence) {db1 db2 : Store} {uid : ObjectId}
    (h : db1.lookup uid = db2.lookup uid) : findById io db1 uid = findById io db2 uid := by
  simp only [findById, h]

theorem save_lookup_congr (rt : Runtime) (io : Persistence) {db1 db2 : Store} {uid : ObjectId}
    {u : User} (doc : Document) (h1 : db1.lookup uid = some u) (h2 : db2.lookup uid = some u)
    (hid : doc.data._id = uid) :
    (save rt io db1 doc = none ∧ save rt io db2 doc = none) ∨
      ∃ d1 d2, save rt io db1 doc = some d1 ∧ save rt io db2 doc = some d2 ∧
        d1.lookup uid = d2.lookup uid := by
  unfold save
  split_ifs
  · exact Or.inl ⟨rfl, rfl⟩
  · exact Or.inl ⟨rfl, rfl⟩
  · refine Or.inr ⟨_, _, rfl, rfl, ?_⟩
    have hid' : (preSave rt io doc).data._id = uid := by
      unfold preSave
      split_ifs
      · exact hid
      · exact hid
    rw [lookup_write db1 uid u _ h1 hid', lookup_write db2 uid u _ h2 hid']

/-- With the answers of the persistence client fixed, the reply to a request and the
record stored for the account afterwards are decided by the record of the account and the
request: two stores that hold the same record for the account give the same reply and
the same record. -/
theorem handle_own_record (rt : Runtime) (io : Persistence) (db1 db2 : Store) (uid : ObjectId)
    (req : Request) (h : db1.lookup uid = db2.lookup uid) :
    (handle rt io db1 uid req).1 = (handle rt io db2 uid req).1 ∧
      (handle rt io db1 uid req).2.lookup uid = (handle rt io db2 uid req).2.lookup uid := by
  have hf := findById_congr io h
  cases hx : findById io db2 uid with
  | none =>
    rw [hx] at hf
    cases req <;>
      simp only [handle, addFavoriteMovie, removeFavoriteMovie, createWatchlist,
        addMovieToWatchlist, removeMovieFromWatchlist, hf, hx] <;>
      (try split_ifs) <;> first | exact ⟨rfl, h⟩ | exact ⟨trivial, h⟩
  | some o =>
    cases o with
    | none =>
      rw [hx] at hf
      cases req <;>
        simp only [handle, addFavoriteMovie, removeFavoriteMovie, createWatchlist,
          addMovieToWatchlist, removeMovieFromWatchlist, hf, hx] <;>
        (try split_ifs) <;> first | exact ⟨rfl, h⟩ | exact ⟨trivial, h⟩
    | some doc =>
      rw [hx] at hf
      obtain ⟨-, u, hu2, rfl⟩ := findById_eq_some hx
      have hu1 : db1.lookup uid = some u := h.trans hu2
      have hid : u._id = uid := lookup_id hu2
      cases req with
      | addFavorite b =>
        simp only [handle, addFavoriteMovie, hf, hx]
        split_ifs
        · exact ⟨rfl, h⟩
        · exact ⟨rfl, h⟩
        · have hdoc : (pushFavorite rt ⟨u, false, false⟩ b).data._id = uid := by
            unfold pushFavorite
            split <;> exact hid
          rcases save_lookup_congr rt io _ hu1 hu2 hdoc with
            ⟨e1, e2⟩ | ⟨d1, d2, e1, e2, e⟩
          · rw [e1, e2]
            exact ⟨rfl, h⟩
          · rw [e1, e2]
            exact ⟨rfl, e⟩
      | removeFavorite p =>
        simp only [handle, removeFavoriteMovie, hf, hx]
        split_ifs
        · exact ⟨rfl, h⟩
        · rcases save_lookup_congr rt io _ hu1 hu2
            (show (Document.mk { u with favoriteMovies := (u.favoriteMovies.filter
              (fun movie => strictNeParsed movie.tmdbId (rt.parseInt p))) } false false).data._id =
              uid from hid) with ⟨e1, e2⟩ | ⟨d1, d2, e1, e2, e⟩
          · rw [e1, e2]
            exact ⟨rfl, h⟩
          · rw [e1, e2]
            exact ⟨rfl, e⟩
      | createWatchlist name =>
        simp only [handle, createWatchlist, hf, hx]
        split_ifs
        · exact ⟨rfl, h⟩
        · split
          · exact ⟨rfl, h⟩
          · exact ⟨rfl, h⟩
          · have hdoc : (pushWatchlist rt io ⟨u, false, false⟩ name).data._id = uid := by
              unfold pushWatchlist
              split <;> exact hid
            rcases save_lookup_congr rt io _ hu1 hu2 hdoc with
              ⟨e1, e2⟩ | ⟨d1, d2, e1, e2, e⟩
            · rw [e1, e2]
              exact ⟨rfl, h⟩
            · rw [e1, e2]
              exact ⟨rfl, e⟩
      | addToWatchlist wid b =>
        simp only [handle, addMovieToWatchlist, hf, hx]
        split_ifs
        · exact ⟨rfl, h⟩
        · split
          · exact ⟨rfl, h⟩
          · next w hw =>
            split_ifs
            · exact ⟨rfl, h⟩
            · have hdoc : (pushWatchlistMovie rt ⟨u, false, false⟩ w b).1.data._id = uid := by
                unfold pushWatchlistMovie
                split <;> exact hid
              rcases save_lookup_congr rt io _ hu1 hu2 hdoc with
                ⟨e1, e2⟩ | ⟨d1, d2, e1, e2, e⟩
              · rw [e1, e2]
                exact ⟨rfl, h⟩
              · rw [e1, e2]
                exact ⟨rfl, e⟩
      | removeFromWatchlist wid p =>
        simp only [handle, removeMovieFromWatchlist, hf, hx]
        split
        · exact ⟨rfl, h⟩
        · next w hw =>
          split_ifs
          · exact ⟨rfl, h⟩
          · rcases save_lookup_congr rt io _ hu1 hu2
              (show (Document.mk { u with watchlists := (setMovies u.watchlists
                { w with movies := (w.movies.filter
                  (fun movie => strictNeParsed movie.tmdbId (rt.parseInt p))) }
                (w.movies.filter (fun movie => strictNeParsed movie.tmdbId (rt.parseInt p)))) }
                false false).data._id = uid from hid) with ⟨e1, e2⟩ | ⟨d1, d2, e1, e2, e⟩
            · rw [e1, e2]
              exact ⟨rfl, h⟩
            · rw [e1, e2]
              exact ⟨rfl, e⟩

/-! ## C18: the auth gate -/

theorem protect_eq_some {io : Persistence} {db : Store} {check : TokenCheck} {user : User}
    (h : protect io db check = some user) :
    ∃ id, check = .verified id ∧ db.lookup id = some user := by
  cases check with
  | verified id =>
    have h' : (match findById io db id with
        | some (some doc) => some doc.data
        | _ => none) = some user := h
    cases hf : findById io db id with
    | none => rw [hf] at h'; exact absurd h' (by simp)
    | some o =>
      cases o with
      | none => rw [hf] at h'; exact absurd h' (by simp)
      | some doc =>
        rw [hf] at h'
        obtain ⟨-, u, hu, rfl⟩ := findById_eq_some hf
        exact ⟨id, rfl, by rw [hu]; exact h'⟩
  | missing => exact absurd h (by simp [protect])
  | malformed => exact absurd h (by simp [protect])
  | expired => exact absurd h (by simp [protect])
  | badSignature => exact absurd h (by simp [protect])

/-- C18: every private endpoint, the five collection routes and the profile read, runs
behind the auth gate. A request whose token is missing, malformed, expired or wrongly
signed, or names an account that is not stored, gets the one reply 401 with the message
"unauthorized" and leaves the store unchanged; and a reply other than that one is given
only for a verified token of a stored account. -/
theorem private_routes_gated (rt : Runtime) (io : Persistence) (db : Store)
    (check : TokenCheck) (req : PrivateRequest) :
    (check = .missing ∨ check = .malformed ∨ check = .expired ∨ check = .badSignature ∨
        (∃ id, check = .verified id ∧ db.lookup id = none) →
        privateRoute rt io db check req = (.response ⟨401, "unauthorized", .none⟩, db)) ∧
      ((privateRoute rt io db check req).1 ≠ .response ⟨401, "unauthorized", .none⟩ →
        ∃ id user, check = .verified id ∧ db.lookup id = some user) := by
  constructor
  · intro h
    have hp : protect io db check = none := by
      rcases h with h | h | h | h | ⟨id, h, hnone⟩
      · rw [h]; rfl
      · rw [h]; rfl
      · rw [h]; rfl
      · rw [h]; rfl
      · rw [h]
        show (match findById io db id with
          | some (some doc) => some doc.data
          | _ => none) = none
        unfold findById
        split_ifs
        · rw [hnone]; rfl
        · rfl
    unfold privateRoute
    rw [hp]
    rfl
  · intro h
    cases hp : protect io db check with
    | none =>
      unfold privateRoute at h
      rw [hp] at h
      exact absurd rfl h
    | some user =>
      obtain ⟨id, hc, hu⟩ := protect_eq_some hp
      exact ⟨id, user, hc, hu⟩

/-- Witness for C18: with an expired token, an add-favorite request and a profile read
for the stored account both get 401 "unauthorized" and the store stays as it was. -/
theorem private_routes_gated_witness :
    privateRoute nodeRuntime (healthy 0) [emptyAccount] .expired
        (.collection (.addFavorite body42)) =
        (.response ⟨401, "unauthorized", .none⟩, [emptyAccount]) ∧
      privateRoute nodeRuntime (healthy 0) [emptyAccount] .expired .profile =
        (.response ⟨401, "unauthorized", .none⟩, [emptyAccount]) :=
  ⟨(private_routes_gated nodeRuntime (healthy 0) [emptyAccount] .expired
      (.collection (.addFavorite body42))).1 (Or.inr (Or.inr (Or.inl rfl))),
    (private_routes_gated nodeRuntime (healthy 0) [emptyAccount] .expired .profile).1
      (Or.inr (Or.inr (Or.inl rfl)))⟩

/-! ## C19: the stored secret -/

theorem setUsername_frame (rt : Runtime) (doc : Document) (v : JsVal) :
    (setUsername rt doc v).data._id = doc.data._id ∧
      (setUsername rt doc v).data.password = doc.data.password ∧
      (setUsername rt doc v).passwordModified = doc.passwordModified := by
  unfold setUsername
  split_ifs
  · exact ⟨rfl, rfl, rfl⟩
  · split <;> exact ⟨rfl, rfl, rfl⟩

theorem setEmail_frame (rt : Runtime) (doc : Document) (v : JsVal) :
    (setEmail rt doc v).data._id = doc.data._id ∧
      (setEmail rt doc v).data.password = doc.data.password ∧
      (setEmail rt doc v).passwordModified = doc.passwordModified := by
  unfold setEmail
  split_ifs
  · exact ⟨rfl, rfl, rfl⟩
  · split <;> exact ⟨rfl, rfl, rfl⟩

theorem setPassword_id (rt : Runtime) (doc : Document) (v : JsVal) :
    (setPassword rt doc v).data._id = doc.data._id := by
  unfold setPassword
  split_ifs
  · rfl
  · split <;> rfl

theorem save_password {rt : Runtime} {io : Persistence} {db db' : Store} {uid : ObjectId}
    {u : User} {doc : Document} (hu : db.lookup uid = some u) (hid : doc.data._id = uid)
    (h : save rt io db doc = some db') :
    (db'.lookup uid).map (fun stored => stored.password) =
      some (if doc.passwordModified then rt.hash doc.data.password io.salt
        else doc.data.password) := by
  obtain ⟨-, -, rfl⟩ := save_eq_some h
  have hid' : (preSave rt io doc).data._id = uid := by
    unfold preSave
    split_ifs <;> exact hid
  rw [lookup_write db uid u _ hu hid', Option.map_some']
  unfold preSave
  cases doc.passwordModified <;> rfl

theorem create_eq_some {rt : Runtime} {io : Persistence} {db db' : Store} {b : AccountBody}
    {user : User} (h : create rt io db b = some (user, db')) :
    ∃ n e p, castString rt b.username = some (some n) ∧ castString rt b.email = some (some e) ∧
      castString rt b.password = some (some p) ∧
      user = ⟨io.newId, jsTrim n, normalizeEmail rt e, rt.hash p io.salt, [], []⟩ ∧
      db' = db ++ [user] := by
  unfold create at h
  dsimp only at h
  split_ifs at h with hinv hsave
  obtain ⟨rfl, rfl⟩ := Prod.mk.inj (Option.some.inj h)
  unfold newUser at hinv ⊢
  split at hinv
  · next n e p hn he hp =>
    refine ⟨n, e, p, hn, he, hp, ?_, rfl⟩
    simp only [hn, he, hp, preSave, Bool.not_true, Bool.false_eq_true, if_false]
  · exact absurd rfl hinv

/-- C19: every save of an account rehashes the secret exactly when the password path was
modified. For a stored account, a save that succeeds stores the hash of the password of
the document when the path was modified, which is not the plain password as long as the
hash function has no fixed point, and stores the password of the document as it is when
the path was not modified; no collection operation changes the stored secret, and neither
does a profile update without a password; a profile update with a new password that is
saved stores the hash of that password. And the save of a registration, `User.create`,
whose password path is always modified: the record it inserts holds the hash of the
password of the body, not the plain password; a registration answered 201 adds exactly
that hash to the stored secrets, and a registration answered otherwise writes nothing. -/
theorem secret_rehashed_on_change (rt : Runtime) (io : Persistence) (db : Store) :
    (∀ uid u, db.lookup uid = some u →
      (∀ doc db', doc.data._id = uid → save rt io db doc = some db' →
        (doc.passwordModified = true →
          (db'.lookup uid).map (fun stored => stored.password) =
              some (rt.hash doc.data.password io.salt) ∧
            ((∀ p s, rt.hash p s ≠ p) →
              (db'.lookup uid).map (fun stored => stored.password) ≠ some doc.data.password)) ∧
        (doc.passwordModified = false →
          (db'.lookup uid).map (fun stored => stored.password) = some doc.data.password)) ∧
      (∀ req, ((handle rt io db uid req).2.lookup uid).map (fun stored => stored.password) =
        some u.password) ∧
      (∀ env b, b.password.truthy = false →
        ((updateUserProfile rt env io db uid b).2.lookup uid).map
          (fun stored => stored.password) = some u.password) ∧
      (∀ env b p, b.password = .str p → p ≠ "" → p ≠ u.password →
        (updateUserProfile rt env io db uid b).1 ≠ .unhandled →
        ((updateUserProfile rt env io db uid b).2.lookup uid).map
          (fun stored => stored.password) = some (rt.hash p io.salt))) ∧
    (∀ b p user db', castString rt b.password = some (some p) →
      create rt io db b = some (user, db') →
        user.password = rt.hash p io.salt ∧ db' = db ++ [user] ∧
          ((∀ q s, rt.hash q s ≠ q) → user.password ≠ p)) ∧
    (∀ env b p id n e t, castString rt b.password = some (some p) →
      (registerUser rt env io db b).1 = .account 201 id n e t →
        (registerUser rt env io db b).2.map (fun stored => stored.password) =
          db.map (fun stored => stored.password) ++ [rt.hash p io.salt]) ∧
    (∀ env b, (∀ id n e t, (registerUser rt env io db b).1 ≠ .account 201 id n e t) →
      (registerUser rt env io db b).2 = db) := by
  refine ⟨fun uid u hu => ⟨?_, ?_, ?_, ?_⟩, ?_, ?_, ?_⟩
  · intro doc db' hid hsave
    have key := save_password hu hid hsave
    constructor
    · intro hmod
      rw [hmod] at key
      refine ⟨key, fun hfix => ?_⟩
      rw [key]
      intro heq
      exact hfix _ _ (Option.some.inj heq)
    · intro hmod
      rw [hmod] at key
      exact key
  · intro req
    rcases handle_written rt io db uid req u hu with h | ⟨v, h, hid, -, -, hpw⟩
    · rw [h, hu]
      rfl
    · rw [h, lookup_write db uid u v hu (hid.trans (lookup_id hu)), Option.map_some', hpw]
  · intro env b hb
    unfold updateUserProfile
    cases hf : findById io db uid with
    | none => simp only [hu, Option.map_some']
    | some o =>
      cases o with
      | none => simp only [hu, Option.map_some']
      | some doc =>
        obtain ⟨-, u', hu', rfl⟩ := findById_eq_some hf
        obtain rfl : u' = u := Option.some.inj (hu'.symm.trans hu)
        have hset : setPassword rt (setEmail rt (setUsername rt ⟨u', false, false⟩ b.username)
            b.email) b.password = setEmail rt (setUsername rt ⟨u', false, false⟩ b.username)
            b.email := by
          simp only [setPassword, hb, Bool.not_false, if_true]
        dsimp only
        rw [hset]
        have hE := setEmail_frame rt (setUsername rt ⟨u', false, false⟩ b.username) b.email
        have hU := setUsername_frame rt ⟨u', false, false⟩ b.username
        cases hs : save rt io db (setEmail rt (setUsername rt ⟨u', false, false⟩ b.username)
            b.email) with
        | none => simp only [hu, Option.map_some']
        | some db' =>
          have key := save_password hu
            (show (setEmail rt (setUsername rt ⟨u', false, false⟩ b.username) b.email).data._id =
              uid from (hE.1.trans hU.1).trans (lookup_id hu)) hs
          rw [hE.2.2, hU.2.2, hE.2.1, hU.2.1] at key
          exact key
  · intro env b p hb hp hne hreply
    unfold updateUserProfile at hreply ⊢
    cases hf : findById io db uid with
    | none =>
      rw [hf] at hreply
      exact absurd rfl hreply
    | some o =>
      cases o with
      | none =>
        have hl : io.loadOk = true := by
          unfold findById at hf
          split_ifs at hf with hl
          exact hl
        rw [findById_loaded hl hu] at hf
        exact absurd hf (by simp)
      | some doc =>
        obtain ⟨-, u', hu', rfl⟩ := findById_eq_some hf
        obtain rfl : u' = u := Option.some.inj (hu'.symm.trans hu)
        rw [hf] at hreply
        dsimp only at hreply ⊢
        have hE := setEmail_frame rt (setUsername rt ⟨u', false, false⟩ b.username) b.email
        have hU := setUsername_frame rt ⟨u', false, false⟩ b.username
        have hpwd : (setPassword rt (setEmail rt (setUsername rt ⟨u', false, false⟩ b.username)
            b.email) b.password).data.password = p ∧
            (setPassword rt (setEmail rt (setUsername rt ⟨u', false, false⟩ b.username)
            b.email) b.password).passwordModified = true := by
          have hne' : (p != u'.password) = true := by simpa using hne
          simp only [setPassword, hb, truthy_str hp, castString, Bool.not_true,
            Bool.false_eq_true, if_false, hE.2.1, hU.2.1, hne', Bool.or_true, and_self]
        cases hs : save rt io db (setPassword rt (setEmail rt
            (setUsername rt ⟨u', false, false⟩ b.username) b.email) b.password) with
        | none =>
          rw [hs] at hreply
          exact absurd rfl hreply
        | some db' =>
          have key := save_password hu
            (show (setPassword rt (setEmail rt (setUsername rt ⟨u', false, false⟩ b.username)
              b.email) b.password).data._id = uid from
              ((setPassword_id rt _ _).trans (hE.1.trans hU.1)).trans (lookup_id hu)) hs
          rw [hpwd.1, hpwd.2] at key
          exact key

  · intro b p user db' hp hc
    obtain ⟨n, e, p', -, -, hp', rfl, rfl⟩ := create_eq_some hc
    obtain rfl : p' = p := Option.some.inj (Option.some.inj (hp'.symm.trans hp))
    exact ⟨rfl, rfl, fun hfix => hfix _ _⟩
  · intro env b p id n e t hp hreply
    unfold registerUser at hreply ⊢
    by_cases hg : (!b.username.truthy || !b.email.truthy || !b.password.truthy) = true
    · rw [if_pos hg] at hreply
      cases hreply
    · rw [if_neg hg] at hreply ⊢
      cases hf : findOneByEmail rt env io db b.email with
      | none => rw [hf] at hreply; cases hreply
      | some found =>
        cases found with
        | true => rw [hf] at hreply; cases hreply
        | false =>
          rw [hf] at hreply
          dsimp only at hreply ⊢
          cases hc : create rt io db b with
          | none => rw [hc] at hreply; cases hreply
          | some pair =>
            obtain ⟨user, db'⟩ := pair
            obtain ⟨n', e', p', -, -, hp', rfl, rfl⟩ := create_eq_some hc
            obtain rfl : p' = p := Option.some.inj (Option.some.inj (hp'.symm.trans hp))
            simp only [List.map_append, List.map_cons, List.map_nil]
  · intro env b hno
    unfold registerUser at hno ⊢
    by_cases hg : (!b.username.truthy || !b.email.truthy || !b.password.truthy) = true
    · rw [if_pos hg]
    · rw [if_neg hg] at hno ⊢
      cases hf : findOneByEmail rt env io db b.email with
      | none => rfl
      | some found =>
        cases found with
        | true => rfl
        | false =>
          rw [hf] at hno
          dsimp only at hno ⊢
          cases hc : create rt io db b with
          | none => rfl
          | some pair =>
            obtain ⟨user, db'⟩ := pair
            rw [hc] at hno
            exact absurd rfl (hno _ _ _ _)

/-- Witness for C19: a profile update of the stored account with the new password "new"
stores the hash of "new", adding a favorite leaves the stored secret as it was, and the
registration of "bob" with the password "pw" is answered 201 and adds the hash of "pw" to
the stored secrets. -/
theorem secret_rehashed_on_change_witness :
    ((updateUserProfile nodeRuntime demoEnv (healthy 0) [emptyAccount] 1
        ⟨.undefined, .undefined, .str "new"⟩).2.lookup 1).map
        (fun stored => stored.password) = some (nodeRuntime.hash "new" "salt") ∧
      ((handle nodeRuntime (healthy 0) [emptyAccount] 1 (.addFavorite body42)).2.lookup 1).map
        (fun stored => stored.password) = some "hashed" ∧
      (registerUser nodeRuntime demoEnv (healthy 5) [emptyAccount]
          ⟨.str "bob", .str " Bob@X.io ", .str "pw"⟩).1 =
        .account 201 5 "bob" "bob@x.io" "token" ∧
      (registerUser nodeRuntime demoEnv (healthy 5) [emptyAccount]
          ⟨.str "bob", .str " Bob@X.io ", .str "pw"⟩).2.map (fun stored => stored.password) =
        [emptyAccount].map (fun stored => stored.password) ++ [nodeRuntime.hash "pw" "salt"] :=
  ⟨((secret_rehashed_on_change nodeRuntime (healthy 0) [emptyAccount]).1 1 emptyAccount
      (by decide)).2.2.2 demoEnv ⟨.undefined, .undefined, .str "new"⟩ "new" rfl (by decide)
      (by decide) (by decide),
    ((secret_rehashed_on_change nodeRuntime (healthy 0) [emptyAccount]).1 1 emptyAccount
      (by decide)).2.1 (.addFavorite body42),
    by decide,
    (secret_rehashed_on_change nodeRuntime (healthy 5) [emptyAccount]).2.2.1 demoEnv
      ⟨.str "bob", .str " Bob@X.io ", .str "pw"⟩ "pw" 5 "bob" "bob@x.io" "token" rfl
      (by decide)⟩

/-! ## C20: emails of registered accounts -/

theorem registerUser_store (rt : Runtime) (env : AccountEnv) (io : Persistence) (db : Store)
    (b : AccountBody) :
    (registerUser rt env io db b).2 = db ∨
      ∃ user, (registerUser rt env io db b).2 = db ++ [user] ∧
        ∀ v ∈ db, v.email ≠ user.email := by
  unfold registerUser
  split_ifs
  · exact Or.inl rfl
  · split
    · exact Or.inl rfl
    · exact Or.inl rfl
    · next hfind =>
      split
      · exact Or.inl rfl
      · next user db' hcreate =>
        right
        unfold create at hcreate
        dsimp only at hcreate
        split_ifs at hcreate with hinv hsave
        obtain ⟨rfl, rfl⟩ := Prod.mk.inj (Option.some.inj hcreate)
        refine ⟨_, rfl, ?_⟩
        cases hn : castString rt b.username with
        | none => simp [newUser, hn] at hinv
        | some optN =>
          cases optN with
          | none => simp [newUser, hn] at hinv
          | some n =>
            cases he : castString rt b.email with
            | none => simp [newUser, hn, he] at hinv
            | some optE =>
              cases optE with
              | none => simp [newUser, hn, he] at hinv
              | some e =>
                cases hp : castString rt b.password with
                | none => simp [newUser, hn, he, hp] at hinv
                | some optP =>
                  cases optP with
                  | none => simp [newUser, hn, he, hp] at hinv
                  | some p =>
                    have hemail : (preSave rt io (newUser rt io b)).data.email =
                        normalizeEmail rt e := by
                      simp [newUser, hn, he, hp, preSave]
                    rw [hemail]
                    have hany : db.any (fun u => u.email == normalizeEmail rt e) = false := by
                      unfold findOneByEmail at hfind
                      split_ifs at hfind
                      cases hb : b.email with
                      | obj => rw [hb] at he; simp [castString] at he
                      | undefined => rw [hb] at he; simp [castString] at he
                      | null => rw [hb] at he; simp [castString] at he
                      | bool x =>
                        rw [hb] at hfind he
                        simp only [he] at hfind
                        exact Option.some.inj hfind
                      | num x =>
                        rw [hb] at hfind he
                        simp only [he] at hfind
                        exact Option.some.inj hfind
                      | str x =>
                        rw [hb] at hfind he
                        simp only [he] at hfind
                        exact Option.some.inj hfind
                    intro v hv heq
                    have hv' : db.any (fun u => u.email == normalizeEmail rt e) = true :=
                      List.any_eq_true.mpr ⟨v, hv, by simp [heq]⟩
                    rw [hany] at hv'
                    exact Bool.noConfusion hv' 

theorem registerUser_emailsUnique (rt : Runtime) (env : AccountEnv) (io : Persistence)
    (db : Store) (b : AccountBody) (h : emailsUnique db) :
    emailsUnique (registerUser rt env io db b).2 := by
  rcases registerUser_store rt env io db b with hs | ⟨user, hs, hnew⟩
  · rw [hs]; exact h
  · rw [hs]
    unfold emailsUnique at h ⊢
    rw [List.map_append, List.map_cons, List.map_nil]
    refine List.nodup_append.mpr ⟨h, List.nodup_singleton _, ?_⟩
    intro x hx hx'
    rw [List.mem_singleton] at hx'
    obtain ⟨v, hv, rfl⟩ := List.mem_map.mp hx
    exact hnew v hv hx'

/-- C20: a registration request that carries a username, a password and a non-empty
string email whose trimmed lower-case form is the stored email of an account is answered
400 'User already exists', when the lookup succeeds, and the store is unchanged. And
from a store without two accounts of the same stored email, no sequence of registrations
reaches a store with two such accounts. -/
theorem email_unique_on_registration (rt : Runtime) (env : AccountEnv) (io : Persistence)
    (db : Store) (b : AccountBody) (e : String) (u : User)
    (he : b.email = .str e) (hne : e ≠ "") (hname : b.username.truthy = true)
    (hpw : b.password.truthy = true) (hl : io.loadOk = true) (hu : u ∈ db)
    (heq : normalizeEmail rt e = u.email) :
    registerUser rt env io db b = (.message 400 "User already exists", db) ∧
      (∀ steps start, emailsUnique start → emailsUnique (registrations rt steps start)) := by
  constructor
  · have hany : db.any (fun v => v.email == normalizeEmail rt e) = true :=
      List.any_eq_true.mpr ⟨u, hu, by simp [heq]⟩
    have hemail : b.email.truthy = true := by rw [he]; exact truthy_str hne
    have hfind : findOneByEmail rt env io db b.email = some true := by
      simp only [findOneByEmail, hl, he, castString, hany, Bool.not_true, Bool.false_eq_true,
        if_false]
    simp only [registerUser, hname, hemail, hpw, hfind, Bool.not_true, Bool.or_self,
      Bool.false_eq_true, if_false]
  · intro steps
    induction steps with
    | nil => intro start h; exact h
    | cons step rest ih =>
      intro start h
      obtain ⟨env', io', b'⟩ := step
      exact ih _ (registerUser_emailsUnique rt env' io' start b' h)

/-- Witness for C20: after " Bob@X.io " is registered, the store holds the email
"bob@x.io", and a registration with "BOB@x.io" is answered 400 'User already exists'. -/
theorem email_unique_on_registration_witness :
    (registerUser nodeRuntime demoEnv (healthy 5) [] ⟨.str "bob", .str " Bob@X.io ", .str "pw"⟩).2 =
        [accountBob] ∧
      registerUser nodeRuntime demoEnv (healthy 6) [accountBob]
          ⟨.str "rob", .str "BOB@x.io", .str "pw"⟩ =
        (.message 400 "User already exists", [accountBob]) :=
  ⟨by decide,
    (email_unique_on_registration nodeRuntime demoEnv (healthy 6) [accountBob]
      ⟨.str "rob", .str "BOB@x.io", .str "pw"⟩ "BOB@x.io" accountBob rfl (by decide)
      (by decide) (by decide) rfl (by decide) (by decide)).1⟩

/-! ## C21: adding and then removing -/

theorem removeFavorite_removes (rt : Runtime) {io : Persistence} {db : Store} {uid : ObjectId}
    {u : User} (p : String) (X : Int) (hp : rt.parseInt p = some X)
    (hl : io.loadOk = true) (hs : io.saveOk = true) (hu : db.lookup uid = some u)
    (hX : X ∈ favoriteIds u) :
    removeFavoriteMovie rt io db uid p =
      (⟨200, "Movie removed from favorites",
          .favoriteMovies (u.favoriteMovies.filter (fun m => m.tmdbId != X))⟩,
        db.write { u with favoriteMovies := (u.favoriteMovies.filter
          (fun m => m.tmdbId != X)) }) := by
  have hlen : ¬ (u.favoriteMovies.filter
      (fun movie => strictNeParsed movie.tmdbId (some X))).length = u.favoriteMovies.length := by
    intro h
    exact (kept_all_iff _ X).mp (List.filter_length_eq_length.mp h) hX
  have hres := removeFavorite_loaded rt p hl hu
  rw [hp, save_valid rt db _ hs] at hres
  simp only [beq_iff_eq, hlen, if_false] at hres
  rw [hres]
  rfl

theorem removeEntry_removes (rt : Runtime) {io : Persistence} {db : Store} {uid : ObjectId}
    {u : User} {w : Watchlist} (wid p : String) (X : Int) (hp : rt.parseInt p = some X)
    (hl : io.loadOk = true) (hs : io.saveOk = true) (hu : db.lookup uid = some u)
    (hw : watchlistById rt u.watchlists wid = some w) (hX : X ∈ watchlistIds w) :
    removeMovieFromWatchlist rt io db uid wid p =
      (⟨200, "Movie removed from watchlist",
          .watchlist { w with movies := (w.movies.filter (fun m => m.tmdbId != X)) }⟩,
        db.write { u with watchlists := (setMovies u.watchlists w
          (w.movies.filter (fun m => m.tmdbId != X))) }) := by
  have hlen : ¬ (w.movies.filter
      (fun movie => strictNeParsed movie.tmdbId (some X))).length = w.movies.length := by
    intro h
    exact (kept_all_iff_entry _ X).mp (List.filter_length_eq_length.mp h) hX
  have hres := removeMovieFromWatchlist_loaded rt wid p hl hu hw
  rw [hp, save_valid rt db _ hs] at hres
  simp only [beq_iff_eq, hlen, if_false] at hres
  have key := setMovies_target_id u.watchlists w
    { w with movies := (w.movies.filter (fun m => m.tmdbId != X)) }
    (w.movies.filter (fun m => m.tmdbId != X)) rfl
  rw [hres, ← key]
  rfl

theorem filter_appended_favorite (favs : List FavoriteMovie) (m : FavoriteMovie)
    (h : m.tmdbId ∉ favs.map (fun x => x.tmdbId)) :
    (favs ++ [m]).filter (fun x => x.tmdbId != m.tmdbId) = favs := by
  rw [List.filter_append]
  have h1 : favs.filter (fun x => x.tmdbId != m.tmdbId) = favs := by
    rw [List.filter_eq_self]
    intro a ha
    simp only [bne_iff_ne, ne_eq]
    intro heq
    exact h (List.mem_map.mpr ⟨a, ha, heq⟩)
  rw [h1]
  simp

theorem filter_appended_entry (movies : List WatchlistMovie) (m : WatchlistMovie)
    (h : m.tmdbId ∉ movies.map (fun x => x.tmdbId)) :
    (movies ++ [m]).filter (fun x => x.tmdbId != m.tmdbId) = movies := by
  rw [List.filter_append]
  have h1 : movies.filter (fun x => x.tmdbId != m.tmdbId) = movies := by
    rw [List.filter_eq_self]
    intro a ha
    simp only [bne_iff_ne, ne_eq]
    intro heq
    exact h (List.mem_map.mpr ⟨a, ha, heq⟩)
  rw [h1]
  simp

theorem setMovies_setMovies (wls : List Watchlist) (w : Watchlist)
    (ms ms' : List WatchlistMovie) :
    setMovies (setMovies wls w ms) w ms' = setMovies wls w ms' := by
  induction wls with
  | nil => rfl
  | cons x rest ih =>
    cases hx : (x._id == w._id) with
    | true =>
      have h1 : setMovies (x :: rest) w ms = { x with movies := ms } :: rest := by
        simp only [setMovies, hx, if_true]
      have h2 : setMovies (x :: rest) w ms' = { x with movies := ms' } :: rest := by
        simp only [setMovies, hx, if_true]
      have hx' : ((({ x with movies := ms } : Watchlist))._id == w._id) = true := hx
      rw [h1, h2]
      simp only [setMovies, hx', if_true]
    | false =>
      have h1 : setMovies (x :: rest) w ms = x :: setMovies rest w ms := by
        simp only [setMovies, hx, Bool.false_eq_true, if_false]
      have h2 : setMovies (x :: rest) w ms' = x :: setMovies rest w ms' := by
        simp only [setMovies, hx, Bool.false_eq_true, if_false]
      rw [h1, h2]
      simp only [setMovies, hx, Bool.false_eq_true, if_false, ih]

theorem setMovies_self (wls : List Watchlist) (w : Watchlist) (oid : ObjectId)
    (h : wls.find? (fun wl => wl._id == oid) = some w) : setMovies wls w w.movies = wls := by
  have hw : w._id = oid := by
    have := List.find?_some h
    simpa using this
  induction wls with
  | nil => rfl
  | cons x rest ih =>
    rw [List.find?_cons] at h
    by_cases hx : x._id = oid
    · have h1 : (x._id == oid) = true := by simp [hx]
      rw [h1] at h
      have hxw : x = w := Option.some.inj h
      subst hxw
      have h2 : (x._id == x._id) = true := by simp
      simp only [setMovies, h2, if_true]
    · have h1 : (x._id == oid) = false := by simp [hx]
      rw [h1] at h
      have h2 : (x._id == w._id) = false := by simp [hw, hx]
      simp only [setMovies, h2, Bool.false_eq_true, if_false]
      rw [ih h]

/-- C21 (amended): for an account `u` stored under `uid`, an external id `X` other than
zero, a non-empty title and persistence that succeeds: when `X` is not among the
favorites, add-favorite `X` answers 200, remove-favorite with a parameter that parses
to `X` then answers 200, and the favorites stored afterwards are the favorites of `u`;
and when the parameter `wid` resolves to watchlist `w` of `u` and `X` is not among the
entries of `w`, add-entry `X` to `w` answers 200, remove-entry `X` from `w` then answers
200, and the entries stored afterwards in the watchlist that `wid` resolves to are the
entries of `w`. -/
theorem add_then_remove_restores (rt : Runtime) (db : Store) (uid : ObjectId) (u : User)
    (hu : db.lookup uid = some u) :
    (∀ (io1 io2 : Persistence) (X : Int) (t : String) (pp rd : Option String) (p : String),
      X ≠ 0 → t ≠ "" → X ∉ favoriteIds u → rt.parseInt p = some X →
      io1.loadOk = true → io1.saveOk = true → io2.loadOk = true → io2.saveOk = true →
      (addFavoriteMovie rt io1 db uid
          ⟨.num X, .str t, .ofOptString pp, .ofOptString rd⟩).1.status = 200 ∧
        (removeFavoriteMovie rt io2 (addFavoriteMovie rt io1 db uid
          ⟨.num X, .str t, .ofOptString pp, .ofOptString rd⟩).2 uid p).1.status = 200 ∧
        ((removeFavoriteMovie rt io2 (addFavoriteMovie rt io1 db uid
          ⟨.num X, .str t, .ofOptString pp, .ofOptString rd⟩).2 uid p).2.lookup uid).map
            (fun stored => stored.favoriteMovies) = some u.favoriteMovies) ∧
    (∀ (io1 io2 : Persistence) (wid : String) (w : Watchlist) (X : Int) (t : String)
        (pp : Option String) (p : String),
      watchlistById rt u.watchlists wid = some w →
      X ≠ 0 → t ≠ "" → X ∉ watchlistIds w → rt.parseInt p = some X →
      io1.loadOk = true → io1.saveOk = true → io2.loadOk = true → io2.saveOk = true →
      (addMovieToWatchlist rt io1 db uid wid ⟨.num X, .str t, .ofOptString pp⟩).1.status = 200 ∧
        (removeMovieFromWatchlist rt io2 (addMovieToWatchlist rt io1 db uid wid
          ⟨.num X, .str t, .ofOptString pp⟩).2 uid wid p).1.status = 200 ∧
        (((removeMovieFromWatchlist rt io2 (addMovieToWatchlist rt io1 db uid wid
          ⟨.num X, .str t, .ofOptString pp⟩).2 uid wid p).2.lookup uid).bind
            (fun stored => watchlistById rt stored.watchlists wid)).map
              (fun wl => wl.movies) = some w.movies) := by
  have hid : u._id = uid := lookup_id hu
  constructor
  · intro io1 io2 X t pp rd p hX ht hnew hp hl1 hs1 hl2 hs2
    rw [addFavorite_new rt X t pp rd hl1 hs1 hu hX ht hnew]
    have hu1 : (db.write { u with favoriteMovies := u.favoriteMovies ++ [⟨X, t, pp, rd⟩] }).lookup
        uid = some { u with favoriteMovies := u.favoriteMovies ++ [⟨X, t, pp, rd⟩] } :=
      lookup_write db uid u { u with favoriteMovies := u.favoriteMovies ++ [⟨X, t, pp, rd⟩] }
        hu hid
    have hmem : X ∈ favoriteIds
        { u with favoriteMovies := u.favoriteMovies ++ [⟨X, t, pp, rd⟩] } := by
      simp [favoriteIds]
    rw [removeFavorite_removes rt p X hp hl2 hs2 hu1 hmem]
    refine ⟨rfl, rfl, ?_⟩
    have hfilter : (u.favoriteMovies ++ [(⟨X, t, pp, rd⟩ : FavoriteMovie)]).filter
        (fun m => m.tmdbId != X) = u.favoriteMovies :=
      filter_appended_favorite u.favoriteMovies ⟨X, t, pp, rd⟩ hnew
    simp only [hfilter]
    rw [lookup_write _ uid _ u hu1 hid]
    rfl
  · intro io1 io2 wid w X t pp p hw hX ht hnew hp hl1 hs1 hl2 hs2
    rw [addMovieToWatchlist_new rt wid X t pp hl1 hs1 hu hw hX ht hnew]
    have hu1 : (db.write { u with
        watchlists := setMovies u.watchlists w (w.movies ++ [⟨X, t, pp⟩]) }).lookup uid =
        some { u with watchlists := setMovies u.watchlists w (w.movies ++ [⟨X, t, pp⟩]) } :=
      lookup_write db uid u
        { u with watchlists := setMovies u.watchlists w (w.movies ++ [⟨X, t, pp⟩]) } hu hid
    have hw1 : watchlistById rt
        ({ u with watchlists := setMovies u.watchlists w (w.movies ++ [⟨X, t, pp⟩]) } :
          User).watchlists wid = some { w with movies := w.movies ++ [⟨X, t, pp⟩] } :=
      watchlistById_setMovies rt u.watchlists wid w _ hw
    have hmem : X ∈ watchlistIds { w with movies := w.movies ++ [⟨X, t, pp⟩] } := by
      simp [watchlistIds]
    rw [removeEntry_removes rt wid p X hp hl2 hs2 hu1 hw1 hmem]
    refine ⟨rfl, rfl, ?_⟩
    have hfilter : (w.movies ++ [(⟨X, t, pp⟩ : WatchlistMovie)]).filter
        (fun m => m.tmdbId != X) = w.movies :=
      filter_appended_entry w.movies ⟨X, t, pp⟩ hnew
    have hfind : ∃ oid, u.watchlists.find? (fun wl => wl._id == oid) = some w := by
      unfold watchlistById at hw
      cases hc : rt.castObjectId wid with
      | none => simp [hc] at hw
      | some oid => rw [hc] at hw; exact ⟨oid, hw⟩
    obtain ⟨oid, hoid⟩ := hfind
    have hback : setMovies (setMovies u.watchlists w (w.movies ++ [⟨X, t, pp⟩]))
        { w with movies := w.movies ++ [⟨X, t, pp⟩] } w.movies = u.watchlists := by
      rw [setMovies_target_id _ w { w with movies := w.movies ++ [⟨X, t, pp⟩] } w.movies rfl,
        setMovies_setMovies, setMovies_self u.watchlists w oid hoid]
    simp only [hfilter, hback]
    rw [lookup_write _ uid _ u hu1 hid, Option.some_bind, hw]
    rfl

/-- Witness for C21: on the account that holds 42, adding the favorite 7 and removing
"7" both answer 200 and the stored favorites are again the one favorite 42, and adding 7
to the watchlist "Weekend" and removing "7" from it both answer 200 and the stored
entries of "Weekend" are again none. -/
theorem add_then_remove_restores_witness :
    Store.lookup [accountHolding42] 1 = some accountHolding42 ∧
      ((addFavoriteMovie nodeRuntime (healthy 0) [accountHolding42] 1
          ⟨.num 7, .str "Y", .ofOptString none, .ofOptString none⟩).1.status = 200 ∧
        (removeFavoriteMovie nodeRuntime (healthy 0) (addFavoriteMovie nodeRuntime (healthy 0)
          [accountHolding42] 1
          ⟨.num 7, .str "Y", .ofOptString none, .ofOptString none⟩).2 1 "7").1.status = 200 ∧
        ((removeFavoriteMovie nodeRuntime (healthy 0) (addFavoriteMovie nodeRuntime (healthy 0)
          [accountHolding42] 1
          ⟨.num 7, .str "Y", .ofOptString none, .ofOptString none⟩).2 1 "7").2.lookup 1).map
            (fun stored => stored.favoriteMovies) = some accountHolding42.favoriteMovies) ∧
      ((addMovieToWatchlist nodeRuntime (healthy 0) [accountHolding42] 1 wid8
          ⟨.num 7, .str "Y", .ofOptString none⟩).1.status = 200 ∧
        (removeMovieFromWatchlist nodeRuntime (healthy 0) (addMovieToWatchlist nodeRuntime
          (healthy 0) [accountHolding42] 1 wid8
          ⟨.num 7, .str "Y", .ofOptString none⟩).2 1 wid8 "7").1.status = 200 ∧
        (((removeMovieFromWatchlist nodeRuntime (healthy 0) (addMovieToWatchlist nodeRuntime
          (healthy 0) [accountHolding42] 1 wid8
          ⟨.num 7, .str "Y", .ofOptString none⟩).2 1 wid8 "7").2.lookup 1).bind
            (fun stored => watchlistById nodeRuntime stored.watchlists wid8)).map
              (fun wl => wl.movies) = some []) :=
  ⟨by decide,
    (add_then_remove_restores nodeRuntime [accountHolding42] 1 accountHolding42 (by decide)).1
      (healthy 0) (healthy 0) 7 "Y" none none "7" (by decide) (by decide) (by decide)
      (by decide) rfl rfl rfl rfl,
    (add_then_remove_restores nodeRuntime [accountHolding42] 1 accountHolding42 (by decide)).2
      (healthy 0) (healthy 0) wid8 ⟨8, "Weekend", []⟩ 7 "Y" none "7" (by decide) (by decide)
      (by decide) (by decide) (by decide) rfl rfl rfl rfl⟩

/-- C21 fails at the id 0: 0 is neither a favorite of the account nor an entry of its
watchlist "Weekend", yet add-favorite 0 answers 400 and remove-favorite "0" then answers
404, and add-entry 0 answers 400 and remove-entry "0" then answers 404. -/
theorem zero_id_add_then_remove_fails :
    (0 : Int) ∉ favoriteIds accountHolding42 ∧
      addFavoriteMovie nodeRuntime (healthy 0) [accountHolding42] 1 bodyZero =
        (reply 400 "Movie ID and title are required.", [accountHolding42]) ∧
      removeFavoriteMovie nodeRuntime (healthy 0)
          (addFavoriteMovie nodeRuntime (healthy 0) [accountHolding42] 1 bodyZero).2 1 "0" =
        (reply 404 "Movie not found in favorites", [accountHolding42]) ∧
      (watchlistById nodeRuntime accountHolding42.watchlists wid8).map
        (fun w => decide ((0 : Int) ∈ watchlistIds w)) = some false ∧
      addMovieToWatchlist nodeRuntime (healthy 0) [accountHolding42] 1 wid8 entryBodyZero =
        (reply 400 "Movie ID and title are required.", [accountHolding42]) ∧
      removeMovieFromWatchlist nodeRuntime (healthy 0)
          (addMovieToWatchlist nodeRuntime (healthy 0) [accountHolding42] 1 wid8
            entryBodyZero).2 1 wid8 "0" =
        (reply 404 "Movie not found in this watchlist", [accountHolding42]) := by
  decide

/-! ## C22: each operation touches only the list it addresses -/

theorem setMovies_split (wls : List Watchlist) (w : Watchlist) (oid : ObjectId)
    (h : wls.find? (fun wl => wl._id == oid) = some w) :
    ∃ pre post, wls = pre ++ w :: post ∧
      ∀ ms, setMovies wls w ms = pre ++ { w with movies := ms } :: post := by
  have hw : w._id = oid := by
    have := List.find?_some h
    simpa using this
  induction wls with
  | nil => simp at h
  | cons x rest ih =>
    rw [List.find?_cons] at h
    by_cases hx : x._id = oid
    · have h1 : (x._id == oid) = true := by simp [hx]
      rw [h1] at h
      have hxw : x = w := Option.some.inj h
      subst hxw
      refine ⟨[], rest, rfl, ?_⟩
      intro ms
      have h2 : (x._id == x._id) = true := by simp
      simp only [setMovies, h2, if_true, List.nil_append]
    · have h1 : (x._id == oid) = false := by simp [hx]
      rw [h1] at h
      obtain ⟨pre, post, hsplit, hset⟩ := ih h
      refine ⟨x :: pre, post, ?_, ?_⟩
      · rw [hsplit]; rfl
      · intro ms
        have h2 : (x._id == w._id) = false := by simp [hw, hx]
        simp only [setMovies, h2, Bool.false_eq_true, if_false, hset ms, List.cons_append]

theorem watchlistById_split {rt : Runtime} {wls : List Watchlist} {wid : String}
    {w : Watchlist} (h : watchlistById rt wls wid = some w) :
    ∃ pre post, wls = pre ++ w :: post ∧
      ∀ ms, setMovies wls w ms = pre ++ { w with movies := ms } :: post := by
  unfold watchlistById at h
  cases hc : rt.castObjectId wid with
  | none => simp [hc] at h
  | some oid =>
    rw [hc] at h
    exact setMovies_split wls w oid h

/-- C22: for an account `u` stored under `uid`, every request leaves a record stored
under `uid` whose username, email and hashed secret are those of `u`; the record stored
after add-favorite or remove-favorite has the watchlists of `u`; after create-watchlist
it has the favorites of `u` and its watchlists are those of `u`, followed by at most
the new empty watchlist; after add-entry or remove-entry with the parameter `wid` it
has the favorites of `u`, and its watchlists are those of `u` or differ from them only
in the entries of the watchlist that `wid` resolves to. -/
theorem collections_frame (rt : Runtime) (db : Store) (uid : ObjectId) (u : User)
    (hu : db.lookup uid = some u) :
    (∀ (io : Persistence) (req : Request),
      ∃ stored, (handle rt io db uid req).2.lookup uid = some stored ∧
        stored.username = u.username ∧ stored.email = u.email ∧
        stored.password = u.password) ∧
    (∀ (io : Persistence) (b : FavoriteBody) (stored : User),
      (handle rt io db uid (.addFavorite b)).2.lookup uid = some stored →
        stored.watchlists = u.watchlists) ∧
    (∀ (io : Persistence) (p : String) (stored : User),
      (handle rt io db uid (.removeFavorite p)).2.lookup uid = some stored →
        stored.watchlists = u.watchlists) ∧
    (∀ (io : Persistence) (name : JsVal) (stored : User),
      (handle rt io db uid (.createWatchlist name)).2.lookup uid = some stored →
        stored.favoriteMovies = u.favoriteMovies ∧
        (stored.watchlists = u.watchlists ∨
          ∃ n, stored.watchlists = u.watchlists ++ [⟨io.newId, n, []⟩])) ∧
    (∀ (io : Persistence) (wid : String) (b : WatchlistMovieBody) (stored : User),
      (handle rt io db uid (.addToWatchlist wid b)).2.lookup uid = some stored →
        stored.favoriteMovies = u.favoriteMovies ∧
        (stored.watchlists = u.watchlists ∨
          ∃ w pre post ms, watchlistById rt u.watchlists wid = some w ∧
            u.watchlists = pre ++ w :: post ∧
            stored.watchlists = pre ++ { w with movies := ms } :: post)) ∧
    (∀ (io : Persistence) (wid p : String) (stored : User),
      (handle rt io db uid (.removeFromWatchlist wid p)).2.lookup uid = some stored →
        stored.favoriteMovies = u.favoriteMovies ∧
        (stored.watchlists = u.watchlists ∨
          ∃ w pre post ms, watchlistById rt u.watchlists wid = some w ∧
            u.watchlists = pre ++ w :: post ∧
            stored.watchlists = pre ++ { w with movies := ms } :: post)) := by
  have hid : u._id = uid := lookup_id hu
  have same : ∀ {db' : Store} {stored : User}, db' = db → db'.lookup uid = some stored →
      stored = u := by
    intro db' stored h hs
    rw [h, hu] at hs
    exact (Option.some.inj hs).symm
  have written : ∀ {db' : Store} {stored : User} (v : User), db' = db.write v → v._id = uid →
      db'.lookup uid = some stored → stored = v := by
    intro db' stored v h hv hs
    rw [h, lookup_write db uid u v hu hv] at hs
    exact (Option.some.inj hs).symm
  refine ⟨?_, ?_, ?_, ?_, ?_, ?_⟩
  · intro io req
    rcases handle_written rt io db uid req u hu with h | ⟨v, h, hv, h1, h2, h3⟩
    · exact ⟨u, by rw [h]; exact hu, rfl, rfl, rfl⟩
    · exact ⟨v, by rw [h]; exact lookup_write db uid u v hu (hv.trans hid), h1, h2, h3⟩
  · intro io b stored hs
    rcases addFavorite_stored rt io db uid b u hu with h | ⟨m, _, _, h⟩
    · rw [same h hs]
    · rw [written _ h hid hs]
  · intro io p stored hs
    rcases removeFavorite_stored rt io db uid p u hu with h | h
    · rw [same h hs]
    · rw [written _ h hid hs]
  · intro io name stored hs
    rcases createWatchlist_stored rt io db uid name u hu with h | ⟨n, _, h⟩
    · rw [same h hs]
      exact ⟨rfl, Or.inl rfl⟩
    · rw [written _ h hid hs]
      exact ⟨rfl, Or.inr ⟨n, rfl⟩⟩
  · intro io wid b stored hs
    rcases addMovieToWatchlist_stored_entry rt io db uid wid b u hu with h | ⟨w, m, hw, _, _, h⟩
    · rw [same h hs]
      exact ⟨rfl, Or.inl rfl⟩
    · rw [written _ h hid hs]
      obtain ⟨pre, post, hsplit, hset⟩ := watchlistById_split hw
      exact ⟨rfl, Or.inr ⟨w, pre, post, _, hw, hsplit, hset _⟩⟩
  · intro io wid p stored hs
    rcases removeMovieFromWatchlist_stored_entry rt io db uid wid p u hu with h | ⟨w, hw, h⟩
    · rw [same h hs]
      exact ⟨rfl, Or.inl rfl⟩
    · rw [written _ h hid hs]
      obtain ⟨pre, post, hsplit, hset⟩ := watchlistById_split hw
      exact ⟨rfl, Or.inr ⟨w, pre, post, _, hw, hsplit, hset _⟩⟩

/-- Witness for C22: adding the favorite 7 leaves the watchlists of the account as they
were, and adding the entry 42 to the watchlist "Weekend" leaves its favorites as they
were. -/
theorem collections_frame_witness :
    Store.lookup [accountHolding42] 1 = some accountHolding42 ∧
      (handle nodeRuntime (healthy 0) [accountHolding42] 1
          (.addFavorite ⟨.num 7, .str "Y", .undefined, .undefined⟩)).2.lookup 1 =
        some { accountHolding42 with
          favoriteMovies := [⟨42, "X", none, none⟩, ⟨7, "Y", none, none⟩] } ∧
      ({ accountHolding42 with
          favoriteMovies := [⟨42, "X", none, none⟩, ⟨7, "Y", none, none⟩] } : User).watchlists =
        accountHolding42.watchlists ∧
      (handle nodeRuntime (healthy 0) [accountHolding42] 1
          (.addToWatchlist wid8 entryBody42)).2.lookup 1 = some accountHolding42Everywhere ∧
      accountHolding42Everywhere.favoriteMovies = accountHolding42.favoriteMovies :=
  ⟨by decide, by decide,
    (collections_frame nodeRuntime [accountHolding42] 1 accountHolding42 (by decide)).2.1
      (healthy 0) ⟨.num 7, .str "Y", .undefined, .undefined⟩
      { accountHolding42 with
        favoriteMovies := [⟨42, "X", none, none⟩, ⟨7, "Y", none, none⟩] } (by decide),
    by decide,
    ((collections_frame nodeRuntime [accountHolding42] 1 accountHolding42
      (by decide)).2.2.2.2.1 (healthy 0) wid8 entryBody42 accountHolding42Everywhere
      (by decide)).1⟩

/-! ## C23: the precedence of the failures of add-entry -/

theorem addMovieToWatchlist_table (rt : Runtime) (io : Persistence) (db : Store)
    (uid : ObjectId) (wid : String) (b : WatchlistMovieBody) :
    ((b.tmdbId.truthy = false ∨ b.title.truthy = false) ∧
        addMovieToWatchlist rt io db uid wid b =
          (reply 400 "Movie ID and title are required.", db)) ∨
      (b.tmdbId.truthy = true ∧ b.title.truthy = true ∧ io.loadOk = false ∧
        addMovieToWatchlist rt io db uid wid b =
          (reply 500 "Server error adding movie to watchlist", db)) ∨
      (b.tmdbId.truthy = true ∧ b.title.truthy = true ∧ io.loadOk = true ∧
        db.lookup uid = none ∧
        addMovieToWatchlist rt io db uid wid b = (reply 404 "User not found", db)) ∨
      (b.tmdbId.truthy = true ∧ b.title.truthy = true ∧ io.loadOk = true ∧
        (∃ u, db.lookup uid = some u ∧ watchlistById rt u.watchlists wid = none) ∧
        addMovieToWatchlist rt io db uid wid b = (reply 404 "Watchlist not found", db)) ∨
      (b.tmdbId.truthy = true ∧ b.title.truthy = true ∧ io.loadOk = true ∧
        (∃ u w, db.lookup uid = some u ∧ watchlistById rt u.watchlists wid = some w ∧
          w.movies.any (fun movie => strictEqNumber movie.tmdbId b.tmdbId) = true) ∧
        addMovieToWatchlist rt io db uid wid b =
          (reply 409 "Movie already in this watchlist", db)) ∨
      (b.tmdbId.truthy = true ∧ b.title.truthy = true ∧ io.loadOk = true ∧
        (∃ u w, db.lookup uid = some u ∧ watchlistById rt u.watchlists wid = some w ∧
          w.movies.any (fun movie => strictEqNumber movie.tmdbId b.tmdbId) = false) ∧
        ((addMovieToWatchlist rt io db uid wid b).1.status = 200 ∨
          (addMovieToWatchlist rt io db uid wid b).1.status = 500)) := by
  cases hid : b.tmdbId.truthy with
  | false =>
    left
    refine ⟨Or.inl rfl, ?_⟩
    simp [addMovieToWatchlist, hid]
  | true =>
    cases ht : b.title.truthy with
    | false =>
      left
      refine ⟨Or.inr rfl, ?_⟩
      simp [addMovieToWatchlist, ht]
    | true =>
      right
      cases hl : io.loadOk with
      | false =>
        left
        refine ⟨rfl, rfl, rfl, ?_⟩
        simp [addMovieToWatchlist, hid, ht, findById, hl]
      | true =>
        right
        cases hu : db.lookup uid with
        | none =>
          left
          refine ⟨rfl, rfl, rfl, rfl, ?_⟩
          simp only [addMovieToWatchlist, hid, ht, findById_absent hl hu, Bool.not_true,
            Bool.or_self, Bool.false_eq_true, if_false]
        | some u =>
          right
          cases hw : watchlistById rt u.watchlists wid with
          | none =>
            left
            exact ⟨rfl, rfl, rfl, ⟨u, rfl, hw⟩,
              addMovieToWatchlist_unresolved rt wid b hid ht hl hu hw⟩
          | some w =>
            right
            cases hany : w.movies.any (fun movie => strictEqNumber movie.tmdbId b.tmdbId) with
            | true =>
              left
              refine ⟨rfl, rfl, rfl, ⟨u, w, rfl, hw, hany⟩, ?_⟩
              simp only [addMovieToWatchlist, hid, ht, findById_loaded hl hu, hw, hany,
                Bool.not_true, Bool.or_self, Bool.false_eq_true, if_false, if_true]
            | false =>
              right
              refine ⟨rfl, rfl, rfl, ⟨u, w, rfl, hw, hany⟩, ?_⟩
              simp only [addMovieToWatchlist, hid, ht, findById_loaded hl hu, hw, hany,
                Bool.not_true, Bool.or_self, Bool.false_eq_true, if_false]
              cases save rt io db (pushWatchlistMovie rt ⟨u, false, false⟩ w b).1 with
              | none => right; rfl
              | some db' => left; rfl

/-- C23 (amended): the outcome of add-entry is decided in a fixed order. It is 400, with
the store unchanged, exactly when the id or the title of the body is falsy (absent,
empty, or the id 0), whatever the account and the watchlist; it is 404 'User not found'
exactly when both are truthy, the load succeeds and no account is stored under `uid`;
it is 404 'Watchlist not found' exactly when both are truthy, the account is loaded and
the watchlist parameter does not resolve; it is 409 exactly when both are truthy, the
account is loaded, the watchlist resolves and one of its entries has the id of the
body as a number, which is the case for a nonzero integer id `X` found among the
entries; and the status is always one of 200, 400, 404, 409 and 500. -/
theorem addEntry_failure_precedence (rt : Runtime) (io : Persistence) (db : Store)
    (uid : ObjectId) (wid : String) (b : WatchlistMovieBody) :
    (addMovieToWatchlist rt io db uid wid b =
        (reply 400 "Movie ID and title are required.", db) ↔
      (b.tmdbId.truthy = false ∨ b.title.truthy = false)) ∧
    (addMovieToWatchlist rt io db uid wid b = (reply 404 "User not found", db) ↔
      (b.tmdbId.truthy = true ∧ b.title.truthy = true ∧ io.loadOk = true ∧
        db.lookup uid = none)) ∧
    (addMovieToWatchlist rt io db uid wid b = (reply 404 "Watchlist not found", db) ↔
      (b.tmdbId.truthy = true ∧ b.title.truthy = true ∧ io.loadOk = true ∧
        ∃ u, db.lookup uid = some u ∧ watchlistById rt u.watchlists wid = none)) ∧
    (addMovieToWatchlist rt io db uid wid b =
        (reply 409 "Movie already in this watchlist", db) ↔
      (b.tmdbId.truthy = true ∧ b.title.truthy = true ∧ io.loadOk = true ∧
        ∃ u w, db.lookup uid = some u ∧ watchlistById rt u.watchlists wid = some w ∧
          w.movies.any (fun movie => strictEqNumber movie.tmdbId b.tmdbId) = true)) ∧
    (∀ (u : User) (w : Watchlist) (X : Int), b.tmdbId = .num X → X ≠ 0 →
      b.title.truthy = true → io.loadOk = true → db.lookup uid = some u →
      watchlistById rt u.watchlists wid = some w → X ∈ watchlistIds w →
      addMovieToWatchlist rt io db uid wid b =
        (reply 409 "Movie already in this watchlist", db)) ∧
    (addMovieToWatchlist rt io db uid wid b).1.status ∈ [200, 400, 404, 409, 500] := by
  have T := addMovieToWatchlist_table rt io db uid wid b
  refine ⟨⟨fun h => ?_, fun h => ?_⟩, ⟨fun h => ?_, fun h => ?_⟩, ⟨fun h => ?_, fun h => ?_⟩,
    ⟨fun h => ?_, fun h => ?_⟩, ?_, ?_⟩
  · rcases T with ⟨hc, _⟩ | ⟨_, _, _, he⟩ | ⟨_, _, _, _, he⟩ | ⟨_, _, _, _, he⟩ |
      ⟨_, _, _, _, he⟩ | ⟨_, _, _, _, hs⟩
    · exact hc
    · rw [he] at h; simp [reply] at h
    · rw [he] at h; simp [reply] at h
    · rw [he] at h; simp [reply] at h
    · rw [he] at h; simp [reply] at h
    · rw [h] at hs; simp [reply] at hs
  · rcases T with ⟨_, he⟩ | ⟨hid, ht, _⟩ | ⟨hid, ht, _⟩ | ⟨hid, ht, _⟩ | ⟨hid, ht, _⟩ |
      ⟨hid, ht, _⟩
    · exact he
    all_goals (rcases h with h | h
               · rw [hid] at h; cases h
               · rw [ht] at h; cases h)
  · rcases T with ⟨_, he⟩ | ⟨_, _, _, he⟩ | ⟨hid, ht, hl, hu, _⟩ | ⟨_, _, _, _, he⟩ |
      ⟨_, _, _, _, he⟩ | ⟨_, _, _, _, hs⟩
    · rw [he] at h; simp [reply] at h
    · rw [he] at h; simp [reply] at h
    · exact ⟨hid, ht, hl, hu⟩
    · rw [he] at h; simp [reply] at h
    · rw [he] at h; simp [reply] at h
    · rw [h] at hs; simp [reply] at hs
  · obtain ⟨hid, ht, hl, hu⟩ := h
    simp only [addMovieToWatchlist, hid, ht, findById_absent hl hu, Bool.not_true,
      Bool.or_self, Bool.false_eq_true, if_false]
  · rcases T with ⟨_, he⟩ | ⟨_, _, _, he⟩ | ⟨_, _, _, _, he⟩ | ⟨hid, ht, hl, hex, _⟩ |
      ⟨_, _, _, _, he⟩ | ⟨_, _, _, _, hs⟩
    · rw [he] at h; simp [reply] at h
    · rw [he] at h; simp [reply] at h
    · rw [he] at h; simp [reply] at h
    · exact ⟨hid, ht, hl, hex⟩
    · rw [he] at h; simp [reply] at h
    · rw [h] at hs; simp [reply] at hs
  · obtain ⟨hid, ht, hl, u, hu, hw⟩ := h
    exact addMovieToWatchlist_unresolved rt wid b hid ht hl hu hw
  · rcases T with ⟨_, he⟩ | ⟨_, _, _, he⟩ | ⟨_, _, _, _, he⟩ | ⟨_, _, _, _, he⟩ |
      ⟨hid, ht, hl, hex, _⟩ | ⟨_, _, _, _, hs⟩
    · rw [he] at h; simp [reply] at h
    · rw [he] at h; simp [reply] at h
    · rw [he] at h; simp [reply] at h
    · rw [he] at h; simp [reply] at h
    · exact ⟨hid, ht, hl, hex⟩
    · rw [h] at hs; simp [reply] at hs
  · obtain ⟨hid, ht, hl, u, w, hu, hw, hany⟩ := h
    simp only [addMovieToWatchlist, hid, ht, findById_loaded hl hu, hw, hany,
      Bool.not_true, Bool.or_self, Bool.false_eq_true, if_false, if_true]
  · intro u w X hb hX ht hl hu hw hdup
    exact addMovieToWatchlist_dup rt wid X b hb ht hl hu hw hX hdup
  · rcases T with ⟨_, he⟩ | ⟨_, _, _, he⟩ | ⟨_, _, _, _, he⟩ | ⟨_, _, _, _, he⟩ |
      ⟨_, _, _, _, he⟩ | ⟨_, _, _, _, hs | hs⟩
    · rw [he]; simp [reply]
    · rw [he]; simp [reply]
    · rw [he]; simp [reply]
    · rw [he]; simp [reply]
    · rw [he]; simp [reply]
    · rw [hs]; simp
    · rw [hs]; simp

/-- Witness for C23: on the account whose "Classics" holds 42, adding 42 to "Classics"
answers 409; with no account stored the same body answers 404 'User not found'; and a
body without a title answers 400 with no account stored. -/
theorem addEntry_failure_precedence_witness :
    addMovieToWatchlist nodeRuntime (healthy 0) [accountHolding42] 1 wid7 entryBody42 =
        (reply 409 "Movie already in this watchlist", [accountHolding42]) ∧
      addMovieToWatchlist nodeRuntime (healthy 0) [] 1 wid7 entryBody42 =
        (reply 404 "User not found", []) ∧
      addMovieToWatchlist nodeRuntime (healthy 0) [] 1 wid7 ⟨.num 42, .undefined, .undefined⟩ =
        (reply 400 "Movie ID and title are required.", []) :=
  ⟨(addEntry_failure_precedence nodeRuntime (healthy 0) [accountHolding42] 1 wid7
      entryBody42).2.2.2.2.1 accountHolding42 ⟨7, "Classics", [⟨42, "X", none⟩]⟩ 42 rfl
      (by decide) (by decide) rfl (by decide) (by decide) (by decide),
    (addEntry_failure_precedence nodeRuntime (healthy 0) [] 1 wid7 entryBody42).2.1.mpr
      ⟨by decide, by decide, rfl, by decide⟩,
    (addEntry_failure_precedence nodeRuntime (healthy 0) [] 1 wid7
      ⟨.num 42, .undefined, .undefined⟩).1.mpr (Or.inr (by decide))⟩

/-- C23 fails at the id 0: the body carries the integer id 0 and the title "X", no
account is stored under the id 1 and the load succeeds, and the answer is 400 and no
404 'User not found'. -/
theorem zero_id_precedes_absent_account :
    entryBodyZero.tmdbId = .num 0 ∧ entryBodyZero.title = .str "X" ∧
      (healthy 0).loadOk = true ∧ Store.lookup [] 1 = none ∧
      addMovieToWatchlist nodeRuntime (healthy 0) [] 1 wid7 entryBodyZero =
        (reply 400 "Movie ID and title are required.", []) := by
  decide

end MoviePlatform
